import Mathlib

/-!
# LearnOpenGL tutorial programs: call traces

Each of the four programs of the repository is a `main` that issues a linear
sequence of GLFW / GLAD / OpenGL calls, with three kinds of branching: the two
early returns of the window setup, the `if (!success)` diagnostics of the
shader construction, and the render loop.  The embedding below turns every
`main` into a function from the answers of the outside world (does the window
open, which names does the driver hand out, which keys are down in which
frame) to the list of calls the program makes, in order, together with the
exit code.

A `float` is the rational it holds.  A `float` literal passed straight to a
call is written as the decimal it is spelled with (`0.5f` is `1/2`); where a
program computes with `float`s, in the updates of `mixValue` and the cast of
the time, the results are rounded to binary32 by `f32Round`.  Integers and
object names are natural numbers, C strings are `String`s.
-/

namespace LearnOpenGL

/-! ## Constants of the external APIs -/

/-- The `GLenum` constants the four programs pass to OpenGL. -/
inductive GLenum
  | GL_VERTEX_SHADER
  | GL_FRAGMENT_SHADER
  | GL_COMPILE_STATUS
  | GL_LINK_STATUS
  | GL_ARRAY_BUFFER
  | GL_ELEMENT_ARRAY_BUFFER
  | GL_STATIC_DRAW
  | GL_FLOAT
  | GL_UNSIGNED_INT
  | GL_UNSIGNED_BYTE
  | GL_TRIANGLES
  | GL_COLOR_BUFFER_BIT
  | GL_TEXTURE_2D
  | GL_TEXTURE_WRAP_S
  | GL_TEXTURE_WRAP_T
  | GL_TEXTURE_MIN_FILTER
  | GL_TEXTURE_MAG_FILTER
  | GL_REPEAT
  | GL_NEAREST
  | GL_RGB
  | GL_RGBA
  | GL_TEXTURE0
  | GL_TEXTURE1
  deriving DecidableEq, Repr

/-- The window hints set before `glfwCreateWindow`. -/
inductive GlfwHint
  | GLFW_CONTEXT_VERSION_MAJOR
  | GLFW_CONTEXT_VERSION_MINOR
  | GLFW_OPENGL_PROFILE
  | GLFW_OPENGL_FORWARD_COMPAT
  deriving DecidableEq, Repr

/-- The values given to the window hints. -/
inductive GlfwHintValue
  | num (n : Nat)
  | GLFW_OPENGL_CORE_PROFILE
  | GL_TRUE
  deriving DecidableEq, Repr

/-- The keys queried by `processInput`. -/
inductive Key
  | GLFW_KEY_ESCAPE
  | GLFW_KEY_UP
  | GLFW_KEY_DOWN
  deriving DecidableEq, Repr

/-- The host array handed to `glBufferData`. -/
inductive HostArray
  | floats (xs : List ℚ)
  | uints (xs : List Nat)
  deriving DecidableEq, Repr

/-- The value of `trans`, as the chain of glm calls that built it. -/
inductive Mat4
  | identity
  | rotate (m : Mat4) (angle : ℚ) (x y z : ℚ)
  | scale (m : Mat4) (x y z : ℚ)
  deriving DecidableEq, Repr

/-- The out-parameters of a successful `stbi_load`. -/
structure Image where
  width : Nat
  height : Nat
  nrChannels : Nat
  deriving DecidableEq, Repr

/-- The size of a `float` in bytes. -/
def sizeofFloat : Nat := 4

/-- The size of an `unsigned int` in bytes. -/
def sizeofUInt : Nat := 4

/-! ## Events: one constructor per call of the source -/

/-- One call made by a program, with its arguments and, where the program
reads it, the answer of the outside world.  `coutLit` is `cout << "..."` with a
string literal, `coutInfoLog` is `cout << infoLog` with the contents of the
buffer at that moment. -/
inductive Event
  | glfwInit
  | glfwWindowHint (hint : GlfwHint) (value : GlfwHintValue)
  | glfwCreateWindow (width height : Nat) (title : String) (created : Bool)
  | glfwTerminate
  | glfwMakeContextCurrent
  | glfwSetFramebufferSizeCallback
  | gladLoadGLLoader (loaded : Bool)
  | glfwWindowShouldClose (ret : Bool)
  | glfwGetKey (key : Key) (pressed : Bool)
  | glfwSetWindowShouldClose (value : Bool)
  | glfwSwapBuffers
  | glfwPollEvents
  | glfwGetTime (ret : ℚ)
  | coutLit (s : String)
  | coutInfoLog (s : String)
  | endl
  | glCreateShader (type : GLenum) (ret : Nat)
  | glShaderSource (shader : Nat) (count : Nat) (source : String)
  | glCompileShader (shader : Nat)
  | glGetShaderiv (shader : Nat) (pname : GLenum) (success : Bool)
  | glGetShaderInfoLog (shader : Nat) (maxLength : Nat) (written : String)
  | glCreateProgram (ret : Nat)
  | glAttachShader (program shader : Nat)
  | glLinkProgram (program : Nat)
  | glGetProgramiv (program : Nat) (pname : GLenum) (success : Bool)
  | glGetProgramInfoLog (program : Nat) (maxLength : Nat) (written : String)
  | glDeleteShader (shader : Nat)
  | glUseProgram (program : Nat)
  | glDeleteProgram (program : Nat)
  | glGenVertexArrays (n : Nat) (ret : Nat)
  | glGenBuffers (n : Nat) (ret : Nat)
  | glBindVertexArray (array : Nat)
  | glBindBuffer (target : GLenum) (buffer : Nat)
  | glBufferData (target : GLenum) (size : Nat) (data : HostArray) (usage : GLenum)
  | glVertexAttribPointer (index size : Nat) (type : GLenum) (normalized : Bool)
      (stride pointer : Nat)
  | glEnableVertexAttribArray (index : Nat)
  | glDeleteVertexArrays (n : Nat) (array : Nat)
  | glDeleteBuffers (n : Nat) (buffer : Nat)
  | glClearColor (r g b a : ℚ)
  | glClear (mask : GLenum)
  | glDrawArrays (mode : GLenum) (first count : Nat)
  | glDrawElements (mode : GLenum) (count : Nat) (type : GLenum) (indices : Nat)
  | glViewport (x y width height : Int)
  | glGenTextures (n : Nat) (ret : Nat)
  | glBindTexture (target : GLenum) (texture : Nat)
  | glActiveTexture (unit : GLenum)
  | glTexParameteri (target pname param : GLenum)
  | glTexImage2D (target : GLenum) (level : Nat) (internalformat : GLenum)
      (width height border : Nat) (format type : GLenum)
  | glGenerateMipmap (target : GLenum)
  | stbi_load (path : String) (loaded : Option Image)
  | stbi_image_free
  | stbi_set_flip_vertically_on_load (flag : Bool)
  | Shader_ctor (vertexPath fragmentPath : String)
  | Shader_use
  | Shader_setInt (name : String) (value : Int)
  | Shader_setFloat (name : String) (value : ℚ)
  | Shader_setMat4 (name : String) (value : Mat4)
  | Shader_deleteShaderProgram
  deriving Repr

/-- What an execution of `main` is observed to do: the calls made, in order,
and the value returned by `main`, or `none` when the observation ends with
the program still inside its render loop. -/
structure Run where
  trace : List Event
  exit : Option Int
  deriving Repr

/-! ## The outside world -/

/-- What the window system delivers during one iteration of the render loop:
the key states seen by `processInput`, the clock read by `glfwGetTime`, and
during `glfwPollEvents` the framebuffer resizes and a close request. -/
structure FrameInput where
  esc : Bool
  up : Bool
  down : Bool
  time : ℚ
  resizes : List (Int × Int)
  closeRequested : Bool
  deriving Repr

/-- The answers common to the four programs: whether `__APPLE__` is defined,
whether `glfwCreateWindow` returns a window, whether `gladLoadGLLoader`
succeeds, and the inputs of the successive frames. -/
structure Host where
  apple : Bool
  windowOk : Bool
  gladOk : Bool
  frames : List FrameInput
  deriving Repr

/-- The close flag of the GLFW window, read by `glfwWindowShouldClose`. -/
structure Window where
  shouldClose : Bool
  deriving DecidableEq, Repr

/-! ## Code shared verbatim by the four files -/

/-- The settings `SCR_WIDTH`. -/
def SCR_WIDTH : Nat := 800

/-- The settings `SCR_HEIGHT`. -/
def SCR_HEIGHT : Nat := 600

/-- The start of every `main`: `glfwInit`, the window hints and
`glfwCreateWindow`. -/
def createWindow (h : Host) : List Event :=
  [Event.glfwInit,
   Event.glfwWindowHint GlfwHint.GLFW_CONTEXT_VERSION_MAJOR (GlfwHintValue.num 3),
   Event.glfwWindowHint GlfwHint.GLFW_CONTEXT_VERSION_MINOR (GlfwHintValue.num 3),
   Event.glfwWindowHint GlfwHint.GLFW_OPENGL_PROFILE GlfwHintValue.GLFW_OPENGL_CORE_PROFILE]
  ++ (if h.apple then
        [Event.glfwWindowHint GlfwHint.GLFW_OPENGL_FORWARD_COMPAT GlfwHintValue.GL_TRUE]
      else [])
  ++ [Event.glfwCreateWindow SCR_WIDTH SCR_HEIGHT "LearnOpenGL" h.windowOk]

/-- The branch `if (window == NULL)`. -/
def windowFailed : List Event :=
  [Event.coutLit "Failed to create GLFW window", Event.endl, Event.glfwTerminate]

/-- The calls between window creation and the GLAD check, and the check. -/
def loadGL (h : Host) : List Event :=
  [Event.glfwMakeContextCurrent, Event.glfwSetFramebufferSizeCallback,
   Event.gladLoadGLLoader h.gladOk]

/-- The branch `if (!gladLoadGLLoader(...))`. -/
def gladFailed : List Event :=
  [Event.coutLit "Failed to initialize GLAD", Event.endl]

/-- The function `framebuffer_size_callback`. -/
def framebuffer_size_callback (width height : Int) : List Event :=
  [Event.glViewport 0 0 width height]

/-- The call `glfwPollEvents()`: GLFW runs the registered framebuffer-size
callback once per resize and raises the close flag on a close request. -/
def glfwPollEvents (w : Window) (i : FrameInput) : List Event × Window :=
  (Event.glfwPollEvents ::
     (i.resizes.map (fun wh => framebuffer_size_callback wh.1 wh.2)).flatten,
   if i.closeRequested then { shouldClose := true } else w)

/-- The function `processInput` of main.cpp, Shaders.cpp and Textures/shader.cpp. -/
def processInput (w : Window) (i : FrameInput) : List Event × Window :=
  if i.esc then
    ([Event.glfwGetKey Key.GLFW_KEY_ESCAPE true, Event.glfwSetWindowShouldClose true],
     { shouldClose := true })
  else
    ([Event.glfwGetKey Key.GLFW_KEY_ESCAPE false], w)

/-- The loop `while (!glfwWindowShouldClose(window)) body`.  The state `σ`
holds the window and the variables the body changes; `frame` is one iteration
of the body.  The result is the calls made and whether the loop was left; when
the frame inputs are used up with the close flag down, the trace ends with the
loop test that enters the next iteration and the loop was not left. -/
def renderLoop {σ : Type} (shouldClose : σ → Bool)
    (frame : σ → FrameInput → List Event × σ) : σ → List FrameInput → List Event × Bool
  | s, [] =>
    if shouldClose s then ([Event.glfwWindowShouldClose true], true)
    else ([Event.glfwWindowShouldClose false], false)
  | s, i :: rest =>
    if shouldClose s then ([Event.glfwWindowShouldClose true], true)
    else
      (Event.glfwWindowShouldClose false ::
         ((frame s i).1 ++ (renderLoop shouldClose frame (frame s i).2 rest).1),
       (renderLoop shouldClose frame (frame s i).2 rest).2)

/-- The text `glGetShaderInfoLog` / `glGetProgramInfoLog` store in a buffer of
`maxLength` characters: the log cut to leave room for the terminator. -/
def infoLogText (maxLength : Nat) (log : String) : String :=
  String.mk (log.data.take (maxLength - 1))

/-! ## binary32 arithmetic -/

/-- The integer nearest to a rational, the even one of the two when it lies
halfway between them. -/
def roundHalfEven (y : ℚ) : ℤ :=
  if y - ⌊y⌋ < 1/2 then ⌊y⌋
  else if 1/2 < y - ⌊y⌋ then ⌊y⌋ + 1
  else if ⌊y⌋ % 2 = 0 then ⌊y⌋ else ⌊y⌋ + 1

/-- The binary exponent that binary32 uses for `x`: the exponent of the
leading bit, and the least normal exponent -126 for zero and the subnormal
range. -/
def f32Exponent (x : ℚ) : ℤ :=
  if x = 0 then -126 else max (Int.log 2 |x|) (-126)

/-- The spacing of the binary32 values around `x`: 24 significant bits. -/
def f32Ulp (x : ℚ) : ℚ := 2 ^ (f32Exponent x - 23)

/-- The binary32 value nearest to `x`, ties to the even significand: the
result of a `float` operation whose exact result is `x`, the value of a
`float` literal written as `x`, and the result of casting the `double` `x` to
`float`. The exponent has no upper limit here, so this is binary32 below its
overflow threshold `2 ^ 128 - 2 ^ 103`; the sums formed by `processInput` stay
below 2 in magnitude. -/
def f32Round (x : ℚ) : ℚ := roundHalfEven (x / f32Ulp x) * f32Ulp x

/-- The finite values of the binary32 format. -/
def IsBinary32 (m : ℚ) : Prop :=
  ∃ k j : ℤ, |k| < 2 ^ 24 ∧ -149 ≤ j ∧ j ≤ 104 ∧ m = k * 2 ^ j

/-! ## main.cpp (directory LearOpenGL): two flat-colour triangles -/

namespace MainCpp

/-- The global `vertexShaderSource`, up to its terminator. -/
def vertexShaderSource : String :=
  "#version 330 core\n" ++
  "layout (location = 0) in vec3 aPos;\n" ++
  "void main()\n" ++
  "\x7b\n" ++
  " gl_Position = vec4(aPos.x, aPos.y, aPos.z, 1.0);\n" ++
  "\x7d"

/-- The global `fragmentShaderSource`, up to its terminator. -/
def fragmentShaderSource : String :=
  "#version 330 core\n" ++
  "out vec4 FragColor;\n" ++
  "void main()\n" ++
  "\x7b\n" ++
  "\tFragColor=vec4(1.0f,0.5f,0.2f,1.0f);\n" ++
  "\x7d\n"

/-- The local array `vertices1`. -/
def vertices1 : List ℚ :=
  [ 1/2,  1/2, 0,
    1/2, -1/2, 0,
   -1/2,  1/2, 0]

/-- The local array `vertices2`. -/
def vertices2 : List ℚ :=
  [ 1/2, -1/2, 0,
   -1/2, -1/2, 0,
   -1/2,  1/2, 0]

/-- The answers of the OpenGL driver to main.cpp: the object names it hands
out, the three status values, the three logs it holds, and the bytes found in
the uninitialised `infoLog` array. -/
structure Driver where
  vertexShader : Nat
  vertexStatus : Bool
  vertexLog : String
  fragmentShader : Nat
  fragmentStatus : Bool
  fragmentLog : String
  shaderProgram : Nat
  linkStatus : Bool
  linkLog : String
  infoLogInit : String
  VAO1 : Nat
  VBO1 : Nat
  VAO2 : Nat
  VBO2 : Nat
  deriving Repr

/-- Lines 84-100: the vertex stage.  Returns the calls and the contents of
`infoLog` afterwards. -/
def vertexStage (d : Driver) : List Event × String :=
  let calls :=
    [Event.glCreateShader GLenum.GL_VERTEX_SHADER d.vertexShader,
     Event.glShaderSource d.vertexShader 1 vertexShaderSource,
     Event.glCompileShader d.vertexShader,
     Event.glGetShaderiv d.vertexShader GLenum.GL_COMPILE_STATUS d.vertexStatus]
  if !d.vertexStatus then
    let infoLog := infoLogText 512 d.vertexLog
    (calls ++
      [Event.glGetShaderInfoLog d.vertexShader 512 infoLog,
       Event.coutLit "ERROR::SHADER::VERTEX::COMPILATION_FAILED\n",
       Event.coutInfoLog infoLog,
       Event.endl],
     infoLog)
  else (calls, d.infoLogInit)

/-- Lines 102-111: the fragment stage, entered with `infoLog` as the vertex
stage left it. -/
def fragmentStage (d : Driver) (infoLog0 : String) : List Event × String :=
  let calls :=
    [Event.glCreateShader GLenum.GL_FRAGMENT_SHADER d.fragmentShader,
     Event.glShaderSource d.fragmentShader 1 fragmentShaderSource,
     Event.glCompileShader d.fragmentShader,
     Event.glGetShaderiv d.fragmentShader GLenum.GL_COMPILE_STATUS d.fragmentStatus]
  if !d.fragmentStatus then
    let infoLog := infoLogText 512 d.fragmentLog
    (calls ++
      [Event.glGetShaderInfoLog d.fragmentShader 512 infoLog,
       Event.coutLit "ERROR::SHADER::FRAGMENT::COMPILATION_FAILED\n",
       Event.coutInfoLog infoLog,
       Event.endl],
     infoLog)
  else (calls, infoLog0)

/-- Lines 113-124: program creation, attachment, link, link check and the
deletion of the two stage objects. -/
def linkStage (d : Driver) (infoLog0 : String) : List Event × String :=
  let calls :=
    [Event.glCreateProgram d.shaderProgram,
     Event.glAttachShader d.shaderProgram d.vertexShader,
     Event.glAttachShader d.shaderProgram d.fragmentShader,
     Event.glLinkProgram d.shaderProgram,
     Event.glGetProgramiv d.shaderProgram GLenum.GL_LINK_STATUS d.linkStatus]
  let deletes :=
    [Event.glDeleteShader d.vertexShader, Event.glDeleteShader d.fragmentShader]
  if !d.linkStatus then
    let infoLog := infoLogText 512 d.linkLog
    (calls ++
      [Event.glGetProgramInfoLog d.shaderProgram 512 infoLog,
       Event.coutLit "ERROR::SHADER::PROGRAM::LINKING_FAILED\n",
       Event.coutInfoLog infoLog,
       Event.endl] ++ deletes,
     infoLog)
  else (calls ++ deletes, infoLog0)

/-- Lines 84-124: the inlined shader construction. -/
def shaderConstruction (d : Driver) : List Event :=
  let v := vertexStage d
  let f := fragmentStage d v.2
  let l := linkStage d f.2
  v.1 ++ f.1 ++ l.1

/-- Lines 152-185: the two vertex arrays and their buffers. -/
def bufferSetup (d : Driver) : List Event :=
  [Event.glGenVertexArrays 1 d.VAO1,
   Event.glGenBuffers 1 d.VBO1,
   Event.glBindVertexArray d.VAO1,
   Event.glBindBuffer GLenum.GL_ARRAY_BUFFER d.VBO1,
   Event.glBufferData GLenum.GL_ARRAY_BUFFER (vertices1.length * sizeofFloat)
     (HostArray.floats vertices1) GLenum.GL_STATIC_DRAW,
   Event.glVertexAttribPointer 0 3 GLenum.GL_FLOAT false (3 * sizeofFloat) 0,
   Event.glEnableVertexAttribArray 0,
   Event.glGenVertexArrays 1 d.VAO2,
   Event.glGenBuffers 1 d.VBO2,
   Event.glBindVertexArray d.VAO2,
   Event.glBindBuffer GLenum.GL_ARRAY_BUFFER d.VBO2,
   Event.glBufferData GLenum.GL_ARRAY_BUFFER (vertices2.length * sizeofFloat)
     (HostArray.floats vertices2) GLenum.GL_STATIC_DRAW,
   Event.glVertexAttribPointer 0 3 GLenum.GL_FLOAT false (3 * sizeofFloat) 0,
   Event.glEnableVertexAttribArray 0,
   Event.glBindBuffer GLenum.GL_ARRAY_BUFFER 0,
   Event.glBindVertexArray 0]

/-- Lines 205-223: the rendering of one frame. -/
def render (d : Driver) : List Event :=
  [Event.glClearColor (1/5) (3/10) (3/10) 1,
   Event.glClear GLenum.GL_COLOR_BUFFER_BIT,
   Event.glUseProgram d.shaderProgram,
   Event.glBindVertexArray d.VAO1,
   Event.glDrawArrays GLenum.GL_TRIANGLES 0 3,
   Event.glBindVertexArray d.VAO2,
   Event.glDrawArrays GLenum.GL_TRIANGLES 0 3,
   Event.glfwSwapBuffers]

/-- Lines 194-227: one iteration of the render loop. -/
def frame (d : Driver) (w : Window) (i : FrameInput) : List Event × Window :=
  let inp := processInput w i
  let poll := glfwPollEvents inp.2 i
  (inp.1 ++ render d ++ poll.1, poll.2)

/-- Lines 84-185: everything between the GLAD check and the render loop. -/
def setup (d : Driver) : List Event :=
  shaderConstruction d ++ bufferSetup d

/-- Lines 231-240: the de-allocation after the loop. -/
def cleanup (d : Driver) : List Event :=
  [Event.glDeleteVertexArrays 1 d.VAO1,
   Event.glDeleteBuffers 1 d.VBO1,
   Event.glDeleteVertexArrays 1 d.VAO2,
   Event.glDeleteBuffers 1 d.VBO2,
   Event.glDeleteProgram d.shaderProgram,
   Event.glfwTerminate]

/-- The function `main` of main.cpp. -/
def main (h : Host) (d : Driver) : Run :=
  if !h.windowOk then
    { trace := createWindow h ++ windowFailed, exit := some (-1) }
  else if !h.gladOk then
    { trace := createWindow h ++ loadGL h ++ gladFailed, exit := some (-1) }
  else
    let loop := renderLoop Window.shouldClose (frame d) { shouldClose := false } h.frames
    let pre := createWindow h ++ loadGL h ++ setup d
    if loop.2 then
      { trace := pre ++ loop.1 ++ cleanup d, exit := some 0 }
    else
      { trace := pre ++ loop.1, exit := none }

end MainCpp

/-! ## Shaders_Ex1_UpsideDown/Shaders.cpp: one vertex-colour triangle -/

namespace ShadersCpp

/-- The local array `vertices`: position and colour of three vertices. -/
def vertices : List ℚ :=
  [ 1/2, -1/2, 0,  1, 0, 0,
   -1/2, -1/2, 0,  0, 1, 0,
    0,    1/2, 0,  0, 0, 1]

/-- The object names the driver hands to Shaders.cpp. -/
structure Driver where
  VAO : Nat
  VBO : Nat
  deriving Repr

/-- Lines 71-105: the shader object, the vertex array and its buffer. -/
def setup (d : Driver) : List Event :=
  [Event.Shader_ctor "./Shaders_Ex1_UpsideDown/shader.vs" "./Shaders_Ex1_UpsideDown/shader.fs",
   Event.glGenVertexArrays 1 d.VAO,
   Event.glGenBuffers 1 d.VBO,
   Event.glBindVertexArray d.VAO,
   Event.glBindBuffer GLenum.GL_ARRAY_BUFFER d.VBO,
   Event.glBufferData GLenum.GL_ARRAY_BUFFER (vertices.length * sizeofFloat)
     (HostArray.floats vertices) GLenum.GL_STATIC_DRAW,
   Event.glVertexAttribPointer 0 3 GLenum.GL_FLOAT false (6 * sizeofFloat) 0,
   Event.glEnableVertexAttribArray 0,
   Event.glVertexAttribPointer 1 3 GLenum.GL_FLOAT false (6 * sizeofFloat) (3 * sizeofFloat),
   Event.glEnableVertexAttribArray 1,
   Event.glBindBuffer GLenum.GL_ARRAY_BUFFER 0,
   Event.glBindVertexArray 0]

/-- Lines 125-137: the rendering of one frame. -/
def render (d : Driver) : List Event :=
  [Event.glClearColor (1/5) (3/10) (3/10) 1,
   Event.glClear GLenum.GL_COLOR_BUFFER_BIT,
   Event.Shader_use,
   Event.glBindVertexArray d.VAO,
   Event.glDrawArrays GLenum.GL_TRIANGLES 0 3,
   Event.glfwSwapBuffers]

/-- Lines 114-141: one iteration of the render loop. -/
def frame (d : Driver) (w : Window) (i : FrameInput) : List Event × Window :=
  let inp := processInput w i
  let poll := glfwPollEvents inp.2 i
  (inp.1 ++ render d ++ poll.1, poll.2)

/-- Lines 145-151: the de-allocation after the loop. -/
def cleanup (d : Driver) : List Event :=
  [Event.glDeleteVertexArrays 1 d.VAO,
   Event.glDeleteBuffers 1 d.VBO,
   Event.Shader_deleteShaderProgram,
   Event.glfwTerminate]

/-- The function `main` of Shaders.cpp. -/
def main (h : Host) (d : Driver) : Run :=
  if !h.windowOk then
    { trace := createWindow h ++ windowFailed, exit := some (-1) }
  else if !h.gladOk then
    { trace := createWindow h ++ loadGL h ++ gladFailed, exit := some (-1) }
  else
    let loop := renderLoop Window.shouldClose (frame d) { shouldClose := false } h.frames
    let pre := createWindow h ++ loadGL h ++ setup d
    if loop.2 then
      { trace := pre ++ loop.1 ++ cleanup d, exit := some 0 }
    else
      { trace := pre ++ loop.1, exit := none }

end ShadersCpp

/-! ## Textures/shader.cpp: one textured quad -/

namespace TexturesCpp

/-- The local array `vertices`: position, colour and texture coordinates of
four vertices. -/
def vertices : List ℚ :=
  [ 1/2,  1/2, 0,  1, 0, 0,  1, 1,
    1/2, -1/2, 0,  0, 1, 0,  1, 0,
   -1/2, -1/2, 0,  0, 0, 1,  0, 0,
   -1/2,  1/2, 0,  1, 1, 0,  0, 1]

/-- The local array `indices`. -/
def indices : List Nat :=
  [0, 1, 3,
   1, 2, 3]

/-- The object names the driver hands to Textures/shader.cpp and the result of
decoding the image file. -/
structure Driver where
  VAO : Nat
  VBO : Nat
  EBO : Nat
  texture : Nat
  image : Option Image
  deriving Repr

/-- Lines 146-154: upload of the decoded image, or the failure message. -/
def uploadImage (format : GLenum) : Option Image → List Event
  | some img =>
    [Event.glTexImage2D GLenum.GL_TEXTURE_2D 0 GLenum.GL_RGB img.width img.height 0 format
       GLenum.GL_UNSIGNED_BYTE,
     Event.glGenerateMipmap GLenum.GL_TEXTURE_2D]
  | none => [Event.coutLit "Failed to load texture", Event.endl]

/-- Lines 74-161: the shader object, the vertex array with its two buffers,
and the texture. -/
def setup (d : Driver) : List Event :=
  [Event.Shader_ctor "./Textures/shader.vs" "./Textures/shader.fs",
   Event.glGenVertexArrays 1 d.VAO,
   Event.glGenBuffers 1 d.VBO,
   Event.glGenBuffers 1 d.EBO,
   Event.glBindVertexArray d.VAO,
   Event.glBindBuffer GLenum.GL_ARRAY_BUFFER d.VBO,
   Event.glBufferData GLenum.GL_ARRAY_BUFFER (vertices.length * sizeofFloat)
     (HostArray.floats vertices) GLenum.GL_STATIC_DRAW,
   Event.glBindBuffer GLenum.GL_ELEMENT_ARRAY_BUFFER d.EBO,
   Event.glBufferData GLenum.GL_ELEMENT_ARRAY_BUFFER (indices.length * sizeofUInt)
     (HostArray.uints indices) GLenum.GL_STATIC_DRAW,
   Event.glVertexAttribPointer 0 3 GLenum.GL_FLOAT false (8 * sizeofFloat) 0,
   Event.glEnableVertexAttribArray 0,
   Event.glVertexAttribPointer 1 3 GLenum.GL_FLOAT false (8 * sizeofFloat) (3 * sizeofFloat),
   Event.glEnableVertexAttribArray 1,
   Event.glVertexAttribPointer 2 2 GLenum.GL_FLOAT false (8 * sizeofFloat) (6 * sizeofFloat),
   Event.glEnableVertexAttribArray 2,
   Event.glGenTextures 1 d.texture,
   Event.glBindTexture GLenum.GL_TEXTURE_2D d.texture,
   Event.glTexParameteri GLenum.GL_TEXTURE_2D GLenum.GL_TEXTURE_WRAP_S GLenum.GL_REPEAT,
   Event.glTexParameteri GLenum.GL_TEXTURE_2D GLenum.GL_TEXTURE_WRAP_T GLenum.GL_REPEAT,
   Event.stbi_load "./Textures/container.jpg" d.image]
  ++ uploadImage GLenum.GL_RGB d.image ++
  [Event.stbi_image_free,
   Event.glBindBuffer GLenum.GL_ARRAY_BUFFER 0,
   Event.glBindVertexArray 0]

/-- Lines 181-200: the rendering of one frame. -/
def render (d : Driver) : List Event :=
  [Event.glClearColor (1/5) (3/10) (3/10) 1,
   Event.glClear GLenum.GL_COLOR_BUFFER_BIT,
   Event.glBindTexture GLenum.GL_TEXTURE_2D d.texture,
   Event.Shader_use,
   Event.Shader_setFloat "horizonOffset" 0,
   Event.glBindVertexArray d.VAO,
   Event.glDrawElements GLenum.GL_TRIANGLES 6 GLenum.GL_UNSIGNED_INT 0,
   Event.glfwSwapBuffers]

/-- Lines 170-204: one iteration of the render loop. -/
def frame (d : Driver) (w : Window) (i : FrameInput) : List Event × Window :=
  let inp := processInput w i
  let poll := glfwPollEvents inp.2 i
  (inp.1 ++ render d ++ poll.1, poll.2)

/-- Lines 208-215: the de-allocation after the loop. -/
def cleanup (d : Driver) : List Event :=
  [Event.glDeleteVertexArrays 1 d.VAO,
   Event.glDeleteBuffers 1 d.VBO,
   Event.glDeleteBuffers 1 d.EBO,
   Event.Shader_deleteShaderProgram,
   Event.glfwTerminate]

/-- The function `main` of Textures/shader.cpp. -/
def main (h : Host) (d : Driver) : Run :=
  if !h.windowOk then
    { trace := createWindow h ++ windowFailed, exit := some (-1) }
  else if !h.gladOk then
    { trace := createWindow h ++ loadGL h ++ gladFailed, exit := some (-1) }
  else
    let loop := renderLoop Window.shouldClose (frame d) { shouldClose := false } h.frames
    let pre := createWindow h ++ loadGL h ++ setup d
    if loop.2 then
      { trace := pre ++ loop.1 ++ cleanup d, exit := some 0 }
    else
      { trace := pre ++ loop.1, exit := none }

end TexturesCpp

/-! ## Transformations/shader.cpp: two blended textures on a rotating quad -/

namespace TransformationsCpp

/-- The local array `vertices`. -/
def vertices : List ℚ :=
  [ 1/2,  1/2, 0,  1, 0, 0,  1, 1,
    1/2, -1/2, 0,  0, 1, 0,  1, 0,
   -1/2, -1/2, 0,  0, 0, 1,  0, 0,
   -1/2,  1/2, 0,  1, 1, 0,  0, 1]

/-- The local array `indices`. -/
def indices : List Nat :=
  [0, 1, 3,
   1, 2, 3]

/-- The object names the driver hands to Transformations/shader.cpp and the
results of decoding the two image files. -/
structure Driver where
  VAO : Nat
  VBO : Nat
  EBO : Nat
  texture1 : Nat
  texture2 : Nat
  image1 : Option Image
  image2 : Option Image
  deriving Repr

/-- The window together with the global `mixValue`. -/
structure State where
  window : Window
  mixValue : ℚ
  deriving Repr

/-- The initial value of the global `mixValue`: the literal `0.2f`. -/
def mixValueInit : ℚ := f32Round (1/5)

/-- The effect of `processInput` on the `float` variable `mixValue`, given the
states of the UP and DOWN keys: `+= 0.001f` and `-= 0.001f` are binary32
operations, each followed by its comparison with `1.0f` or `0.0f`. -/
def mixAfter (mixValue : ℚ) (up down : Bool) : ℚ :=
  let m1 :=
    if up then
      (if f32Round (mixValue + f32Round (1/1000)) ≥ 1 then 1
       else f32Round (mixValue + f32Round (1/1000)))
    else mixValue
  if down then
    (if f32Round (m1 - f32Round (1/1000)) ≤ 0 then 0
     else f32Round (m1 - f32Round (1/1000)))
  else m1

/-- The function `processInput` of Transformations/shader.cpp. -/
def processInput (s : State) (i : FrameInput) : List Event × State :=
  ([Event.glfwGetKey Key.GLFW_KEY_ESCAPE i.esc]
     ++ (if i.esc then [Event.glfwSetWindowShouldClose true] else [])
     ++ [Event.glfwGetKey Key.GLFW_KEY_UP i.up, Event.glfwGetKey Key.GLFW_KEY_DOWN i.down],
   { window := if i.esc then { shouldClose := true } else s.window,
     mixValue := mixAfter s.mixValue i.up i.down })

/-- Lines 153-161 and 176-186: upload of the decoded image, or the failure
message. -/
def uploadImage (format : GLenum) : Option Image → List Event
  | some img =>
    [Event.glTexImage2D GLenum.GL_TEXTURE_2D 0 GLenum.GL_RGB img.width img.height 0 format
       GLenum.GL_UNSIGNED_BYTE,
     Event.glGenerateMipmap GLenum.GL_TEXTURE_2D]
  | none => [Event.coutLit "Failed to load texture", Event.endl]

/-- Lines 141-149 and 165-173: creation and parameters of one texture object. -/
def textureObject (texture : Nat) : List Event :=
  [Event.glGenTextures 1 texture,
   Event.glBindTexture GLenum.GL_TEXTURE_2D texture,
   Event.glTexParameteri GLenum.GL_TEXTURE_2D GLenum.GL_TEXTURE_WRAP_S GLenum.GL_REPEAT,
   Event.glTexParameteri GLenum.GL_TEXTURE_2D GLenum.GL_TEXTURE_WRAP_T GLenum.GL_REPEAT,
   Event.glTexParameteri GLenum.GL_TEXTURE_2D GLenum.GL_TEXTURE_MIN_FILTER GLenum.GL_NEAREST,
   Event.glTexParameteri GLenum.GL_TEXTURE_2D GLenum.GL_TEXTURE_MAG_FILTER GLenum.GL_NEAREST]

/-- Lines 80-199: the shader object, the vertex array with its two buffers,
the two textures and the sampler uniforms. -/
def setup (d : Driver) : List Event :=
  [Event.Shader_ctor "./Transformations/shader.vs" "./Transformations/shader.fs",
   Event.glGenVertexArrays 1 d.VAO,
   Event.glGenBuffers 1 d.VBO,
   Event.glGenBuffers 1 d.EBO,
   Event.glBindVertexArray d.VAO,
   Event.glBindBuffer GLenum.GL_ARRAY_BUFFER d.VBO,
   Event.glBufferData GLenum.GL_ARRAY_BUFFER (vertices.length * sizeofFloat)
     (HostArray.floats vertices) GLenum.GL_STATIC_DRAW,
   Event.glBindBuffer GLenum.GL_ELEMENT_ARRAY_BUFFER d.EBO,
   Event.glBufferData GLenum.GL_ELEMENT_ARRAY_BUFFER (indices.length * sizeofUInt)
     (HostArray.uints indices) GLenum.GL_STATIC_DRAW,
   Event.glVertexAttribPointer 0 3 GLenum.GL_FLOAT false (8 * sizeofFloat) 0,
   Event.glEnableVertexAttribArray 0,
   Event.glVertexAttribPointer 1 3 GLenum.GL_FLOAT false (8 * sizeofFloat) (3 * sizeofFloat),
   Event.glEnableVertexAttribArray 1,
   Event.glVertexAttribPointer 2 2 GLenum.GL_FLOAT false (8 * sizeofFloat) (6 * sizeofFloat),
   Event.glEnableVertexAttribArray 2]
  ++ textureObject d.texture1
  ++ [Event.stbi_load "./Transformations/container.jpg" d.image1]
  ++ uploadImage GLenum.GL_RGB d.image1
  ++ [Event.stbi_image_free]
  ++ textureObject d.texture2
  ++ [Event.stbi_set_flip_vertically_on_load true,
      Event.stbi_load "./Transformations/awesomeface.png" d.image2]
  ++ uploadImage GLenum.GL_RGBA d.image2
  ++ [Event.stbi_image_free,
      Event.Shader_use,
      Event.Shader_setInt "texture1" 0,
      Event.Shader_setInt "texture2" 1,
      Event.glBindBuffer GLenum.GL_ARRAY_BUFFER 0,
      Event.glBindVertexArray 0]

/-- Lines 221-263: the rendering of one frame, given the current `mixValue`
and the value of `glfwGetTime()`, which is cast to `float` for the rotation. -/
def render (d : Driver) (mixValue time : ℚ) : List Event :=
  [Event.glClearColor (1/5) (3/10) (3/10) 1,
   Event.glClear GLenum.GL_COLOR_BUFFER_BIT,
   Event.glActiveTexture GLenum.GL_TEXTURE0,
   Event.glBindTexture GLenum.GL_TEXTURE_2D d.texture1,
   Event.glActiveTexture GLenum.GL_TEXTURE1,
   Event.glBindTexture GLenum.GL_TEXTURE_2D d.texture2,
   Event.Shader_use,
   Event.Shader_setFloat "horizonOffset" 0,
   Event.Shader_setFloat "mixValue" mixValue,
   Event.glfwGetTime time,
   Event.Shader_setMat4 "transform"
     (Mat4.scale (Mat4.rotate Mat4.identity (f32Round time) 0 0 1) (1/2) (1/2) (1/2)),
   Event.glBindVertexArray d.VAO,
   Event.glDrawElements GLenum.GL_TRIANGLES 6 GLenum.GL_UNSIGNED_INT 0,
   Event.glfwSwapBuffers]

/-- Lines 210-267: one iteration of the render loop. -/
def frame (d : Driver) (s : State) (i : FrameInput) : List Event × State :=
  let inp := processInput s i
  let poll := glfwPollEvents inp.2.window i
  (inp.1 ++ render d inp.2.mixValue i.time ++ poll.1,
   { window := poll.2, mixValue := inp.2.mixValue })

/-- Lines 271-278: the de-allocation after the loop. -/
def cleanup (d : Driver) : List Event :=
  [Event.glDeleteVertexArrays 1 d.VAO,
   Event.glDeleteBuffers 1 d.VBO,
   Event.glDeleteBuffers 1 d.EBO,
   Event.Shader_deleteShaderProgram,
   Event.glfwTerminate]

/-- The function `main` of Transformations/shader.cpp. -/
def main (h : Host) (d : Driver) : Run :=
  if !h.windowOk then
    { trace := createWindow h ++ windowFailed, exit := some (-1) }
  else if !h.gladOk then
    { trace := createWindow h ++ loadGL h ++ gladFailed, exit := some (-1) }
  else
    let loop := renderLoop (fun s => s.window.shouldClose) (frame d)
      { window := { shouldClose := false }, mixValue := mixValueInit } h.frames
    let pre := createWindow h ++ loadGL h ++ setup d
    if loop.2 then
      { trace := pre ++ loop.1 ++ cleanup d, exit := some 0 }
    else
      { trace := pre ++ loop.1, exit := none }

end TransformationsCpp

/-! ## Reading a trace -/

/-- The call is an OpenGL entry point (`gl*`, loaded by GLAD). -/
def Event.isGL : Event → Bool
  | .glCreateShader _ _ | .glShaderSource _ _ _ | .glCompileShader _ | .glGetShaderiv _ _ _
  | .glGetShaderInfoLog _ _ _ | .glCreateProgram _ | .glAttachShader _ _ | .glLinkProgram _
  | .glGetProgramiv _ _ _ | .glGetProgramInfoLog _ _ _ | .glDeleteShader _ | .glUseProgram _
  | .glDeleteProgram _ | .glGenVertexArrays _ _ | .glGenBuffers _ _ | .glBindVertexArray _
  | .glBindBuffer _ _ | .glBufferData _ _ _ _ | .glVertexAttribPointer _ _ _ _ _ _
  | .glEnableVertexAttribArray _ | .glDeleteVertexArrays _ _ | .glDeleteBuffers _ _
  | .glClearColor _ _ _ _ | .glClear _ | .glDrawArrays _ _ _ | .glDrawElements _ _ _ _
  | .glViewport _ _ _ _ | .glGenTextures _ _ | .glBindTexture _ _ | .glActiveTexture _
  | .glTexParameteri _ _ _ | .glTexImage2D _ _ _ _ _ _ _ _ | .glGenerateMipmap _ => true
  | _ => false

/-- Modelled from the spec: the member functions of the class `Shader`.  The
class is declared in shader.h, which is not among the sources; by sections 4.1
and 6 of the spec its constructor, `use()`, its uniform setters and its release
call are carried out through entry points of the graphics API. -/
def Event.isShaderMethod : Event → Bool
  | .Shader_ctor _ _ | .Shader_use | .Shader_setInt _ _ | .Shader_setFloat _ _
  | .Shader_setMat4 _ _ | .Shader_deleteShaderProgram => true
  | _ => false

/-- The call reaches OpenGL, directly or through the `Shader` class. -/
def Event.usesGL (e : Event) : Bool := e.isGL || e.isShaderMethod

/-- The call is a draw call. -/
def Event.isDraw : Event → Bool
  | .glDrawArrays _ _ _ | .glDrawElements _ _ _ _ => true
  | _ => false

/-- The call activates a program object. -/
def Event.isUse : Event → Bool
  | .glUseProgram _ | .Shader_use => true
  | _ => false

/-- The call is a uniform setter of the `Shader` class. -/
def Event.isSetter : Event → Bool
  | .Shader_setInt _ _ | .Shader_setFloat _ _ | .Shader_setMat4 _ _ => true
  | _ => false

/-- The call releases a program object. -/
def Event.isRelease : Event → Bool
  | .glDeleteProgram _ | .Shader_deleteShaderProgram => true
  | _ => false

/-- The call is `glfwTerminate`. -/
def Event.isTerminate : Event → Bool
  | .glfwTerminate => true
  | _ => false

/-- The call is the loop test `glfwWindowShouldClose`. -/
def Event.isLoopTest : Event → Bool
  | .glfwWindowShouldClose _ => true
  | _ => false

/-- The call writes to `cout`. -/
def Event.isCout : Event → Bool
  | .coutLit _ | .coutInfoLog _ | .endl => true
  | _ => false

/-- The call is `glDeleteShader`. -/
def Event.isDeleteShader : Event → Bool
  | .glDeleteShader _ => true
  | _ => false

/-- The call is `glLinkProgram`. -/
def Event.isLink : Event → Bool
  | .glLinkProgram _ => true
  | _ => false

/-- The call is `glClear`. -/
def Event.isClear : Event → Bool
  | .glClear _ => true
  | _ => false

/-- The call deletes a vertex array or a buffer. -/
def Event.isDeleteObject : Event → Bool
  | .glDeleteVertexArrays _ _ | .glDeleteBuffers _ _ => true
  | _ => false

/-- Every `p` call of the trace comes before every `q` call: once a `q` call
is made, no `p` call follows. -/
def allBefore (p q : Event → Bool) : List Event → Bool
  | [] => true
  | e :: t => (!q e || t.all (fun x => !p x)) && allBefore p q t

/-- One step of `framesOf`, scanning the trace from its end.  The first
component holds the calls read since the last loop test (`none` while no loop
test has been read), the second the iterations found. -/
def framesStep (e : Event) (acc : Option (List Event) × List (List Event)) :
    Option (List Event) × List (List Event) :=
  match e with
  | Event.glfwWindowShouldClose false =>
    (some [], match acc.1 with
      | some f => f :: acc.2
      | none => acc.2)
  | Event.glfwWindowShouldClose true => (some [], acc.2)
  | _ => (acc.1.map (fun f => e :: f), acc.2)

/-- The iterations of the render loop in a trace, each as the list of its
calls: an iteration is what lies between a loop test that answered `false` and
the next loop test. -/
def framesOf (t : List Event) : List (List Event) :=
  (t.foldr framesStep (none, [])).2

/-- Runs a monitor over a trace: `step` gives the next state of the monitor, or
`none` when the call violates the property monitored. -/
def runMonitor {σ : Type} (step : σ → Event → Option σ) : σ → List Event → Option σ
  | s, [] => some s
  | s, e :: t => (step s e).bind (fun s1 => runMonitor step s1 t)

/-- The name returned by a `glCreateShader` call. -/
def Event.createdShader : Event → Option Nat
  | .glCreateShader _ ret => some ret
  | _ => none

/-- The name returned by a `glCreateProgram` call. -/
def Event.createdProgram : Event → Option Nat
  | .glCreateProgram ret => some ret
  | _ => none

/-- The name passed to a `glDeleteShader` call. -/
def Event.deletedShader : Event → Option Nat
  | .glDeleteShader shader => some shader
  | _ => none

/-- The name stored by a `glGenVertexArrays(1, &x)` call. -/
def Event.generatedArray : Event → Option Nat
  | .glGenVertexArrays _ ret => some ret
  | _ => none

/-- The name passed to a `glDeleteVertexArrays(1, &x)` call. -/
def Event.deletedArray : Event → Option Nat
  | .glDeleteVertexArrays _ array => some array
  | _ => none

/-- The name stored by a `glGenBuffers(1, &x)` call. -/
def Event.generatedBuffer : Event → Option Nat
  | .glGenBuffers _ ret => some ret
  | _ => none

/-- The name passed to a `glDeleteBuffers(1, &x)` call. -/
def Event.deletedBuffer : Event → Option Nat
  | .glDeleteBuffers _ buffer => some buffer
  | _ => none

/-- The call is `glAttachShader` or `glLinkProgram`. -/
def Event.isAttachOrLink : Event → Bool
  | .glAttachShader _ _ | .glLinkProgram _ => true
  | _ => false

/-- The call reads a compile or link status. -/
def Event.isStatusQuery : Event → Bool
  | .glGetShaderiv _ _ _ | .glGetProgramiv _ _ _ => true
  | _ => false

/-- The call is `glClear` or a draw call. -/
def Event.isClearOrDraw (e : Event) : Bool := e.isClear || e.isDraw

/-- The call is `use()` or a uniform setter. -/
def Event.isUseOrSetter (e : Event) : Bool := e.isUse || e.isSetter

/-- Some frame closes the window: ESC is down when `processInput` runs, or a
close request arrives during `glfwPollEvents`. -/
def windowCloses (is : List FrameInput) : Bool :=
  is.any (fun i => i.esc || i.closeRequested)

/-- The call is an activation of a program, a uniform setter or a draw call. -/
def Event.isUseSetterOrDraw (e : Event) : Bool := e.isUse || e.isSetter || e.isDraw

/-- Monitor for "a uniform setter follows `use()` with no draw call and no
other program activation in between".  The state tells whether `use()` on
`ourShader` is the latest call among `use()`, the draw calls and the
activations of other programs. -/
def setterStep (used : Bool) : Event → Option Bool
  | .Shader_use => some true
  | .glUseProgram _ => some false
  | .glDrawArrays _ _ _ => some false
  | .glDrawElements _ _ _ _ => some false
  | .Shader_setInt _ _ => if used then some used else none
  | .Shader_setFloat _ _ => if used then some used else none
  | .Shader_setMat4 _ _ => if used then some used else none
  | _ => some used

/-- Monitor for "no OpenGL call before `gladLoadGLLoader` has returned
success".  The state tells whether a successful `gladLoadGLLoader` call has
been made. -/
def loadedStep (loaded : Bool) (e : Event) : Option Bool :=
  if e.usesGL then (if loaded then some loaded else none)
  else
    match e with
    | .gladLoadGLLoader true => some true
    | _ => some loaded

/-- The program named by the latest activation call. -/
inductive ActiveProgram
  | noProgram
  | object (name : Nat)
  | ourShader
  deriving DecidableEq, Repr

/-- The part of the OpenGL context a draw call depends on, read off the calls
made so far: the program named by the latest activation call, and the vertex
array named by the latest `glBindVertexArray` call (`0` is no vertex array). -/
structure Binding where
  program : ActiveProgram
  vertexArray : Nat
  deriving DecidableEq, Repr

/-- Modelled from the spec: the effect of `Shader::use` on the program in use.
The class is declared in shader.h, which is not among the sources; by section
4.1 of the spec `use()` makes the program of the object the active one for the
draw calls that follow. -/
def shaderProgramAfter (current : ActiveProgram) : Event → ActiveProgram
  | .Shader_use => ActiveProgram.ourShader
  | _ => current

/-- The effect of one call on the binding: `glUseProgram` and `use()` name the
program for the draw calls that follow, `glBindVertexArray` binds a vertex
array. -/
def Binding.next (b : Binding) : Event → Binding
  | .glUseProgram p => { b with program := ActiveProgram.object p }
  | .glBindVertexArray a => { b with vertexArray := a }
  | e => { b with program := shaderProgramAfter b.program e }

/-- The draw calls of a trace, each with the binding in force when it is made,
starting from the binding `b`. -/
def drawCalls (b : Binding) : List Event → List (Binding × Event)
  | [] => []
  | e :: t =>
    if e.isDraw then (b, e) :: drawCalls (b.next e) t else drawCalls (b.next e) t

/-- The call is one that `drawCalls` looks at: a draw call or a call that
changes the binding. -/
def Event.touchesBinding : Event → Bool
  | .glDrawArrays _ _ _ | .glDrawElements _ _ _ _ | .glUseProgram _ | .Shader_use
  | .glBindVertexArray _ => true
  | _ => false

/-- The binding of a fresh context. -/
def Binding.fresh : Binding := { program := ActiveProgram.noProgram, vertexArray := 0 }

/-- The predicate `P` holds of every call a render loop makes besides the
rendering itself: the loop test, the calls of `processInput`, and
`glfwPollEvents` with the callbacks it runs. -/
def HoldsOfLoopShell (P : Event → Bool) : Prop :=
  (∀ b, P (Event.glfwWindowShouldClose b) = true) ∧
  (∀ k b, P (Event.glfwGetKey k b) = true) ∧
  P (Event.glfwSetWindowShouldClose true) = true ∧
  P Event.glfwPollEvents = true ∧
  (∀ a b, P (Event.glViewport 0 0 a b) = true)

/-- The predicate `P` holds of every call made up to and including the GLAD
check. -/
def HoldsOfWindowSetup (P : Event → Bool) : Prop :=
  P Event.glfwInit = true ∧
  (∀ a b, P (Event.glfwWindowHint a b) = true) ∧
  (∀ a b c e, P (Event.glfwCreateWindow a b c e) = true) ∧
  P Event.glfwMakeContextCurrent = true ∧
  P Event.glfwSetFramebufferSizeCallback = true ∧
  (∀ b, P (Event.gladLoadGLLoader b) = true)

/-- The program object is released once, at the end: one release call in the
trace, made after every draw call and before the one `glfwTerminate` call, and
followed by no `use()` and no uniform setter. -/
def ReleasedOnceAtEnd (t : List Event) : Prop :=
  t.countP Event.isRelease = 1 ∧
  allBefore Event.isDraw Event.isRelease t = true ∧
  t.countP Event.isTerminate = 1 ∧
  allBefore Event.isRelease Event.isTerminate t = true ∧
  allBefore Event.isUseOrSetter Event.isRelease t = true

/-- The vertex arrays and buffers are deleted at the end: the names deleted
are the names generated, array by array and buffer by buffer, each by one
call made after the last loop test and before `glfwTerminate`. -/
def ObjectsDeletedAtEnd (t : List Event) : Prop :=
  t.filterMap Event.deletedArray = t.filterMap Event.generatedArray ∧
  t.filterMap Event.deletedBuffer = t.filterMap Event.generatedBuffer ∧
  allBefore Event.isLoopTest Event.isDeleteObject t = true ∧
  allBefore Event.isDraw Event.isDeleteObject t = true ∧
  allBefore Event.isDeleteObject Event.isTerminate t = true

/-- OpenGL is only called once GLAD is loaded: every call of the run that
reaches OpenGL comes after a `gladLoadGLLoader` call that returned success;
when the window is not created or GLAD is not loaded the run makes no such
call and returns -1; when both succeed the run does call OpenGL. -/
def GladGuarded (h : Host) (r : Run) : Prop :=
  (runMonitor loadedStep false r.trace).isSome = true ∧
  ((h.windowOk = false ∨ h.gladOk = false) →
    r.trace.all (fun e => !e.usesGL) = true ∧ r.exit = some (-1)) ∧
  (h.windowOk = true → h.gladOk = true → r.trace.any Event.usesGL = true)

/-- The states after each of a sequence of `processInput` calls of
Transformations/shader.cpp, one call per frame input, in order. -/
def TransformationsCpp.processInputs (s : TransformationsCpp.State) :
    List FrameInput → List TransformationsCpp.State
  | [] => []
  | i :: rest =>
    (TransformationsCpp.processInput s i).2 ::
      TransformationsCpp.processInputs (TransformationsCpp.processInput s i).2 rest

/-- The value uploaded by a `setFloat("mixValue", v)` call. -/
def Event.mixValueUpload : Event → Option ℚ
  | .Shader_setFloat name value => if name = "mixValue" then some value else none
  | _ => none

/-- A frame input with only UP pressed. -/
def upFrame : FrameInput :=
  { esc := false, up := true, down := false, time := 0, resizes := [], closeRequested := false }

/-- A frame input with UP and DOWN pressed. -/
def bothFrame : FrameInput :=
  { esc := false, up := true, down := true, time := 0, resizes := [], closeRequested := false }

/-- A state of Transformations/shader.cpp with the window open and the given
`mixValue`. -/
def TransformationsCpp.sampleState (mixValue : ℚ) : TransformationsCpp.State :=
  { window := { shouldClose := false }, mixValue := mixValue }

/-- The capacity of the local array `char infoLog[512]` of main.cpp. -/
def MainCpp.infoLogCapacity : Nat := 512

/-- The maximum length passed to a `glGetShaderInfoLog` / `glGetProgramInfoLog`
call and the text the call stores in the buffer. -/
def Event.infoLogWrite : Event → Option (Nat × String)
  | .glGetShaderInfoLog _ maxLength written => some (maxLength, written)
  | .glGetProgramInfoLog _ maxLength written => some (maxLength, written)
  | _ => none

/-- The log retrievals main.cpp makes, given the three statuses: one per
failed step, each with maximum length 512. -/
def MainCpp.infoLogWrites (d : MainCpp.Driver) : List (Nat × String) :=
  (if d.vertexStatus then [] else [(512, infoLogText 512 d.vertexLog)]) ++
  (if d.fragmentStatus then [] else [(512, infoLogText 512 d.fragmentLog)]) ++
  (if d.linkStatus then [] else [(512, infoLogText 512 d.linkLog)])

/-! ## Geometry of the hardcoded vertices -/

/-- The x and y coordinates of vertex `k` in a vertex array with `stride`
floats per vertex and the position attribute at offset 0. -/
def positionAt (data : List ℚ) (stride : Nat) (k : Nat) : ℚ × ℚ :=
  (data.getD (k * stride) 0, data.getD (k * stride + 1) 0)

/-- The z coordinate of vertex `k`. -/
def depthAt (data : List ℚ) (stride : Nat) (k : Nat) : ℚ :=
  data.getD (k * stride + 2) 0

/-- The triangles assembled by `GL_TRIANGLES` from a list of vertex indices:
one triangle per three consecutive indices. -/
def trianglesOf (data : List ℚ) (stride : Nat) : List Nat → List (List (ℚ × ℚ))
  | i :: j :: k :: rest =>
    [positionAt data stride i, positionAt data stride j, positionAt data stride k] ::
      trianglesOf data stride rest
  | _ => []

/-- Twice the signed area of the triangle `a b c`: positive when `c` lies to
the left of the line from `a` to `b`, negative when it lies to the right. -/
def cross (a b c : ℚ × ℚ) : ℚ :=
  (b.1 - a.1) * (c.2 - a.2) - (b.2 - a.2) * (c.1 - a.1)

/-- The area of a triangle given as the list of its three vertices. -/
def triangleArea : List (ℚ × ℚ) → ℚ
  | [a, b, c] => |cross a b c| / 2
  | _ => 0

/-- The four corners of the square `[-0.5, 0.5] x [-0.5, 0.5]`. -/
def squareCorners : List (ℚ × ℚ) :=
  [(1/2, 1/2), (1/2, -1/2), (-1/2, -1/2), (-1/2, 1/2)]

/-- The two triangles form the square `[-0.5, 0.5] x [-0.5, 0.5]`, split along
the diagonal from `(0.5, -0.5)` to `(-0.5, 0.5)`: they share exactly the two
ends of the diagonal, each has area 1/2, their remaining vertices lie on
opposite sides of the diagonal, their vertices are the four corners, and the
areas add up to the area 1 of the square. -/
def FormQuad (t1 t2 : List (ℚ × ℚ)) : Prop :=
  t1.length = 3 ∧ t2.length = 3 ∧
  t1.filter (fun p => decide (p ∈ t2)) = [(1/2, -1/2), (-1/2, 1/2)] ∧
  t2.filter (fun p => decide (p ∈ t1)) = [(1/2, -1/2), (-1/2, 1/2)] ∧
  triangleArea t1 = 1/2 ∧ triangleArea t2 = 1/2 ∧
  (∀ r1 ∈ t1, ∀ r2 ∈ t2, r1 ∉ t2 → r2 ∉ t1 →
    cross (1/2, -1/2) (-1/2, 1/2) r1 * cross (1/2, -1/2) (-1/2, 1/2) r2 < 0) ∧
  (∃ r1 ∈ t1, r1 ∉ t2) ∧ (∃ r2 ∈ t2, r2 ∉ t1) ∧
  (∀ c ∈ squareCorners, c ∈ t1 ++ t2) ∧
  (∀ p ∈ t1 ++ t2, p ∈ squareCorners) ∧
  triangleArea t1 + triangleArea t2 = (1/2 - (-1/2)) * (1/2 - (-1/2)) ∧
  triangleArea t1 + triangleArea t2 = 1

/-- The triangles are exactly two, and they form the square. -/
def FormQuadList : List (List (ℚ × ℚ)) → Prop
  | [t1, t2] => FormQuad t1 t2
  | _ => False

/-! ## Vertex data and attribute layout -/

/-- The part of the OpenGL context a `glVertexAttribPointer` call reads: the
vertex array bound, and the data store of the buffer bound to
`GL_ARRAY_BUFFER` as its size in bytes and its contents (`none` when nothing
has been uploaded since a buffer was bound to that target). -/
structure ArrayState where
  vertexArray : Nat
  store : Option (Nat × HostArray)
  deriving Repr

/-- The state of a fresh context. -/
def ArrayState.fresh : ArrayState := { vertexArray := 0, store := none }

/-- The effect of one call on the array state. -/
def ArrayState.next (s : ArrayState) : Event → ArrayState
  | .glBindVertexArray a => { s with vertexArray := a }
  | .glBindBuffer GLenum.GL_ARRAY_BUFFER _ => { s with store := none }
  | .glBufferData GLenum.GL_ARRAY_BUFFER size data _ => { s with store := some (size, data) }
  | _ => s

/-- What one `glVertexAttribPointer` call declares, with the vertex array it
is recorded in and the data store it reads from. -/
structure AttribRecord where
  vertexArray : Nat
  store : Option (Nat × HostArray)
  index : Nat
  size : Nat
  type : GLenum
  stride : Nat
  pointer : Nat
  deriving Repr

/-- The `glVertexAttribPointer` calls of a trace, each with the array state in
force when it is made, starting from the state `s`. -/
def attribRecords (s : ArrayState) : List Event → List AttribRecord
  | [] => []
  | e :: t =>
    match e with
    | .glVertexAttribPointer index size type _ stride pointer =>
      { vertexArray := s.vertexArray, store := s.store, index := index, size := size,
        type := type, stride := stride, pointer := pointer } :: attribRecords (s.next e) t
    | _ => attribRecords (s.next e) t

/-- The call is `glVertexAttribPointer`. -/
def Event.isAttribPointer : Event → Bool
  | .glVertexAttribPointer _ _ _ _ _ _ => true
  | _ => false

/-- The component count, stride and offset of an attribute, the last two in
bytes. -/
structure AttribLayout where
  size : Nat
  stride : Nat
  pointer : Nat
  deriving DecidableEq, Repr

/-- The layout declared by a `glVertexAttribPointer` call. -/
def AttribRecord.layout (r : AttribRecord) : AttribLayout :=
  { size := r.size, stride := r.stride, pointer := r.pointer }

/-- The number of floats in the data store a record reads from. -/
def AttribRecord.floatCount (r : AttribRecord) : Nat :=
  match r.store with
  | some (_, HostArray.floats xs) => xs.length
  | _ => 0

/-- The offsets, in components, of attributes laid out one after the other:
each starts where the components of those before it end. -/
def offsetsOf (start : Nat) : List Nat → List Nat
  | [] => []
  | size :: rest => start :: offsetsOf (start + size) rest

/-- The byte addresses of the floats read through the attributes, vertex by
vertex, attribute by attribute, component by component: component `c` of an
attribute of vertex `v` is at `pointer + v * stride + c * sizeof(float)`. -/
def attribReads (vertexCount : Nat) (attribs : List AttribLayout) : List Nat :=
  ((List.range vertexCount).map (fun v =>
    (attribs.map (fun a =>
      (List.range a.size).map (fun c => a.pointer + v * a.stride + c * sizeofFloat))).flatten)).flatten

/-- The attributes tile an array of `floats` floats exactly: each attribute's
offset is the sum of the component counts of the attributes before it, the
component counts sum to the stride, the array is a whole number of vertices,
and the floats read for the vertices are the floats of the array, each once
and in order, so that every read lies inside the array and no two reads
overlap. -/
def LayoutTiles (floats : Nat) (attribs : List AttribLayout) : Prop :=
  0 < (attribs.map AttribLayout.size).sum ∧
  attribs.map AttribLayout.pointer =
    (offsetsOf 0 (attribs.map AttribLayout.size)).map (fun k => k * sizeofFloat) ∧
  (∀ a ∈ attribs, a.stride = (attribs.map AttribLayout.size).sum * sizeofFloat) ∧
  floats % (attribs.map AttribLayout.size).sum = 0 ∧
  attribReads (floats / (attribs.map AttribLayout.size).sum) attribs =
    (List.range floats).map (fun k => k * sizeofFloat) ∧
  (∀ a ∈ attribReads (floats / (attribs.map AttribLayout.size).sum) attribs,
    a + sizeofFloat ≤ floats * sizeofFloat) ∧
  List.Pairwise (fun a b => a + sizeofFloat ≤ b)
    (attribReads (floats / (attribs.map AttribLayout.size).sum) attribs)

/-- The records are float attributes of one vertex array, reading one data
store whose size in bytes is that of its floats, and they tile it exactly. -/
def RecordsTile (rs : List AttribRecord) : Prop :=
  match rs with
  | [] => False
  | r0 :: _ =>
    (∀ r ∈ rs, r.vertexArray = r0.vertexArray ∧ r.store = r0.store ∧
      r.type = GLenum.GL_FLOAT) ∧
    (∃ xs, r0.store = some (xs.length * sizeofFloat, HostArray.floats xs)) ∧
    rs.map AttribRecord.index = List.range rs.length ∧
    LayoutTiles r0.floatCount (rs.map AttribRecord.layout)

/-- Lines 158-167 and 174-177 of main.cpp: the attribute declared for each of
the two vertex arrays, with the data store it reads. -/
def MainCpp.declaredAttribs (d : MainCpp.Driver) : List AttribRecord :=
  [{ vertexArray := d.VAO1,
     store := some (MainCpp.vertices1.length * sizeofFloat, HostArray.floats MainCpp.vertices1),
     index := 0, size := 3, type := GLenum.GL_FLOAT, stride := 3 * sizeofFloat, pointer := 0 },
   { vertexArray := d.VAO2,
     store := some (MainCpp.vertices2.length * sizeofFloat, HostArray.floats MainCpp.vertices2),
     index := 0, size := 3, type := GLenum.GL_FLOAT, stride := 3 * sizeofFloat, pointer := 0 }]

/-- Lines 89-97 of Shaders.cpp: the two attributes declared, with the data
store they read. -/
def ShadersCpp.declaredAttribs (d : ShadersCpp.Driver) : List AttribRecord :=
  [{ vertexArray := d.VAO,
     store := some (ShadersCpp.vertices.length * sizeofFloat, HostArray.floats ShadersCpp.vertices),
     index := 0, size := 3, type := GLenum.GL_FLOAT, stride := 6 * sizeofFloat, pointer := 0 },
   { vertexArray := d.VAO,
     store := some (ShadersCpp.vertices.length * sizeofFloat, HostArray.floats ShadersCpp.vertices),
     index := 1, size := 3, type := GLenum.GL_FLOAT, stride := 6 * sizeofFloat,
     pointer := 3 * sizeofFloat }]

/-- Lines 105-127 of Textures/shader.cpp: the three attributes declared, with
the data store they read. -/
def TexturesCpp.declaredAttribs (d : TexturesCpp.Driver) : List AttribRecord :=
  [{ vertexArray := d.VAO,
     store := some (TexturesCpp.vertices.length * sizeofFloat,
       HostArray.floats TexturesCpp.vertices),
     index := 0, size := 3, type := GLenum.GL_FLOAT, stride := 8 * sizeofFloat, pointer := 0 },
   { vertexArray := d.VAO,
     store := some (TexturesCpp.vertices.length * sizeofFloat,
       HostArray.floats TexturesCpp.vertices),
     index := 1, size := 3, type := GLenum.GL_FLOAT, stride := 8 * sizeofFloat,
     pointer := 3 * sizeofFloat },
   { vertexArray := d.VAO,
     store := some (TexturesCpp.vertices.length * sizeofFloat,
       HostArray.floats TexturesCpp.vertices),
     index := 2, size := 2, type := GLenum.GL_FLOAT, stride := 8 * sizeofFloat,
     pointer := 6 * sizeofFloat }]

/-- Lines 111-133 of Transformations/shader.cpp: the three attributes
declared, with the data store they read. -/
def TransformationsCpp.declaredAttribs (d : TransformationsCpp.Driver) : List AttribRecord :=
  [{ vertexArray := d.VAO,
     store := some (TransformationsCpp.vertices.length * sizeofFloat,
       HostArray.floats TransformationsCpp.vertices),
     index := 0, size := 3, type := GLenum.GL_FLOAT, stride := 8 * sizeofFloat, pointer := 0 },
   { vertexArray := d.VAO,
     store := some (TransformationsCpp.vertices.length * sizeofFloat,
       HostArray.floats TransformationsCpp.vertices),
     index := 1, size := 3, type := GLenum.GL_FLOAT, stride := 8 * sizeofFloat,
     pointer := 3 * sizeofFloat },
   { vertexArray := d.VAO,
     store := some (TransformationsCpp.vertices.length * sizeofFloat,
       HostArray.floats TransformationsCpp.vertices),
     index := 2, size := 2, type := GLenum.GL_FLOAT, stride := 8 * sizeofFloat,
     pointer := 6 * sizeofFloat }]

/-! ## Draw calls against the uploaded data -/

/-- An upload to the element array buffer, with the vertex array bound when
it is made: the size in bytes and the contents. -/
structure ElementUpload where
  vertexArray : Nat
  bytes : Nat
  data : HostArray
  deriving Repr

/-- The `glBufferData(GL_ELEMENT_ARRAY_BUFFER, ...)` calls of a trace, each
with the vertex array bound when it is made, starting with `vertexArray`
bound. -/
def elementUploads (vertexArray : Nat) : List Event → List ElementUpload
  | [] => []
  | e :: t =>
    match e with
    | .glBindVertexArray a => elementUploads a t
    | .glBufferData GLenum.GL_ELEMENT_ARRAY_BUFFER size data _ =>
      { vertexArray := vertexArray, bytes := size, data := data } :: elementUploads vertexArray t
    | _ => elementUploads vertexArray t

/-- The call is `glBufferData`. -/
def Event.isBufferData : Event → Bool
  | .glBufferData _ _ _ _ => true
  | _ => false

/-- The attribute can be read for vertex `v`: its components for that vertex
end inside the data store. -/
def AttribRecord.holdsVertex (r : AttribRecord) (v : Nat) : Prop :=
  match r.store with
  | some (bytes, _) => r.pointer + v * r.stride + r.size * sizeofFloat ≤ bytes
  | none => False

/-- The draw call, made with binding `bd.1`, stays inside the uploaded data:
the bound vertex array has attributes, and every vertex the call reads can be
read for each of them.  `glDrawArrays(mode, first, count)` reads the vertices
`first`, ..., `first + count - 1`; `glDrawElements(mode, count,
GL_UNSIGNED_INT, offset)` reads `count` indices of the element array from byte
`offset` on, which must lie inside the element array, and then the vertices
these indices name. -/
def DrawWithin (rs : List AttribRecord) (us : List ElementUpload) (bd : Binding × Event) :
    Prop :=
  (∃ r ∈ rs, r.vertexArray = bd.1.vertexArray) ∧
  match bd.2 with
  | .glDrawArrays _ first count =>
    ∀ r ∈ rs, r.vertexArray = bd.1.vertexArray →
      ∀ v, first ≤ v → v < first + count → r.holdsVertex v
  | .glDrawElements _ count type offset =>
    type = GLenum.GL_UNSIGNED_INT ∧
    (∃ u ∈ us, u.vertexArray = bd.1.vertexArray) ∧
    ∀ u ∈ us, u.vertexArray = bd.1.vertexArray →
      ∃ idx, u.data = HostArray.uints idx ∧ u.bytes = idx.length * sizeofUInt ∧
        offset + count * sizeofUInt ≤ u.bytes ∧
        ∀ i ∈ (idx.drop (offset / sizeofUInt)).take count,
          ∀ r ∈ rs, r.vertexArray = bd.1.vertexArray → r.holdsVertex i
  | _ => False

/-- Lines 109-110 of Textures/shader.cpp: the upload of `indices`. -/
def TexturesCpp.declaredElements (d : TexturesCpp.Driver) : List ElementUpload :=
  [{ vertexArray := d.VAO, bytes := TexturesCpp.indices.length * sizeofUInt,
     data := HostArray.uints TexturesCpp.indices }]

/-- Lines 115-116 of Transformations/shader.cpp: the upload of `indices`. -/
def TransformationsCpp.declaredElements (d : TransformationsCpp.Driver) : List ElementUpload :=
  [{ vertexArray := d.VAO, bytes := TransformationsCpp.indices.length * sizeofUInt,
     data := HostArray.uints TransformationsCpp.indices }]

/-! ## Texture units -/

/-- The index of a texture unit constant: `GL_TEXTUREi` is unit `i`. -/
def unitIndex : GLenum → Option Nat
  | GLenum.GL_TEXTURE0 => some 0
  | GLenum.GL_TEXTURE1 => some 1
  | _ => none

/-- The texture units of the context: the active unit, and the
`GL_TEXTURE_2D` bindings made, as pairs of unit and texture name, latest
first. -/
structure TextureUnits where
  active : Nat
  bound : List (Nat × Nat)
  deriving Repr

/-- The texture units of a fresh context: unit 0 active, nothing bound. -/
def TextureUnits.fresh : TextureUnits := { active := 0, bound := [] }

/-- The effect of one call on the texture units: `glActiveTexture` selects the
active unit, `glBindTexture(GL_TEXTURE_2D, t)` binds `t` on the active unit. -/
def TextureUnits.next (s : TextureUnits) : Event → TextureUnits
  | .glActiveTexture unit =>
    match unitIndex unit with
    | some k => { s with active := k }
    | none => s
  | .glBindTexture GLenum.GL_TEXTURE_2D texture =>
    { s with bound := (s.active, texture) :: s.bound }
  | _ => s

/-- The texture bound to `GL_TEXTURE_2D` on a unit. -/
def TextureUnits.texture2D (s : TextureUnits) (unit : Nat) : Option Nat :=
  s.bound.lookup unit

/-- The texture units in force at each draw call of a trace, starting from
`s`. -/
def unitsAtDraws (s : TextureUnits) : List Event → List TextureUnits
  | [] => []
  | e :: t => if e.isDraw then s :: unitsAtDraws (s.next e) t else unitsAtDraws (s.next e) t

/-- The call is a draw call, `glActiveTexture` or `glBindTexture`. -/
def Event.touchesTextures : Event → Bool
  | .glDrawArrays _ _ _ | .glDrawElements _ _ _ _ | .glActiveTexture _ | .glBindTexture _ _ => true
  | _ => false

/-- The uniform name and the value of a `setInt` call. -/
def Event.samplerUnit : Event → Option (String × Int)
  | .Shader_setInt name value => some (name, value)
  | _ => none

/-! ## Sample inputs -/

/-- Three frames: an idle one with a resize, one with UP held, one with ESC. -/
def sampleFrames : List FrameInput :=
  [{ esc := false, up := false, down := false, time := 0, resizes := [(1024, 768)],
     closeRequested := false },
   { esc := false, up := true, down := false, time := 1/60, resizes := [],
     closeRequested := false },
   { esc := true, up := false, down := false, time := 2/60, resizes := [],
     closeRequested := false }]

/-- A host on which the window opens, GLAD loads and the three sample frames
are delivered. -/
def sampleHost : Host :=
  { apple := false, windowOk := true, gladOk := true, frames := sampleFrames }

/-- A host on which `glfwCreateWindow` fails. -/
def noWindowHost : Host :=
  { apple := false, windowOk := false, gladOk := true, frames := sampleFrames }

/-- A host on which the window opens and `gladLoadGLLoader` fails. -/
def noGladHost : Host :=
  { apple := false, windowOk := true, gladOk := false, frames := sampleFrames }

/-- A driver for main.cpp with the given three statuses. -/
def MainCpp.sampleDriver (vertexStatus fragmentStatus linkStatus : Bool) : MainCpp.Driver :=
  { vertexShader := 1, vertexStatus := vertexStatus, vertexLog := "0:5(2): error: syntax error",
    fragmentShader := 2, fragmentStatus := fragmentStatus,
    fragmentLog := "0:5(2): error: syntax error",
    shaderProgram := 3, linkStatus := linkStatus, linkLog := "error: linking with uncompiled shader",
    infoLogInit := "", VAO1 := 1, VBO1 := 1, VAO2 := 2, VBO2 := 2 }

/-- A driver for Shaders.cpp. -/
def ShadersCpp.sampleDriver : ShadersCpp.Driver := { VAO := 1, VBO := 1 }

/-- A driver for Textures/shader.cpp. -/
def TexturesCpp.sampleDriver : TexturesCpp.Driver :=
  { VAO := 1, VBO := 1, EBO := 2, texture := 1,
    image := some { width := 512, height := 512, nrChannels := 3 } }

/-- A driver for Transformations/shader.cpp. -/
def TransformationsCpp.sampleDriver : TransformationsCpp.Driver :=
  { VAO := 1, VBO := 1, EBO := 2, texture1 := 1, texture2 := 2,
    image1 := some { width := 512, height := 512, nrChannels := 3 }, image2 := none }

/-! ## General lemmas on traces -/

theorem allBefore_append (p q : Event → Bool) (a b : List Event) :
    allBefore p q (a ++ b) =
      (allBefore p q a && allBefore p q b && (!a.any q || b.all (fun x => !p x))) := by
  induction a with
  | nil => simp [allBefore]
  | cons e t ih =>
    rw [List.cons_append, allBefore, ih, allBefore, List.all_append, List.any_cons]
    cases q e <;> cases t.any q <;> cases allBefore p q t <;> cases allBefore p q b <;>
      cases t.all (fun x => !p x) <;> cases b.all (fun x => !p x) <;> rfl

theorem allBefore_of_no_right (p q : Event → Bool) (a : List Event)
    (h : a.all (fun x => !q x) = true) : allBefore p q a = true := by
  induction a with
  | nil => rfl
  | cons e t ih =>
    simp only [List.all_cons, Bool.and_eq_true, Bool.not_eq_true'] at h
    simp [allBefore, h.1, ih h.2]

theorem allBefore_of_no_left (p q : Event → Bool) (a : List Event)
    (h : a.all (fun x => !p x) = true) : allBefore p q a = true := by
  induction a with
  | nil => rfl
  | cons e t ih =>
    simp only [List.all_cons, Bool.and_eq_true] at h
    simp only [allBefore, ih h.2, h.2, Bool.or_true, Bool.and_self]

theorem runMonitor_append {σ : Type} (step : σ → Event → Option σ) (a b : List Event) (s : σ) :
    runMonitor step s (a ++ b) = (runMonitor step s a).bind (fun s1 => runMonitor step s1 b) := by
  induction a generalizing s with
  | nil => rfl
  | cons e t ih =>
    simp only [List.cons_append, runMonitor]
    cases step s e with
    | none => rfl
    | some s1 => simpa using ih s1

theorem framesStep_foldr_of_no_test (l : List Event)
    (acc : Option (List Event) × List (List Event))
    (h : l.all (fun x => !x.isLoopTest) = true) :
    l.foldr framesStep acc = (acc.1.map (fun f => l ++ f), acc.2) := by
  induction l with
  | nil => cases acc with | mk a b => cases a <;> rfl
  | cons e t ih =>
    simp only [List.all_cons, Bool.and_eq_true] at h
    rw [List.foldr_cons, ih h.2]
    cases acc with
    | mk a b =>
      cases a <;> cases e <;> first | rfl | simp [Event.isLoopTest] at h

/-! ## General lemmas on the render loop -/

section Loop

variable {σ : Type} (shouldClose : σ → Bool) (frame : σ → FrameInput → List Event × σ)

theorem renderLoop_all (P : Event → Bool)
    (hframe : ∀ s i, (frame s i).1.all P = true)
    (htest : ∀ b, P (Event.glfwWindowShouldClose b) = true) (s : σ) (is : List FrameInput) :
    (renderLoop shouldClose frame s is).1.all P = true := by
  induction is generalizing s with
  | nil =>
    unfold renderLoop
    split <;> simp [htest]
  | cons i rest ih =>
    unfold renderLoop
    split
    · simp [htest]
    · simp only [List.all_cons, List.all_append, htest, hframe, ih, Bool.and_self]

theorem renderLoop_monitor {μ : Type} (step : μ → Event → Option μ) (Inv : μ → Prop)
    (hframe : ∀ m s i, Inv m → ∃ m1, runMonitor step m (frame s i).1 = some m1 ∧ Inv m1)
    (htest : ∀ m b, Inv m → ∃ m1, step m (Event.glfwWindowShouldClose b) = some m1 ∧ Inv m1)
    (s : σ) (is : List FrameInput) (m : μ) (hm : Inv m) :
    ∃ m1, runMonitor step m (renderLoop shouldClose frame s is).1 = some m1 ∧ Inv m1 := by
  induction is generalizing s m with
  | nil =>
    unfold renderLoop
    split
    · obtain ⟨m1, h1, h2⟩ := htest m true hm
      exact ⟨m1, by simp [runMonitor, h1], h2⟩
    · obtain ⟨m1, h1, h2⟩ := htest m false hm
      exact ⟨m1, by simp [runMonitor, h1], h2⟩
  | cons i rest ih =>
    unfold renderLoop
    split
    · obtain ⟨m1, h1, h2⟩ := htest m true hm
      exact ⟨m1, by simp [runMonitor, h1], h2⟩
    · obtain ⟨m1, h1, h2⟩ := htest m false hm
      obtain ⟨m2, h3, h4⟩ := hframe m1 s i h2
      obtain ⟨m3, h5, h6⟩ := ih (frame s i).2 m2 h4
      refine ⟨m3, ?_, h6⟩
      simp [runMonitor, h1, runMonitor_append, h3, h5]

theorem renderLoop_frames
    (hframe : ∀ s i, (frame s i).1.all (fun x => !x.isLoopTest) = true)
    (s : σ) (is : List FrameInput) (acc : List (List Event)) :
    ∃ fs : List (List Event),
      (renderLoop shouldClose frame s is).1.foldr framesStep (none, acc) = (some [], fs ++ acc) ∧
      ∀ f ∈ fs, ∃ s1 i, i ∈ is ∧ f = (frame s1 i).1 := by
  induction is generalizing s with
  | nil =>
    unfold renderLoop
    split <;> exact ⟨[], rfl, by simp⟩
  | cons i rest ih =>
    unfold renderLoop
    split
    · exact ⟨[], rfl, by simp⟩
    · obtain ⟨fs, h1, h2⟩ := ih (frame s i).2
      refine ⟨((frame s i).1) :: fs, ?_, ?_⟩
      · simp only [List.foldr_cons, List.foldr_append, h1]
        rw [framesStep_foldr_of_no_test _ _ (hframe s i)]
        simp [framesStep]
      · intro f hf
        rcases List.mem_cons.mp hf with rfl | hf
        · exact ⟨s, i, List.mem_cons_self _ _, rfl⟩
        · obtain ⟨s1, j, hj, rfl⟩ := h2 f hf
          exact ⟨s1, j, List.mem_cons_of_mem _ hj, rfl⟩

/-- The iterations found in `pre ++ loop ++ post` are iterations of the loop
body, when neither `pre`, nor the body, nor `post` makes a loop test. -/
theorem framesOf_program
    (hframe : ∀ s i, (frame s i).1.all (fun x => !x.isLoopTest) = true)
    (pre post : List Event) (hpre : pre.all (fun x => !x.isLoopTest) = true)
    (hpost : post.all (fun x => !x.isLoopTest) = true) (s : σ) (is : List FrameInput)
    (f : List Event) (hf : f ∈ framesOf (pre ++ (renderLoop shouldClose frame s is).1 ++ post)) :
    ∃ s1 i, i ∈ is ∧ f = (frame s1 i).1 := by
  obtain ⟨fs, h1, h2⟩ := renderLoop_frames shouldClose frame hframe s is []
  unfold framesOf at hf
  rw [List.foldr_append, List.foldr_append, framesStep_foldr_of_no_test post _ hpost] at hf
  simp only [Option.map_none'] at hf
  rw [h1, framesStep_foldr_of_no_test pre _ hpre] at hf
  simp only [List.append_nil] at hf
  exact h2 f hf

end Loop

/-! ## Lemmas on the code shared by the four files -/

theorem countP_eq_zero_of_all (P : Event → Bool) (l : List Event)
    (h : l.all (fun e => !P e) = true) : l.countP P = 0 := by
  induction l with
  | nil => rfl
  | cons e t ih =>
    simp only [List.all_cons, Bool.and_eq_true, Bool.not_eq_true'] at h
    rw [List.countP_cons_of_neg _ _ (by simp [h.1])]
    exact ih (by simpa using h.2)

theorem filter_eq_nil_of_all (P : Event → Bool) (l : List Event)
    (h : l.all (fun e => !P e) = true) : l.filter P = [] := by
  induction l with
  | nil => rfl
  | cons e t ih =>
    simp only [List.all_cons, Bool.and_eq_true, Bool.not_eq_true'] at h
    rw [List.filter_cons_of_neg (by simp [h.1])]
    exact ih (by simpa using h.2)

theorem filterMap_eq_nil_of_all {α : Type} (g : Event → Option α) (l : List Event)
    (h : l.all (fun e => (g e).isNone) = true) : l.filterMap g = [] := by
  induction l with
  | nil => rfl
  | cons e t ih =>
    simp only [List.all_cons, Bool.and_eq_true, Option.isNone_iff_eq_none] at h
    rw [List.filterMap_cons_none h.1]
    exact ih (by simpa using h.2)

theorem not_mem_of_all (P : Event → Bool) (l : List Event) (h : l.all (fun e => !P e) = true)
    (e : Event) (he : P e = true) : e ∉ l := by
  intro hmem
  rw [List.all_eq_true] at h
  simpa [he] using h e hmem

theorem any_eq_false_of_all (P : Event → Bool) (l : List Event)
    (h : l.all (fun e => !P e) = true) : l.any P = false := by
  induction l with
  | nil => rfl
  | cons e t ih =>
    simp only [List.all_cons, Bool.and_eq_true, Bool.not_eq_true'] at h
    simp [h.1, ih (by simpa using h.2)]

theorem filterMap_three {α : Type} (g : Event → Option α) (a b c : List Event) :
    (a ++ b ++ c).filterMap g = a.filterMap g ++ (b.filterMap g ++ c.filterMap g) := by
  rw [List.filterMap_append, List.filterMap_append, List.append_assoc]

theorem filter_three (P : Event → Bool) (a b c : List Event) :
    (a ++ b ++ c).filter P = a.filter P ++ (b.filter P ++ c.filter P) := by
  rw [List.filter_append, List.filter_append, List.append_assoc]

theorem all_three (P : Event → Bool) (a b c : List Event) :
    (a ++ b ++ c).all P = (a.all P && (b.all P && c.all P)) := by
  rw [List.all_append, List.all_append, Bool.and_assoc]

theorem any_three (P : Event → Bool) (a b c : List Event) :
    (a ++ b ++ c).any P = (a.any P || (b.any P || c.any P)) := by
  rw [List.any_append, List.any_append, Bool.or_assoc]

theorem renderLoop_any_test {σ : Type} (shouldClose : σ → Bool)
    (frame : σ → FrameInput → List Event × σ) (s : σ) (is : List FrameInput) :
    (renderLoop shouldClose frame s is).1.any Event.isLoopTest = true := by
  cases is <;> unfold renderLoop <;> split <;> simp [Event.isLoopTest]

/-- Order of calls in a trace made of three parts. -/
theorem allBefore_three (p q : Event → Bool) (a b c : List Event)
    (ha : allBefore p q a = true) (hb : allBefore p q b = true) (hc : allBefore p q c = true)
    (hab : a.all (fun x => !q x) = true ∨ b.all (fun x => !p x) = true)
    (hbc : (a.all (fun x => !q x) = true ∧ b.all (fun x => !q x) = true) ∨
      c.all (fun x => !p x) = true) :
    allBefore p q (a ++ b ++ c) = true := by
  rw [allBefore_append, allBefore_append, ha, hb, hc, List.any_append]
  rcases hab with h1 | h1 <;> rcases hbc with ⟨h2, h3⟩ | h2 <;>
    simp [h1, h2, any_eq_false_of_all, *]

theorem processInput_all (P : Event → Bool) (hs : HoldsOfLoopShell P) (w : Window)
    (i : FrameInput) : (processInput w i).1.all P = true := by
  obtain ⟨_, hkey, hset, _, _⟩ := hs
  unfold processInput
  split <;> simp [hkey, hset]

theorem glfwPollEvents_all (P : Event → Bool) (hs : HoldsOfLoopShell P) (w : Window)
    (i : FrameInput) : (glfwPollEvents w i).1.all P = true := by
  obtain ⟨_, _, _, hpoll, hview⟩ := hs
  simp only [glfwPollEvents, List.all_cons, hpoll, Bool.true_and, List.all_eq_true]
  intro x hx
  simp only [List.mem_flatten, List.mem_map] at hx
  obtain ⟨l, ⟨a, _, rfl⟩, hx⟩ := hx
  simp only [framebuffer_size_callback, List.mem_singleton] at hx
  rw [hx]
  exact hview _ _

theorem createWindow_all (P : Event → Bool) (hs : HoldsOfWindowSetup P) (h : Host) :
    (createWindow h).all P = true := by
  obtain ⟨hinit, hhint, hwin, _, _, _⟩ := hs
  unfold createWindow
  split <;> simp [hinit, hhint, hwin]

theorem loadGL_all (P : Event → Bool) (hs : HoldsOfWindowSetup P) (h : Host) :
    (loadGL h).all P = true := by
  obtain ⟨_, _, _, hmake, hcb, hload⟩ := hs
  simp [loadGL, hmake, hcb, hload]

theorem windowCloses_cons (i : FrameInput) (is : List FrameInput) :
    windowCloses (i :: is) = (i.esc || i.closeRequested || windowCloses is) := by
  simp [windowCloses]

/-- The loop is left exactly when the close flag is up at the start or some
frame raises it. -/
theorem renderLoop_left {σ : Type} (shouldClose : σ → Bool)
    (frame : σ → FrameInput → List Event × σ)
    (hframe : ∀ s i, shouldClose (frame s i).2 = (shouldClose s || i.esc || i.closeRequested))
    (s : σ) (is : List FrameInput) :
    (renderLoop shouldClose frame s is).2 = (shouldClose s || windowCloses is) := by
  induction is generalizing s with
  | nil =>
    unfold renderLoop
    split <;> simp_all [windowCloses]
  | cons i rest ih =>
    unfold renderLoop
    split
    · simp_all
    · rename_i hc
      simp only [ih, hframe, windowCloses_cons]
      simp [hc]

theorem TransformationsCpp.processInput_all_transformations (P : Event → Bool) (hs : HoldsOfLoopShell P)
    (s : TransformationsCpp.State) (i : FrameInput) :
    (TransformationsCpp.processInput s i).1.all P = true := by
  obtain ⟨_, hkey, hset, _, _⟩ := hs
  unfold TransformationsCpp.processInput
  split <;> simp [hkey, hset]

/-! ## Lemmas on main.cpp -/

namespace MainCpp

theorem frame_all_main (P : Event → Bool) (hs : HoldsOfLoopShell P) (d : Driver)
    (hbody : (render d).all P = true) (w : Window) (i : FrameInput) :
    (frame d w i).1.all P = true := by
  simp only [frame, List.all_append, Bool.and_eq_true]
  exact ⟨⟨processInput_all P hs w i, hbody⟩, glfwPollEvents_all P hs _ i⟩

theorem frame_shouldClose_main (d : Driver) (w : Window) (i : FrameInput) :
    Window.shouldClose (frame d w i).2 = (Window.shouldClose w || i.esc || i.closeRequested) := by
  simp only [frame, processInput, glfwPollEvents]
  cases i.esc <;> cases i.closeRequested <;> simp

theorem loop_all_main (P : Event → Bool) (hs : HoldsOfLoopShell P) (d : Driver)
    (hbody : (render d).all P = true) (w : Window) (is : List FrameInput) :
    (renderLoop Window.shouldClose (frame d) w is).1.all P = true :=
  renderLoop_all _ _ P (frame_all_main P hs d hbody) hs.1 w is

/-- The three ways `main` runs: no window, no GLAD, or setup, render loop and,
once the loop is left, de-allocation. -/
theorem run_cases_main (h : Host) (d : Driver) :
    (h.windowOk = false ∧
      main h d = { trace := createWindow h ++ windowFailed, exit := some (-1) }) ∨
    (h.windowOk = true ∧ h.gladOk = false ∧
      main h d = { trace := createWindow h ++ loadGL h ++ gladFailed, exit := some (-1) }) ∨
    (h.windowOk = true ∧ h.gladOk = true ∧
      main h d =
        { trace := createWindow h ++ loadGL h ++ setup d ++
            (renderLoop Window.shouldClose (frame d) { shouldClose := false } h.frames).1 ++
            (if windowCloses h.frames then cleanup d else []),
          exit := if windowCloses h.frames then some 0 else none }) := by
  have hleft := renderLoop_left Window.shouldClose (frame d) (frame_shouldClose_main d) { shouldClose := false } h.frames
  simp only [Bool.false_or] at hleft
  cases hw : h.windowOk
  · left
    simp [main, hw]
  · cases hg : h.gladOk
    · right; left
      simp [main, hw, hg]
    · right; right
      simp only [main, hw, hg, hleft, Bool.not_true, Bool.false_eq_true, if_false, true_and]
      cases windowCloses h.frames <;> simp

/-- Every iteration found in the trace of `main` is an iteration of the loop
body. -/
theorem mem_framesOf_main (h : Host) (d : Driver) (f : List Event)
    (hf : f ∈ framesOf (main h d).trace) : ∃ s i, i ∈ h.frames ∧ f = (frame d s i).1 := by
  have hnotest : ∀ s i, (frame d s i).1.all (fun x => !x.isLoopTest) = true := by
    intro s i
    simp only [frame, List.all_append, Bool.and_eq_true]
    refine ⟨⟨?_, ?_⟩, ?_⟩
    · simp only [processInput]
      split <;> simp [Event.isLoopTest]
    · simp [render, Event.isLoopTest]
    · simp only [glfwPollEvents, List.all_cons, List.all_eq_true, Bool.and_eq_true]
      refine ⟨by simp [Event.isLoopTest], ?_⟩
      intro x hx
      simp only [List.mem_flatten, List.mem_map] at hx
      obtain ⟨l, ⟨a, _, rfl⟩, hx⟩ := hx
      simp only [framebuffer_size_callback, List.mem_singleton] at hx
      rw [hx]
      rfl
  have hcw : (createWindow h).all (fun x => !x.isLoopTest) = true := by
    unfold createWindow
    split <;> simp [Event.isLoopTest]
  rcases run_cases_main h d with ⟨_, hm⟩ | ⟨_, _, hm⟩ | ⟨_, _, hm⟩
  · rw [hm] at hf
    simp only [framesOf] at hf
    rw [framesStep_foldr_of_no_test _ _ (by rw [List.all_append, hcw]; rfl)] at hf
    simp at hf
  · rw [hm] at hf
    simp only [framesOf] at hf
    rw [framesStep_foldr_of_no_test _ _
      (by rw [List.all_append, List.all_append, hcw]; rfl)] at hf
    simp at hf
  · rw [hm] at hf
    exact framesOf_program _ _ hnotest _ _
      (by
        rw [List.all_append, List.all_append, hcw]
        cases hv : d.vertexStatus <;> cases hg : d.fragmentStatus <;> cases hl : d.linkStatus <;>
          simp [loadGL, setup, shaderConstruction, vertexStage, fragmentStage,
            linkStage, bufferSetup, Event.isLoopTest, hv, hg, hl])
      (by split <;> simp [cleanup, Event.isLoopTest]) _ _ f hf

end MainCpp

/-! ## Lemmas on Shaders.cpp -/

namespace ShadersCpp

theorem frame_all_shaders (P : Event → Bool) (hs : HoldsOfLoopShell P) (d : Driver)
    (hbody : (render d).all P = true) (w : Window) (i : FrameInput) :
    (frame d w i).1.all P = true := by
  simp only [frame, List.all_append, Bool.and_eq_true]
  exact ⟨⟨processInput_all P hs w i, hbody⟩, glfwPollEvents_all P hs _ i⟩

theorem frame_shouldClose_shaders (d : Driver) (w : Window) (i : FrameInput) :
    Window.shouldClose (frame d w i).2 = (Window.shouldClose w || i.esc || i.closeRequested) := by
  simp only [frame, processInput, glfwPollEvents]
  cases i.esc <;> cases i.closeRequested <;> simp

theorem loop_all_shaders (P : Event → Bool) (hs : HoldsOfLoopShell P) (d : Driver)
    (hbody : (render d).all P = true) (w : Window) (is : List FrameInput) :
    (renderLoop Window.shouldClose (frame d) w is).1.all P = true :=
  renderLoop_all _ _ P (frame_all_shaders P hs d hbody) hs.1 w is

/-- The three ways `main` runs: no window, no GLAD, or setup, render loop and,
once the loop is left, de-allocation. -/
theorem run_cases_shaders (h : Host) (d : Driver) :
    (h.windowOk = false ∧
      main h d = { trace := createWindow h ++ windowFailed, exit := some (-1) }) ∨
    (h.windowOk = true ∧ h.gladOk = false ∧
      main h d = { trace := createWindow h ++ loadGL h ++ gladFailed, exit := some (-1) }) ∨
    (h.windowOk = true ∧ h.gladOk = true ∧
      main h d =
        { trace := createWindow h ++ loadGL h ++ setup d ++
            (renderLoop Window.shouldClose (frame d) { shouldClose := false } h.frames).1 ++
            (if windowCloses h.frames then cleanup d else []),
          exit := if windowCloses h.frames then some 0 else none }) := by
  have hleft := renderLoop_left Window.shouldClose (frame d) (frame_shouldClose_shaders d) { shouldClose := false } h.frames
  simp only [Bool.false_or] at hleft
  cases hw : h.windowOk
  · left
    simp [main, hw]
  · cases hg : h.gladOk
    · right; left
      simp [main, hw, hg]
    · right; right
      simp only [main, hw, hg, hleft, Bool.not_true, Bool.false_eq_true, if_false, true_and]
      cases windowCloses h.frames <;> simp

/-- Every iteration found in the trace of `main` is an iteration of the loop
body. -/
theorem mem_framesOf_shaders (h : Host) (d : Driver) (f : List Event)
    (hf : f ∈ framesOf (main h d).trace) : ∃ s i, i ∈ h.frames ∧ f = (frame d s i).1 := by
  have hnotest : ∀ s i, (frame d s i).1.all (fun x => !x.isLoopTest) = true := by
    intro s i
    simp only [frame, List.all_append, Bool.and_eq_true]
    refine ⟨⟨?_, ?_⟩, ?_⟩
    · simp only [processInput]
      split <;> simp [Event.isLoopTest]
    · simp [render, Event.isLoopTest]
    · simp only [glfwPollEvents, List.all_cons, List.all_eq_true, Bool.and_eq_true]
      refine ⟨by simp [Event.isLoopTest], ?_⟩
      intro x hx
      simp only [List.mem_flatten, List.mem_map] at hx
      obtain ⟨l, ⟨a, _, rfl⟩, hx⟩ := hx
      simp only [framebuffer_size_callback, List.mem_singleton] at hx
      rw [hx]
      rfl
  have hcw : (createWindow h).all (fun x => !x.isLoopTest) = true := by
    unfold createWindow
    split <;> simp [Event.isLoopTest]
  rcases run_cases_shaders h d with ⟨_, hm⟩ | ⟨_, _, hm⟩ | ⟨_, _, hm⟩
  · rw [hm] at hf
    simp only [framesOf] at hf
    rw [framesStep_foldr_of_no_test _ _ (by rw [List.all_append, hcw]; rfl)] at hf
    simp at hf
  · rw [hm] at hf
    simp only [framesOf] at hf
    rw [framesStep_foldr_of_no_test _ _
      (by rw [List.all_append, List.all_append, hcw]; rfl)] at hf
    simp at hf
  · rw [hm] at hf
    exact framesOf_program _ _ hnotest _ _
      (by rw [List.all_append, List.all_append, hcw]; rfl)
      (by split <;> simp [cleanup, Event.isLoopTest]) _ _ f hf

end ShadersCpp

/-! ## Lemmas on Textures/shader.cpp -/

namespace TexturesCpp

theorem frame_all_textures (P : Event → Bool) (hs : HoldsOfLoopShell P) (d : Driver)
    (hbody : (render d).all P = true) (w : Window) (i : FrameInput) :
    (frame d w i).1.all P = true := by
  simp only [frame, List.all_append, Bool.and_eq_true]
  exact ⟨⟨processInput_all P hs w i, hbody⟩, glfwPollEvents_all P hs _ i⟩

theorem frame_shouldClose_textures (d : Driver) (w : Window) (i : FrameInput) :
    Window.shouldClose (frame d w i).2 = (Window.shouldClose w || i.esc || i.closeRequested) := by
  simp only [frame, processInput, glfwPollEvents]
  cases i.esc <;> cases i.closeRequested <;> simp

theorem loop_all_textures (P : Event → Bool) (hs : HoldsOfLoopShell P) (d : Driver)
    (hbody : (render d).all P = true) (w : Window) (is : List FrameInput) :
    (renderLoop Window.shouldClose (frame d) w is).1.all P = true :=
  renderLoop_all _ _ P (frame_all_textures P hs d hbody) hs.1 w is

/-- The three ways `main` runs: no window, no GLAD, or setup, render loop and,
once the loop is left, de-allocation. -/
theorem run_cases_textures (h : Host) (d : Driver) :
    (h.windowOk = false ∧
      main h d = { trace := createWindow h ++ windowFailed, exit := some (-1) }) ∨
    (h.windowOk = true ∧ h.gladOk = false ∧
      main h d = { trace := createWindow h ++ loadGL h ++ gladFailed, exit := some (-1) }) ∨
    (h.windowOk = true ∧ h.gladOk = true ∧
      main h d =
        { trace := createWindow h ++ loadGL h ++ setup d ++
            (renderLoop Window.shouldClose (frame d) { shouldClose := false } h.frames).1 ++
            (if windowCloses h.frames then cleanup d else []),
          exit := if windowCloses h.frames then some 0 else none }) := by
  have hleft := renderLoop_left Window.shouldClose (frame d) (frame_shouldClose_textures d) { shouldClose := false } h.frames
  simp only [Bool.false_or] at hleft
  cases hw : h.windowOk
  · left
    simp [main, hw]
  · cases hg : h.gladOk
    · right; left
      simp [main, hw, hg]
    · right; right
      simp only [main, hw, hg, hleft, Bool.not_true, Bool.false_eq_true, if_false, true_and]
      cases windowCloses h.frames <;> simp

/-- Every iteration found in the trace of `main` is an iteration of the loop
body. -/
theorem mem_framesOf_textures (h : Host) (d : Driver) (f : List Event)
    (hf : f ∈ framesOf (main h d).trace) : ∃ s i, i ∈ h.frames ∧ f = (frame d s i).1 := by
  have hnotest : ∀ s i, (frame d s i).1.all (fun x => !x.isLoopTest) = true := by
    intro s i
    simp only [frame, List.all_append, Bool.and_eq_true]
    refine ⟨⟨?_, ?_⟩, ?_⟩
    · simp only [processInput]
      split <;> simp [Event.isLoopTest]
    · simp [render, Event.isLoopTest]
    · simp only [glfwPollEvents, List.all_cons, List.all_eq_true, Bool.and_eq_true]
      refine ⟨by simp [Event.isLoopTest], ?_⟩
      intro x hx
      simp only [List.mem_flatten, List.mem_map] at hx
      obtain ⟨l, ⟨a, _, rfl⟩, hx⟩ := hx
      simp only [framebuffer_size_callback, List.mem_singleton] at hx
      rw [hx]
      rfl
  have hcw : (createWindow h).all (fun x => !x.isLoopTest) = true := by
    unfold createWindow
    split <;> simp [Event.isLoopTest]
  rcases run_cases_textures h d with ⟨_, hm⟩ | ⟨_, _, hm⟩ | ⟨_, _, hm⟩
  · rw [hm] at hf
    simp only [framesOf] at hf
    rw [framesStep_foldr_of_no_test _ _ (by rw [List.all_append, hcw]; rfl)] at hf
    simp at hf
  · rw [hm] at hf
    simp only [framesOf] at hf
    rw [framesStep_foldr_of_no_test _ _
      (by rw [List.all_append, List.all_append, hcw]; rfl)] at hf
    simp at hf
  · rw [hm] at hf
    exact framesOf_program _ _ hnotest _ _
      (by
        rw [List.all_append, List.all_append, hcw]
        cases hd : d.image <;> simp [loadGL, setup, uploadImage, Event.isLoopTest, hd])
      (by split <;> simp [cleanup, Event.isLoopTest]) _ _ f hf

end TexturesCpp

/-! ## Lemmas on Transformations/shader.cpp -/

namespace TransformationsCpp

theorem frame_all_transformations (P : Event → Bool) (hs : HoldsOfLoopShell P) (d : Driver)
    (hbody : ∀ m t, (render d m t).all P = true) (w : State) (i : FrameInput) :
    (frame d w i).1.all P = true := by
  simp only [frame, List.all_append, Bool.and_eq_true]
  exact ⟨⟨processInput_all_transformations P hs w i, hbody _ _⟩, glfwPollEvents_all P hs _ i⟩

theorem frame_shouldClose_transformations (d : Driver) (w : State) (i : FrameInput) :
    (fun s : State => s.window.shouldClose) (frame d w i).2 = ((fun s : State => s.window.shouldClose) w || i.esc || i.closeRequested) := by
  simp only [frame, processInput, glfwPollEvents]
  cases i.esc <;> cases i.closeRequested <;> simp

theorem loop_all_transformations (P : Event → Bool) (hs : HoldsOfLoopShell P) (d : Driver)
    (hbody : ∀ m t, (render d m t).all P = true) (w : State) (is : List FrameInput) :
    (renderLoop (fun s : State => s.window.shouldClose) (frame d) w is).1.all P = true :=
  renderLoop_all _ _ P (frame_all_transformations P hs d hbody) hs.1 w is

/-- The three ways `main` runs: no window, no GLAD, or setup, render loop and,
once the loop is left, de-allocation. -/
theorem run_cases_transformations (h : Host) (d : Driver) :
    (h.windowOk = false ∧
      main h d = { trace := createWindow h ++ windowFailed, exit := some (-1) }) ∨
    (h.windowOk = true ∧ h.gladOk = false ∧
      main h d = { trace := createWindow h ++ loadGL h ++ gladFailed, exit := some (-1) }) ∨
    (h.windowOk = true ∧ h.gladOk = true ∧
      main h d =
        { trace := createWindow h ++ loadGL h ++ setup d ++
            (renderLoop (fun s : State => s.window.shouldClose) (frame d) { window := { shouldClose := false }, mixValue := mixValueInit } h.frames).1 ++
            (if windowCloses h.frames then cleanup d else []),
          exit := if windowCloses h.frames then some 0 else none }) := by
  have hleft := renderLoop_left (fun s : State => s.window.shouldClose) (frame d) (frame_shouldClose_transformations d) { window := { shouldClose := false }, mixValue := mixValueInit } h.frames
  simp only [Bool.false_or] at hleft
  cases hw : h.windowOk
  · left
    simp [main, hw]
  · cases hg : h.gladOk
    · right; left
      simp [main, hw, hg]
    · right; right
      simp only [main, hw, hg, hleft, Bool.not_true, Bool.false_eq_true, if_false, true_and]
      cases windowCloses h.frames <;> simp

/-- Every iteration found in the trace of `main` is an iteration of the loop
body. -/
theorem mem_framesOf_transformations (h : Host) (d : Driver) (f : List Event)
    (hf : f ∈ framesOf (main h d).trace) : ∃ s i, i ∈ h.frames ∧ f = (frame d s i).1 := by
  have hnotest : ∀ s i, (frame d s i).1.all (fun x => !x.isLoopTest) = true := by
    intro s i
    simp only [frame, List.all_append, Bool.and_eq_true]
    refine ⟨⟨?_, ?_⟩, ?_⟩
    · simp only [processInput]
      split <;> simp [Event.isLoopTest]
    · simp [render, Event.isLoopTest]
    · simp only [glfwPollEvents, List.all_cons, List.all_eq_true, Bool.and_eq_true]
      refine ⟨by simp [Event.isLoopTest], ?_⟩
      intro x hx
      simp only [List.mem_flatten, List.mem_map] at hx
      obtain ⟨l, ⟨a, _, rfl⟩, hx⟩ := hx
      simp only [framebuffer_size_callback, List.mem_singleton] at hx
      rw [hx]
      rfl
  have hcw : (createWindow h).all (fun x => !x.isLoopTest) = true := by
    unfold createWindow
    split <;> simp [Event.isLoopTest]
  rcases run_cases_transformations h d with ⟨_, hm⟩ | ⟨_, _, hm⟩ | ⟨_, _, hm⟩
  · rw [hm] at hf
    simp only [framesOf] at hf
    rw [framesStep_foldr_of_no_test _ _ (by rw [List.all_append, hcw]; rfl)] at hf
    simp at hf
  · rw [hm] at hf
    simp only [framesOf] at hf
    rw [framesStep_foldr_of_no_test _ _
      (by rw [List.all_append, List.all_append, hcw]; rfl)] at hf
    simp at hf
  · rw [hm] at hf
    exact framesOf_program _ _ hnotest _ _
      (by
        rw [List.all_append, List.all_append, hcw]
        cases hd : d.image1 <;> cases he : d.image2 <;>
          simp [loadGL, setup, uploadImage, textureObject, Event.isLoopTest, hd, he])
      (by split <;> simp [cleanup, Event.isLoopTest]) _ _ f hf

end TransformationsCpp

/-! ## Runs that return 0 -/

theorem countP_three (P : Event → Bool) (a b c : List Event) :
    (a ++ b ++ c).countP P = a.countP P + b.countP P + c.countP P := by
  rw [List.countP_append, List.countP_append]

/-- Order of calls when the later kind `q` only occurs in the last part. -/
theorem allBefore_of_right_in_last (p q : Event → Bool) (a b c : List Event)
    (ha : a.all (fun x => !q x) = true) (hb : b.all (fun x => !q x) = true)
    (hc : allBefore p q c = true) : allBefore p q (a ++ b ++ c) = true :=
  allBefore_three p q a b c (allBefore_of_no_right p q a ha) (allBefore_of_no_right p q b hb) hc
    (Or.inl ha) (Or.inl ⟨ha, hb⟩)

theorem releasedOnceAtEnd_of_parts (pre loop post : List Event)
    (hpre : pre.all (fun e => !e.isRelease) = true)
    (hpre1 : pre.all (fun e => !e.isTerminate) = true)
    (hloop : loop.all (fun e => !e.isRelease) = true)
    (hloop1 : loop.all (fun e => !e.isTerminate) = true)
    (hpost : ReleasedOnceAtEnd post) : ReleasedOnceAtEnd (pre ++ loop ++ post) := by
  obtain ⟨h1, h2, h3, h4, h5⟩ := hpost
  refine ⟨?_, ?_, ?_, ?_, ?_⟩
  · rw [countP_three, countP_eq_zero_of_all _ _ hpre, countP_eq_zero_of_all _ _ hloop, h1]
  · exact allBefore_of_right_in_last _ _ _ _ _ hpre hloop h2
  · rw [countP_three, countP_eq_zero_of_all _ _ hpre1, countP_eq_zero_of_all _ _ hloop1, h3]
  · exact allBefore_of_right_in_last _ _ _ _ _ hpre1 hloop1 h4
  · exact allBefore_of_right_in_last _ _ _ _ _ hpre hloop h5

theorem objectsDeletedAtEnd_of_parts (pre loop post : List Event)
    (hpreA : pre.all (fun e => e.deletedArray.isNone) = true)
    (hpreB : pre.all (fun e => e.deletedBuffer.isNone) = true)
    (hpreD : pre.all (fun e => !e.isDeleteObject) = true)
    (hpreT : pre.all (fun e => !e.isTerminate) = true)
    (hloopA : loop.all (fun e => e.deletedArray.isNone) = true)
    (hloopB : loop.all (fun e => e.deletedBuffer.isNone) = true)
    (hloopD : loop.all (fun e => !e.isDeleteObject) = true)
    (hloopT : loop.all (fun e => !e.isTerminate) = true)
    (hloopGA : loop.all (fun e => e.generatedArray.isNone) = true)
    (hloopGB : loop.all (fun e => e.generatedBuffer.isNone) = true)
    (hpostGA : post.all (fun e => e.generatedArray.isNone) = true)
    (hpostGB : post.all (fun e => e.generatedBuffer.isNone) = true)
    (hpostL : post.all (fun e => !e.isLoopTest) = true)
    (hpostW : post.all (fun e => !e.isDraw) = true)
    (hpostT : allBefore Event.isDeleteObject Event.isTerminate post = true)
    (hA : post.filterMap Event.deletedArray = pre.filterMap Event.generatedArray)
    (hB : post.filterMap Event.deletedBuffer = pre.filterMap Event.generatedBuffer) :
    ObjectsDeletedAtEnd (pre ++ loop ++ post) := by
  refine ⟨?_, ?_, ?_, ?_, ?_⟩
  · rw [filterMap_three, filterMap_three, filterMap_eq_nil_of_all _ _ hpreA,
      filterMap_eq_nil_of_all _ _ hloopA, filterMap_eq_nil_of_all _ _ hloopGA,
      filterMap_eq_nil_of_all _ _ hpostGA, hA]
    simp
  · rw [filterMap_three, filterMap_three, filterMap_eq_nil_of_all _ _ hpreB,
      filterMap_eq_nil_of_all _ _ hloopB, filterMap_eq_nil_of_all _ _ hloopGB,
      filterMap_eq_nil_of_all _ _ hpostGB, hB]
    simp
  · exact allBefore_of_right_in_last _ _ _ _ _ hpreD hloopD (allBefore_of_no_left _ _ _ hpostL)
  · exact allBefore_of_right_in_last _ _ _ _ _ hpreD hloopD (allBefore_of_no_left _ _ _ hpostW)
  · exact allBefore_of_right_in_last _ _ _ _ _ hpreT hloopT hpostT

/-- A run of main.cpp that returns 0 is the setup, the render loop and the
de-allocation. -/
theorem MainCpp.run_exit_zero_main (h : Host) (d : MainCpp.Driver)
    (he : (MainCpp.main h d).exit = some 0) :
    (MainCpp.main h d).trace =
      (createWindow h ++ loadGL h ++ MainCpp.setup d) ++
        (renderLoop Window.shouldClose (MainCpp.frame d) { shouldClose := false } h.frames).1 ++ MainCpp.cleanup d := by
  rcases MainCpp.run_cases_main h d with ⟨_, hm⟩ | ⟨_, _, hm⟩ | ⟨_, _, hm⟩
  · rw [hm] at he
    simp at he
  · rw [hm] at he
    simp at he
  · rw [hm] at he ⊢
    cases hc : windowCloses h.frames
    · simp [hc] at he
    · simp

/-- A run of Shaders.cpp that returns 0 is the setup, the render loop and the
de-allocation. -/
theorem ShadersCpp.run_exit_zero_shaders (h : Host) (d : ShadersCpp.Driver)
    (he : (ShadersCpp.main h d).exit = some 0) :
    (ShadersCpp.main h d).trace =
      (createWindow h ++ loadGL h ++ ShadersCpp.setup d) ++
        (renderLoop Window.shouldClose (ShadersCpp.frame d) { shouldClose := false } h.frames).1 ++ ShadersCpp.cleanup d := by
  rcases ShadersCpp.run_cases_shaders h d with ⟨_, hm⟩ | ⟨_, _, hm⟩ | ⟨_, _, hm⟩
  · rw [hm] at he
    simp at he
  · rw [hm] at he
    simp at he
  · rw [hm] at he ⊢
    cases hc : windowCloses h.frames
    · simp [hc] at he
    · simp

/-- A run of Textures/shader.cpp that returns 0 is the setup, the render loop and the
de-allocation. -/
theorem TexturesCpp.run_exit_zero_textures (h : Host) (d : TexturesCpp.Driver)
    (he : (TexturesCpp.main h d).exit = some 0) :
    (TexturesCpp.main h d).trace =
      (createWindow h ++ loadGL h ++ TexturesCpp.setup d) ++
        (renderLoop Window.shouldClose (TexturesCpp.frame d) { shouldClose := false } h.frames).1 ++ TexturesCpp.cleanup d := by
  rcases TexturesCpp.run_cases_textures h d with ⟨_, hm⟩ | ⟨_, _, hm⟩ | ⟨_, _, hm⟩
  · rw [hm] at he
    simp at he
  · rw [hm] at he
    simp at he
  · rw [hm] at he ⊢
    cases hc : windowCloses h.frames
    · simp [hc] at he
    · simp

/-- A run of Transformations/shader.cpp that returns 0 is the setup, the render loop and the
de-allocation. -/
theorem TransformationsCpp.run_exit_zero_transformations (h : Host) (d : TransformationsCpp.Driver)
    (he : (TransformationsCpp.main h d).exit = some 0) :
    (TransformationsCpp.main h d).trace =
      (createWindow h ++ loadGL h ++ TransformationsCpp.setup d) ++
        (renderLoop (fun s : TransformationsCpp.State => s.window.shouldClose) (TransformationsCpp.frame d) { window := { shouldClose := false }, mixValue := TransformationsCpp.mixValueInit } h.frames).1 ++ TransformationsCpp.cleanup d := by
  rcases TransformationsCpp.run_cases_transformations h d with ⟨_, hm⟩ | ⟨_, _, hm⟩ | ⟨_, _, hm⟩
  · rw [hm] at he
    simp at he
  · rw [hm] at he
    simp at he
  · rw [hm] at he ⊢
    cases hc : windowCloses h.frames
    · simp [hc] at he
    · simp

/-! ## Monitors -/

/-- A monitor keeps its state over calls that do not concern it. -/
theorem runMonitor_of_neutral {μ : Type} (step : μ → Event → Option μ) (N : Event → Bool)
    (hN : ∀ m e, N e = true → step m e = some m) (l : List Event) (hl : l.all N = true)
    (m : μ) : runMonitor step m l = some m := by
  induction l with
  | nil => rfl
  | cons e t ih =>
    simp only [List.all_cons, Bool.and_eq_true] at hl
    simp [runMonitor, hN m e hl.1, ih hl.2]

/-- A monitor accepts `pre ++ loop ++ post` when it accepts `pre`, reaching a
state of `Inv`, and from every state of `Inv` accepts `loop` and `post`,
staying in `Inv`. -/
theorem runMonitor_three {μ : Type} (step : μ → Event → Option μ) (Inv : μ → Prop) (m0 : μ)
    (pre loop post : List Event)
    (hpre : ∃ m1, runMonitor step m0 pre = some m1 ∧ Inv m1)
    (hloop : ∀ m, Inv m → ∃ m1, runMonitor step m loop = some m1 ∧ Inv m1)
    (hpost : ∀ m, Inv m → ∃ m1, runMonitor step m post = some m1 ∧ Inv m1) :
    (runMonitor step m0 (pre ++ loop ++ post)).isSome = true := by
  obtain ⟨m1, h1, i1⟩ := hpre
  obtain ⟨m2, h2, i2⟩ := hloop m1 i1
  obtain ⟨m3, h3, _⟩ := hpost m2 i2
  simp [runMonitor_append, h1, h2, h3]

theorem setterStep_neutral (m : Bool) (e : Event) (he : (!e.isUseSetterOrDraw) = true) :
    setterStep m e = some m := by
  cases e <;> first | rfl | simp [Event.isUseSetterOrDraw, Event.isUse, Event.isSetter,
    Event.isDraw] at he

theorem setterStep_test (m : Bool) (b : Bool) :
    ∃ m1, setterStep m (Event.glfwWindowShouldClose b) = some m1 ∧ True :=
  ⟨m, rfl, trivial⟩

theorem TexturesCpp.frame_setters_textures (d : TexturesCpp.Driver) (m : Bool) (w : Window)
    (i : FrameInput) : runMonitor setterStep m (TexturesCpp.frame d w i).1 = some false := by
  have h1 := runMonitor_of_neutral setterStep _ setterStep_neutral _
    (processInput_all (fun e => !e.isUseSetterOrDraw)
      (by simp [HoldsOfLoopShell, Event.isUseSetterOrDraw, Event.isUse, Event.isSetter,
        Event.isDraw]) w i) m
  have h2 : runMonitor setterStep m (TexturesCpp.render d) = some false := by cases m <;> rfl
  have h3 := runMonitor_of_neutral setterStep _ setterStep_neutral _
    (glfwPollEvents_all (fun e => !e.isUseSetterOrDraw)
      (by simp [HoldsOfLoopShell, Event.isUseSetterOrDraw, Event.isUse, Event.isSetter,
        Event.isDraw]) (processInput w i).2 i) false
  simp only [TexturesCpp.frame, runMonitor_append, h1, h2, h3, Option.some_bind]

theorem TransformationsCpp.frame_setters_transformations (d : TransformationsCpp.Driver) (m : Bool)
    (s : TransformationsCpp.State) (i : FrameInput) :
    runMonitor setterStep m (TransformationsCpp.frame d s i).1 = some false := by
  have h1 := runMonitor_of_neutral setterStep _ setterStep_neutral _
    (TransformationsCpp.processInput_all_transformations (fun e => !e.isUseSetterOrDraw)
      (by simp [HoldsOfLoopShell, Event.isUseSetterOrDraw, Event.isUse, Event.isSetter,
        Event.isDraw]) s i) m
  have h2 : ∀ x t, runMonitor setterStep m (TransformationsCpp.render d x t) = some false := by
    intro x t
    cases m <;> rfl
  have h3 := runMonitor_of_neutral setterStep _ setterStep_neutral _
    (glfwPollEvents_all (fun e => !e.isUseSetterOrDraw)
      (by simp [HoldsOfLoopShell, Event.isUseSetterOrDraw, Event.isUse, Event.isSetter,
        Event.isDraw]) (TransformationsCpp.processInput s i).2.window i) false
  simp only [TransformationsCpp.frame, runMonitor_append, h1, h2, h3, Option.some_bind]

/-! ## Draw calls and their bindings -/

theorem Binding.next_of_neutral (b : Binding) (e : Event) (he : (!e.touchesBinding) = true) :
    b.next e = b := by
  cases e <;> first | rfl | simp [Event.touchesBinding] at he

theorem isDraw_of_neutral (e : Event) (he : (!e.touchesBinding) = true) : e.isDraw = false := by
  cases e <;> first | rfl | simp [Event.touchesBinding] at he

theorem drawCalls_neutral_append (b : Binding) (l r : List Event)
    (hl : l.all (fun e => !e.touchesBinding) = true) :
    drawCalls b (l ++ r) = drawCalls b r := by
  induction l with
  | nil => rfl
  | cons e t ih =>
    simp only [List.all_cons, Bool.and_eq_true] at hl
    simp only [List.cons_append, drawCalls, isDraw_of_neutral e hl.1,
      Binding.next_of_neutral b e hl.1, Bool.false_eq_true, if_false]
    exact ih hl.2

theorem drawCalls_append_neutral (b : Binding) (l r : List Event)
    (hr : r.all (fun e => !e.touchesBinding) = true) :
    drawCalls b (l ++ r) = drawCalls b l := by
  induction l generalizing b with
  | nil =>
    have := drawCalls_neutral_append b r [] hr
    simpa [drawCalls] using this
  | cons e t ih =>
    rw [List.cons_append, drawCalls, drawCalls, ih]

/-- The draw calls of a frame are those of its rendering part. -/
theorem drawCalls_frame (b : Binding) (inp render poll : List Event)
    (hinp : inp.all (fun e => !e.touchesBinding) = true)
    (hpoll : poll.all (fun e => !e.touchesBinding) = true) :
    drawCalls b (inp ++ render ++ poll) = drawCalls b render := by
  rw [drawCalls_append_neutral _ _ _ hpoll, drawCalls_neutral_append _ _ _ hinp]

theorem holdsOfLoopShell_touchesBinding : HoldsOfLoopShell (fun e => !e.touchesBinding) := by
  simp [HoldsOfLoopShell, Event.touchesBinding]

theorem holdsOfLoopShell_isClearOrDraw : HoldsOfLoopShell (fun e => !e.isClearOrDraw) := by
  simp [HoldsOfLoopShell, Event.isClearOrDraw, Event.isClear, Event.isDraw]

theorem processInput_no_gl (w : Window) (i : FrameInput) :
    (processInput w i).1.all (fun e => !e.usesGL) = true := by
  unfold processInput
  split <;> rfl

theorem processInput_no_gl_transformations (s : TransformationsCpp.State)
    (i : FrameInput) : (TransformationsCpp.processInput s i).1.all (fun e => !e.usesGL) = true := by
  unfold TransformationsCpp.processInput
  split <;> rfl

/-! ## Claims -/

/-- C1: in the inlined shader construction of main.cpp, for every compile
outcome, the diagnostic header of a stage is written if and only if that
stage's compile status is failure; the status query of a stage is followed by
that stage's diagnostic (header, then the stage's info log as stored in
`infoLog`, then `endl`) exactly when it failed, and then in either case by the
next construction step (creation of the fragment stage, resp. of the program
object); `main` does not return -1. -/
theorem C1_stage_diagnostic_iff_compile_failure (h : Host) (d : MainCpp.Driver)
    (hw : h.windowOk = true) (hg : h.gladOk = true) :
    (Event.coutLit "ERROR::SHADER::VERTEX::COMPILATION_FAILED\n" ∈ (MainCpp.main h d).trace
        ↔ d.vertexStatus = false)
    ∧ (Event.coutLit "ERROR::SHADER::FRAGMENT::COMPILATION_FAILED\n" ∈ (MainCpp.main h d).trace
        ↔ d.fragmentStatus = false)
    ∧ (Event.glGetShaderiv d.vertexShader GLenum.GL_COMPILE_STATUS d.vertexStatus ::
        ((if d.vertexStatus then []
          else [Event.glGetShaderInfoLog d.vertexShader 512 (infoLogText 512 d.vertexLog),
                Event.coutLit "ERROR::SHADER::VERTEX::COMPILATION_FAILED\n",
                Event.coutInfoLog (infoLogText 512 d.vertexLog),
                Event.endl])
          ++ [Event.glCreateShader GLenum.GL_FRAGMENT_SHADER d.fragmentShader]))
        <:+: (MainCpp.main h d).trace
    ∧ (Event.glGetShaderiv d.fragmentShader GLenum.GL_COMPILE_STATUS d.fragmentStatus ::
        ((if d.fragmentStatus then []
          else [Event.glGetShaderInfoLog d.fragmentShader 512 (infoLogText 512 d.fragmentLog),
                Event.coutLit "ERROR::SHADER::FRAGMENT::COMPILATION_FAILED\n",
                Event.coutInfoLog (infoLogText 512 d.fragmentLog),
                Event.endl])
          ++ [Event.glCreateProgram d.shaderProgram]))
        <:+: (MainCpp.main h d).trace
    ∧ (MainCpp.main h d).exit ≠ some (-1) := by
  have hloop : ∀ s, Event.coutLit s ∉
      (renderLoop Window.shouldClose (MainCpp.frame d) { shouldClose := false } h.frames).1 :=
    fun s => not_mem_of_all Event.isCout _
      (MainCpp.loop_all_main (fun e => !e.isCout) (by simp [HoldsOfLoopShell, Event.isCout]) d rfl
        _ h.frames) _ rfl
  have hcw : ∀ s, Event.coutLit s ∉ createWindow h :=
    fun s => not_mem_of_all Event.isCout _
      (createWindow_all (fun e => !e.isCout) (by simp [HoldsOfWindowSetup, Event.isCout]) h) _ rfl
  rcases MainCpp.run_cases_main h d with ⟨hw1, _⟩ | ⟨_, hg1, _⟩ | ⟨_, _, hm⟩
  · simp [hw] at hw1
  · simp [hg] at hg1
  rw [hm]
  refine ⟨?_, ?_, ?_, ?_, ?_⟩
  · cases hv : d.vertexStatus <;> cases hf : d.fragmentStatus <;> cases hl : d.linkStatus <;>
      split <;>
      simp [hloop, hcw, loadGL, MainCpp.setup, MainCpp.shaderConstruction, MainCpp.vertexStage,
        MainCpp.fragmentStage, MainCpp.linkStage, MainCpp.bufferSetup, MainCpp.cleanup,
        hv, hf, hl]
  · cases hv : d.vertexStatus <;> cases hf : d.fragmentStatus <;> cases hl : d.linkStatus <;>
      split <;>
      simp [hloop, hcw, loadGL, MainCpp.setup, MainCpp.shaderConstruction, MainCpp.vertexStage,
        MainCpp.fragmentStage, MainCpp.linkStage, MainCpp.bufferSetup, MainCpp.cleanup,
        hv, hf, hl]
  · refine ⟨createWindow h ++ loadGL h ++
        [Event.glCreateShader GLenum.GL_VERTEX_SHADER d.vertexShader,
         Event.glShaderSource d.vertexShader 1 MainCpp.vertexShaderSource,
         Event.glCompileShader d.vertexShader],
      (Event.glShaderSource d.fragmentShader 1 MainCpp.fragmentShaderSource ::
        (MainCpp.fragmentStage d (MainCpp.vertexStage d).2).1.drop 2) ++
        (MainCpp.linkStage d (MainCpp.fragmentStage d (MainCpp.vertexStage d).2).2).1 ++
        MainCpp.bufferSetup d ++
        (renderLoop Window.shouldClose (MainCpp.frame d) { shouldClose := false } h.frames).1 ++
        (if windowCloses h.frames then MainCpp.cleanup d else []), ?_⟩
    cases hv : d.vertexStatus <;> cases hf : d.fragmentStatus <;>
      simp [MainCpp.setup, MainCpp.shaderConstruction, MainCpp.vertexStage,
        MainCpp.fragmentStage, hv, hf]
  · refine ⟨createWindow h ++ loadGL h ++ (MainCpp.vertexStage d).1 ++
        [Event.glCreateShader GLenum.GL_FRAGMENT_SHADER d.fragmentShader,
         Event.glShaderSource d.fragmentShader 1 MainCpp.fragmentShaderSource,
         Event.glCompileShader d.fragmentShader],
      (MainCpp.linkStage d (MainCpp.fragmentStage d (MainCpp.vertexStage d).2).2).1.drop 1 ++
        MainCpp.bufferSetup d ++
        (renderLoop Window.shouldClose (MainCpp.frame d) { shouldClose := false } h.frames).1 ++
        (if windowCloses h.frames then MainCpp.cleanup d else []), ?_⟩
    cases hf : d.fragmentStatus <;> cases hl : d.linkStatus <;>
      simp [MainCpp.setup, MainCpp.shaderConstruction, MainCpp.fragmentStage,
        MainCpp.linkStage, hf, hl]
  · split <;> simp

/-- C1, instance: a run in which the vertex stage fails to compile and the
fragment stage compiles. -/
theorem C1_stage_diagnostic_witness :
    sampleHost.windowOk = true ∧ sampleHost.gladOk = true ∧
    Event.coutLit "ERROR::SHADER::VERTEX::COMPILATION_FAILED\n" ∈
      (MainCpp.main sampleHost (MainCpp.sampleDriver false true false)).trace ∧
    Event.coutLit "ERROR::SHADER::FRAGMENT::COMPILATION_FAILED\n" ∉
      (MainCpp.main sampleHost (MainCpp.sampleDriver false true false)).trace :=
  ⟨rfl, rfl,
   (C1_stage_diagnostic_iff_compile_failure sampleHost (MainCpp.sampleDriver false true false)
      rfl rfl).1.mpr rfl,
   fun hmem =>
     Bool.noConfusion ((C1_stage_diagnostic_iff_compile_failure sampleHost
       (MainCpp.sampleDriver false true false) rfl rfl).2.1.mp hmem)⟩

/-- C2, as stated, fails: with a vertex stage that failed to compile, the
trace of `main` still attaches that stage to the program object, and links. -/
theorem C2_failed_stage_is_attached :
    (MainCpp.sampleDriver false true false).vertexStatus = false ∧
    Event.glAttachShader 3 1 ∈
      (MainCpp.main sampleHost (MainCpp.sampleDriver false true false)).trace ∧
    Event.glLinkProgram 3 ∈
      (MainCpp.main sampleHost (MainCpp.sampleDriver false true false)).trace := by
  rcases MainCpp.run_cases_main sampleHost (MainCpp.sampleDriver false true false) with
    ⟨hw, _⟩ | ⟨_, hg, _⟩ | ⟨_, _, hm⟩
  · exact absurd hw (by decide)
  · exact absurd hg (by decide)
  rw [hm]
  refine ⟨rfl, ?_, ?_⟩ <;>
    simp [MainCpp.setup, MainCpp.shaderConstruction, MainCpp.vertexStage,
      MainCpp.fragmentStage, MainCpp.linkStage, MainCpp.sampleDriver]

/-- C2, amended: for every compile outcome, both stage objects are attached to
the program object, the vertex stage first, and the program is then linked
once; these are the only attach and link calls of the run, whatever the two
compile statuses are. -/
theorem C2_both_stages_attached_and_linked (h : Host) (d : MainCpp.Driver)
    (hw : h.windowOk = true) (hg : h.gladOk = true) :
    (MainCpp.main h d).trace.filter Event.isAttachOrLink =
      [Event.glAttachShader d.shaderProgram d.vertexShader,
       Event.glAttachShader d.shaderProgram d.fragmentShader,
       Event.glLinkProgram d.shaderProgram] := by
  have hloop := filter_eq_nil_of_all Event.isAttachOrLink _
    (MainCpp.loop_all_main (fun e => !e.isAttachOrLink)
      (by simp [HoldsOfLoopShell, Event.isAttachOrLink]) d rfl { shouldClose := false } h.frames)
  have hcw := filter_eq_nil_of_all Event.isAttachOrLink _
    (createWindow_all (fun e => !e.isAttachOrLink)
      (by simp [HoldsOfWindowSetup, Event.isAttachOrLink]) h)
  rcases MainCpp.run_cases_main h d with ⟨hw1, _⟩ | ⟨_, hg1, _⟩ | ⟨_, _, hm⟩
  · simp [hw] at hw1
  · simp [hg] at hg1
  rw [hm]
  simp only [List.filter_append, hloop, hcw]
  cases hv : d.vertexStatus <;> cases hf : d.fragmentStatus <;> cases hl : d.linkStatus <;>
    split <;>
    simp [loadGL, MainCpp.setup, MainCpp.shaderConstruction, MainCpp.vertexStage,
      MainCpp.fragmentStage, MainCpp.linkStage, MainCpp.bufferSetup, MainCpp.cleanup,
      Event.isAttachOrLink, hv, hf, hl]

/-- C2, amended, instance: the run with a failed vertex stage. -/
theorem C2_both_stages_attached_witness :
    sampleHost.windowOk = true ∧ sampleHost.gladOk = true ∧
    (MainCpp.main sampleHost (MainCpp.sampleDriver false true false)).trace.filter
        Event.isAttachOrLink =
      [Event.glAttachShader 3 1, Event.glAttachShader 3 2, Event.glLinkProgram 3] :=
  ⟨rfl, rfl,
   C2_both_stages_attached_and_linked sampleHost (MainCpp.sampleDriver false true false) rfl rfl⟩

/-- C3: for every combination of compile and link outcomes, the run of
main.cpp creates one program object and two shader-stage objects; the stage
names deleted are exactly the two stage names created, each deleted by one
call; the single link call comes before both deletions, and both deletions
come before every draw call. -/
theorem C3_stage_objects_deleted_once_after_link (h : Host) (d : MainCpp.Driver)
    (hw : h.windowOk = true) (hg : h.gladOk = true) :
    (MainCpp.main h d).trace.filterMap Event.createdProgram = [d.shaderProgram]
    ∧ (MainCpp.main h d).trace.filterMap Event.createdShader
        = [d.vertexShader, d.fragmentShader]
    ∧ (MainCpp.main h d).trace.filterMap Event.deletedShader
        = [d.vertexShader, d.fragmentShader]
    ∧ (MainCpp.main h d).trace.filter Event.isLink = [Event.glLinkProgram d.shaderProgram]
    ∧ allBefore Event.isLink Event.isDeleteShader (MainCpp.main h d).trace = true
    ∧ allBefore Event.isDeleteShader Event.isDraw (MainCpp.main h d).trace = true := by
  have hl1 := MainCpp.loop_all_main (fun e => !e.isLink)
    (by simp [HoldsOfLoopShell, Event.isLink]) d rfl { shouldClose := false } h.frames
  have hl2 := MainCpp.loop_all_main (fun e => !e.isDeleteShader)
    (by simp [HoldsOfLoopShell, Event.isDeleteShader]) d rfl { shouldClose := false } h.frames
  have hl3 := filterMap_eq_nil_of_all Event.createdProgram _
    (MainCpp.loop_all_main (fun e => e.createdProgram.isNone)
      (by simp [HoldsOfLoopShell, Event.createdProgram]) d rfl { shouldClose := false } h.frames)
  have hl4 := filterMap_eq_nil_of_all Event.createdShader _
    (MainCpp.loop_all_main (fun e => e.createdShader.isNone)
      (by simp [HoldsOfLoopShell, Event.createdShader]) d rfl { shouldClose := false } h.frames)
  have hl5 := filterMap_eq_nil_of_all Event.deletedShader _
    (MainCpp.loop_all_main (fun e => e.deletedShader.isNone)
      (by simp [HoldsOfLoopShell, Event.deletedShader]) d rfl { shouldClose := false } h.frames)
  have hp3 : (createWindow h ++ loadGL h ++ MainCpp.setup d).filterMap Event.createdProgram
      = [d.shaderProgram] := by
    rcases h with ⟨_ | _, _, _, _⟩ <;>
    rcases d with ⟨_, _ | _, _, _, _ | _, _, _, _ | _, _, _, _, _, _, _⟩ <;> rfl
  have hp4 : (createWindow h ++ loadGL h ++ MainCpp.setup d).filterMap Event.createdShader
      = [d.vertexShader, d.fragmentShader] := by
    rcases h with ⟨_ | _, _, _, _⟩ <;>
    rcases d with ⟨_, _ | _, _, _, _ | _, _, _, _ | _, _, _, _, _, _, _⟩ <;> rfl
  have hp5 : (createWindow h ++ loadGL h ++ MainCpp.setup d).filterMap Event.deletedShader
      = [d.vertexShader, d.fragmentShader] := by
    rcases h with ⟨_ | _, _, _, _⟩ <;>
    rcases d with ⟨_, _ | _, _, _, _ | _, _, _, _ | _, _, _, _, _, _, _⟩ <;> rfl
  have hp1 : (createWindow h ++ loadGL h ++ MainCpp.setup d).filter Event.isLink
      = [Event.glLinkProgram d.shaderProgram] := by
    rcases h with ⟨_ | _, _, _, _⟩ <;>
    rcases d with ⟨_, _ | _, _, _, _ | _, _, _, _ | _, _, _, _, _, _, _⟩ <;> rfl
  have hp6 : allBefore Event.isLink Event.isDeleteShader
      (createWindow h ++ loadGL h ++ MainCpp.setup d) = true := by
    rcases h with ⟨_ | _, _, _, _⟩ <;>
    rcases d with ⟨_, _ | _, _, _, _ | _, _, _, _ | _, _, _, _, _, _, _⟩ <;> rfl
  have hp7 : (createWindow h ++ loadGL h ++ MainCpp.setup d).all (fun e => !e.isDraw) = true := by
    rcases h with ⟨_ | _, _, _, _⟩ <;>
    rcases d with ⟨_, _ | _, _, _, _ | _, _, _, _ | _, _, _, _, _, _, _⟩ <;> rfl
  rcases MainCpp.run_cases_main h d with ⟨hw1, _⟩ | ⟨_, hg1, _⟩ | ⟨_, _, hm⟩
  · simp [hw] at hw1
  · simp [hg] at hg1
  rw [hm]
  simp only [filterMap_three _ (createWindow h ++ loadGL h ++ MainCpp.setup d),
    filter_three _ (createWindow h ++ loadGL h ++ MainCpp.setup d),
    hl3, hl4, hl5, hp1, hp3, hp4, hp5, filter_eq_nil_of_all _ _ hl1]
  refine ⟨?_, ?_, ?_, ?_, ?_, ?_⟩
  · cases windowCloses h.frames <;> rfl
  · cases windowCloses h.frames <;> rfl
  · cases windowCloses h.frames <;> rfl
  · cases windowCloses h.frames <;> rfl
  · refine allBefore_three _ _ _ _ _ hp6 (allBefore_of_no_left _ _ _ hl1) ?_ (Or.inr hl1)
      (Or.inr ?_) <;> cases windowCloses h.frames <;> rfl
  · refine allBefore_three _ _ _ _ _ (allBefore_of_no_right _ _ _ hp7)
      (allBefore_of_no_left _ _ _ hl2) ?_ (Or.inr hl2) (Or.inr ?_) <;>
      cases windowCloses h.frames <;> rfl

/-- C3, instance: the run with a failed vertex stage and a failed link. -/
theorem C3_stage_objects_witness :
    sampleHost.windowOk = true ∧ sampleHost.gladOk = true ∧
    (MainCpp.main sampleHost (MainCpp.sampleDriver false true false)).trace.filterMap
      Event.deletedShader = [1, 2] :=
  ⟨rfl, rfl,
   (C3_stage_objects_deleted_once_after_link sampleHost (MainCpp.sampleDriver false true false)
      rfl rfl).2.2.1⟩

/-- C4: after the shader construction of main.cpp, for every combination of
the three statuses: the link succeeded or something was written to `cout`; the
LINKING_FAILED header is written if and only if the link status is failure,
and then it is followed by the program's info log; nothing at all is written
to `cout` exactly when the three statuses are success. -/
theorem C4_linked_or_diagnostic_written (h : Host) (d : MainCpp.Driver)
    (hw : h.windowOk = true) (hg : h.gladOk = true) :
    (d.linkStatus = true ∨ (MainCpp.main h d).trace.any Event.isCout = true)
    ∧ (Event.coutLit "ERROR::SHADER::PROGRAM::LINKING_FAILED\n" ∈ (MainCpp.main h d).trace
        ↔ d.linkStatus = false)
    ∧ (d.linkStatus = false →
        [Event.glGetProgramInfoLog d.shaderProgram 512 (infoLogText 512 d.linkLog),
         Event.coutLit "ERROR::SHADER::PROGRAM::LINKING_FAILED\n",
         Event.coutInfoLog (infoLogText 512 d.linkLog),
         Event.endl] <:+: (MainCpp.main h d).trace)
    ∧ ((MainCpp.main h d).trace.any Event.isCout = false
        ↔ (d.vertexStatus = true ∧ d.fragmentStatus = true ∧ d.linkStatus = true)) := by
  have hl := MainCpp.loop_all_main (fun e => !e.isCout)
    (by simp [HoldsOfLoopShell, Event.isCout]) d rfl { shouldClose := false } h.frames
  have hp : (createWindow h ++ loadGL h ++ MainCpp.setup d).any Event.isCout
      = !(d.vertexStatus && d.fragmentStatus && d.linkStatus) := by
    rcases h with ⟨_ | _, _, _, _⟩ <;>
    rcases d with ⟨_, _ | _, _, _, _ | _, _, _, _ | _, _, _, _, _, _, _⟩ <;> rfl
  have hpost : (if windowCloses h.frames then MainCpp.cleanup d else []).any Event.isCout
      = false := by
    cases windowCloses h.frames <;> rfl
  have hcw : ∀ s, Event.coutLit s ∉ createWindow h :=
    fun s => not_mem_of_all Event.isCout _
      (createWindow_all (fun e => !e.isCout) (by simp [HoldsOfWindowSetup, Event.isCout]) h) _ rfl
  have hany : (MainCpp.main h d).trace.any Event.isCout
      = !(d.vertexStatus && d.fragmentStatus && d.linkStatus) := by
    rcases MainCpp.run_cases_main h d with ⟨hw1, _⟩ | ⟨_, hg1, _⟩ | ⟨_, _, hm⟩
    · simp [hw] at hw1
    · simp [hg] at hg1
    rw [hm]
    simp only [any_three, hp, hpost, any_eq_false_of_all _ _ hl, Bool.or_false]
  refine ⟨?_, ?_, ?_, ?_⟩
  · rw [hany]
    cases d.vertexStatus <;> cases d.fragmentStatus <;> cases d.linkStatus <;> simp
  · rcases MainCpp.run_cases_main h d with ⟨hw1, _⟩ | ⟨_, hg1, _⟩ | ⟨_, _, hm⟩
    · simp [hw] at hw1
    · simp [hg] at hg1
    rw [hm]
    have hloop := fun s => not_mem_of_all Event.isCout _ hl (Event.coutLit s) rfl
    cases hv : d.vertexStatus <;> cases hf : d.fragmentStatus <;> cases hls : d.linkStatus <;>
      split <;>
      simp [hloop, hcw, loadGL, MainCpp.setup, MainCpp.shaderConstruction, MainCpp.vertexStage,
        MainCpp.fragmentStage, MainCpp.linkStage, MainCpp.bufferSetup, MainCpp.cleanup,
        hv, hf, hls]
  · intro hls
    rcases MainCpp.run_cases_main h d with ⟨hw1, _⟩ | ⟨_, hg1, _⟩ | ⟨_, _, hm⟩
    · simp [hw] at hw1
    · simp [hg] at hg1
    rw [hm]
    refine ⟨createWindow h ++ loadGL h ++ (MainCpp.vertexStage d).1 ++
        (MainCpp.fragmentStage d (MainCpp.vertexStage d).2).1 ++
        [Event.glCreateProgram d.shaderProgram,
         Event.glAttachShader d.shaderProgram d.vertexShader,
         Event.glAttachShader d.shaderProgram d.fragmentShader,
         Event.glLinkProgram d.shaderProgram,
         Event.glGetProgramiv d.shaderProgram GLenum.GL_LINK_STATUS d.linkStatus],
      [Event.glDeleteShader d.vertexShader, Event.glDeleteShader d.fragmentShader] ++
        MainCpp.bufferSetup d ++
        (renderLoop Window.shouldClose (MainCpp.frame d) { shouldClose := false } h.frames).1 ++
        (if windowCloses h.frames then MainCpp.cleanup d else []), ?_⟩
    simp [MainCpp.setup, MainCpp.shaderConstruction, MainCpp.linkStage, hls]
  · rw [hany]
    cases d.vertexStatus <;> cases d.fragmentStatus <;> cases d.linkStatus <;> simp

/-- C4, instance: the run in which only the link fails. -/
theorem C4_linked_or_diagnostic_witness :
    sampleHost.windowOk = true ∧ sampleHost.gladOk = true ∧
    Event.coutLit "ERROR::SHADER::PROGRAM::LINKING_FAILED\n" ∈
      (MainCpp.main sampleHost (MainCpp.sampleDriver true true false)).trace ∧
    (MainCpp.main sampleHost (MainCpp.sampleDriver true true true)).trace.any Event.isCout
      = false :=
  ⟨rfl, rfl,
   (C4_linked_or_diagnostic_written sampleHost (MainCpp.sampleDriver true true false)
      rfl rfl).2.1.mpr rfl,
   (C4_linked_or_diagnostic_written sampleHost (MainCpp.sampleDriver true true true)
      rfl rfl).2.2.2.mpr ⟨rfl, rfl, rfl⟩⟩

/-- C5: for every compile and link outcome, the run of main.cpp reaches the
loop test of the render loop; every iteration of the loop activates the
program object with `glUseProgram` and reads no compile or link status; and
`main` returns 0 exactly when the window is closed (otherwise it is still in
the loop), whatever the shader statuses are. -/
theorem C5_shader_failure_does_not_terminate (h : Host) (d : MainCpp.Driver)
    (hw : h.windowOk = true) (hg : h.gladOk = true) :
    (MainCpp.main h d).trace.any Event.isLoopTest = true
    ∧ (∀ f ∈ framesOf (MainCpp.main h d).trace,
        Event.glUseProgram d.shaderProgram ∈ f ∧ f.all (fun e => !e.isStatusQuery) = true)
    ∧ (MainCpp.main h d).exit = (if windowCloses h.frames then some 0 else none) := by
  refine ⟨?_, ?_, ?_⟩
  · rcases MainCpp.run_cases_main h d with ⟨hw1, _⟩ | ⟨_, hg1, _⟩ | ⟨_, _, hm⟩
    · simp [hw] at hw1
    · simp [hg] at hg1
    rw [hm]
    simp only [any_three, renderLoop_any_test, Bool.true_or, Bool.or_true]
  · intro f hf
    obtain ⟨s, i, _, rfl⟩ := MainCpp.mem_framesOf_main h d f hf
    refine ⟨?_, MainCpp.frame_all_main (fun e => !e.isStatusQuery)
      (by simp [HoldsOfLoopShell, Event.isStatusQuery]) d rfl s i⟩
    simp [MainCpp.frame, MainCpp.render]
  · rcases MainCpp.run_cases_main h d with ⟨hw1, _⟩ | ⟨_, hg1, _⟩ | ⟨_, _, hm⟩
    · simp [hw] at hw1
    · simp [hg] at hg1
    rw [hm]

/-- C5, instance: with all three statuses failed, the sample run (ESC in the
third frame) returns 0. -/
theorem C5_shader_failure_witness :
    sampleHost.windowOk = true ∧ sampleHost.gladOk = true ∧
    (MainCpp.main sampleHost (MainCpp.sampleDriver false false false)).exit = some 0 :=
  ⟨rfl, rfl,
   (C5_shader_failure_does_not_terminate sampleHost (MainCpp.sampleDriver false false false)
      rfl rfl).2.2⟩

/-- C6: in each of the four programs, on every run that returns 0 (so the
shader program was constructed and the render loop was left), the trace holds
exactly one release call, `glDeleteProgram(shaderProgram)` resp.
`ourShader.deleteShaderProgram()`; it comes after every draw call and before
the one `glfwTerminate` call, and no `use()` and no uniform setter follows
it. -/
theorem C6_program_released_once_at_end :
    (∀ (h : Host) (d : MainCpp.Driver), (MainCpp.main h d).exit = some 0 →
      ReleasedOnceAtEnd (MainCpp.main h d).trace ∧
      Event.glDeleteProgram d.shaderProgram ∈ (MainCpp.main h d).trace)
    ∧ (∀ (h : Host) (d : ShadersCpp.Driver), (ShadersCpp.main h d).exit = some 0 →
      ReleasedOnceAtEnd (ShadersCpp.main h d).trace ∧
      Event.Shader_deleteShaderProgram ∈ (ShadersCpp.main h d).trace)
    ∧ (∀ (h : Host) (d : TexturesCpp.Driver), (TexturesCpp.main h d).exit = some 0 →
      ReleasedOnceAtEnd (TexturesCpp.main h d).trace ∧
      Event.Shader_deleteShaderProgram ∈ (TexturesCpp.main h d).trace)
    ∧ (∀ (h : Host) (d : TransformationsCpp.Driver),
      (TransformationsCpp.main h d).exit = some 0 →
      ReleasedOnceAtEnd (TransformationsCpp.main h d).trace ∧
      Event.Shader_deleteShaderProgram ∈ (TransformationsCpp.main h d).trace) := by
  refine ⟨?_, ?_, ?_, ?_⟩
  · intro h d he
    rw [MainCpp.run_exit_zero_main h d he]
    refine ⟨releasedOnceAtEnd_of_parts _ _ _
      (show (createWindow h ++ loadGL h ++ MainCpp.setup d).all (fun e => !e.isRelease) = true by
        rcases h with ⟨_ | _, _, _, _⟩ <;>
        rcases d with ⟨_, _ | _, _, _, _ | _, _, _, _ | _, _, _, _, _, _, _⟩ <;> rfl)
      (show (createWindow h ++ loadGL h ++ MainCpp.setup d).all (fun e => !e.isTerminate) = true by
        rcases h with ⟨_ | _, _, _, _⟩ <;>
        rcases d with ⟨_, _ | _, _, _, _ | _, _, _, _ | _, _, _, _, _, _, _⟩ <;> rfl)
      (MainCpp.loop_all_main (fun e => !e.isRelease) (by simp [HoldsOfLoopShell, Event.isRelease]) d rfl
        { shouldClose := false } h.frames)
      (MainCpp.loop_all_main (fun e => !e.isTerminate) (by simp [HoldsOfLoopShell, Event.isTerminate]) d rfl
        { shouldClose := false } h.frames)
      ⟨rfl, rfl, rfl, rfl, rfl⟩, ?_⟩
    simp [MainCpp.cleanup]
  · intro h d he
    rw [ShadersCpp.run_exit_zero_shaders h d he]
    refine ⟨releasedOnceAtEnd_of_parts _ _ _
      (show (createWindow h ++ loadGL h ++ ShadersCpp.setup d).all (fun e => !e.isRelease) = true by
        rcases h with ⟨_ | _, _, _, _⟩ <;> rfl)
      (show (createWindow h ++ loadGL h ++ ShadersCpp.setup d).all (fun e => !e.isTerminate) = true by
        rcases h with ⟨_ | _, _, _, _⟩ <;> rfl)
      (ShadersCpp.loop_all_shaders (fun e => !e.isRelease) (by simp [HoldsOfLoopShell, Event.isRelease]) d rfl
        { shouldClose := false } h.frames)
      (ShadersCpp.loop_all_shaders (fun e => !e.isTerminate) (by simp [HoldsOfLoopShell, Event.isTerminate]) d rfl
        { shouldClose := false } h.frames)
      ⟨rfl, rfl, rfl, rfl, rfl⟩, ?_⟩
    simp [ShadersCpp.cleanup]
  · intro h d he
    rw [TexturesCpp.run_exit_zero_textures h d he]
    refine ⟨releasedOnceAtEnd_of_parts _ _ _
      (show (createWindow h ++ loadGL h ++ TexturesCpp.setup d).all (fun e => !e.isRelease) = true by
        rcases h with ⟨_ | _, _, _, _⟩ <;> rcases d with ⟨_, _, _, _, _ | _⟩ <;> rfl)
      (show (createWindow h ++ loadGL h ++ TexturesCpp.setup d).all (fun e => !e.isTerminate) = true by
        rcases h with ⟨_ | _, _, _, _⟩ <;> rcases d with ⟨_, _, _, _, _ | _⟩ <;> rfl)
      (TexturesCpp.loop_all_textures (fun e => !e.isRelease) (by simp [HoldsOfLoopShell, Event.isRelease]) d rfl
        { shouldClose := false } h.frames)
      (TexturesCpp.loop_all_textures (fun e => !e.isTerminate) (by simp [HoldsOfLoopShell, Event.isTerminate]) d rfl
        { shouldClose := false } h.frames)
      ⟨rfl, rfl, rfl, rfl, rfl⟩, ?_⟩
    simp [TexturesCpp.cleanup]
  · intro h d he
    rw [TransformationsCpp.run_exit_zero_transformations h d he]
    refine ⟨releasedOnceAtEnd_of_parts _ _ _
      (show (createWindow h ++ loadGL h ++ TransformationsCpp.setup d).all (fun e => !e.isRelease) = true by
        rcases h with ⟨_ | _, _, _, _⟩ <;> rcases d with ⟨_, _, _, _, _, _ | _, _ | _⟩ <;> rfl)
      (show (createWindow h ++ loadGL h ++ TransformationsCpp.setup d).all (fun e => !e.isTerminate) = true by
        rcases h with ⟨_ | _, _, _, _⟩ <;> rcases d with ⟨_, _, _, _, _, _ | _, _ | _⟩ <;> rfl)
      (TransformationsCpp.loop_all_transformations (fun e => !e.isRelease) (by simp [HoldsOfLoopShell, Event.isRelease]) d (fun _ _ => rfl)
        { window := { shouldClose := false }, mixValue := TransformationsCpp.mixValueInit } h.frames)
      (TransformationsCpp.loop_all_transformations (fun e => !e.isTerminate) (by simp [HoldsOfLoopShell, Event.isTerminate]) d (fun _ _ => rfl)
        { window := { shouldClose := false }, mixValue := TransformationsCpp.mixValueInit } h.frames)
      ⟨rfl, rfl, rfl, rfl, rfl⟩, ?_⟩
    simp [TransformationsCpp.cleanup]

/-- C6, instance: the sample runs of the four programs return 0 and release
the program once at the end. -/
theorem C6_program_released_witness :
    ((MainCpp.main sampleHost (MainCpp.sampleDriver true true true)).exit = some 0 ∧
      ReleasedOnceAtEnd (MainCpp.main sampleHost (MainCpp.sampleDriver true true true)).trace)
    ∧ ((ShadersCpp.main sampleHost ShadersCpp.sampleDriver).exit = some 0 ∧
      ReleasedOnceAtEnd (ShadersCpp.main sampleHost ShadersCpp.sampleDriver).trace)
    ∧ ((TexturesCpp.main sampleHost TexturesCpp.sampleDriver).exit = some 0 ∧
      ReleasedOnceAtEnd (TexturesCpp.main sampleHost TexturesCpp.sampleDriver).trace)
    ∧ ((TransformationsCpp.main sampleHost TransformationsCpp.sampleDriver).exit = some 0 ∧
      ReleasedOnceAtEnd
        (TransformationsCpp.main sampleHost TransformationsCpp.sampleDriver).trace) :=
  ⟨⟨rfl, (C6_program_released_once_at_end.1 sampleHost _ rfl).1⟩,
   ⟨rfl, (C6_program_released_once_at_end.2.1 sampleHost _ rfl).1⟩,
   ⟨rfl, (C6_program_released_once_at_end.2.2.1 sampleHost _ rfl).1⟩,
   ⟨rfl, (C6_program_released_once_at_end.2.2.2 sampleHost _ rfl).1⟩⟩

/-- C7: in the Textures and Transformations programs, on every run, every
uniform setter call follows a `use()` call with no draw call and no other
program activation in between (the monitor `setterStep` accepts the whole
trace); in every iteration of the render loop the calls among `use()`, the
setters and the draw calls are, in this order, `use()`, the frame's `setFloat`
(and `setMat4`) calls, and the draw call; and in the setup of Transformations
the two `setInt` calls directly follow `use()`. -/
theorem C7_setters_follow_use :
    (∀ (h : Host) (d : TexturesCpp.Driver),
      (runMonitor setterStep false (TexturesCpp.main h d).trace).isSome = true ∧
      ∀ f ∈ framesOf (TexturesCpp.main h d).trace,
        f.filter Event.isUseSetterOrDraw =
          [Event.Shader_use,
           Event.Shader_setFloat "horizonOffset" 0,
           Event.glDrawElements GLenum.GL_TRIANGLES 6 GLenum.GL_UNSIGNED_INT 0])
    ∧ (∀ (h : Host) (d : TransformationsCpp.Driver),
      (runMonitor setterStep false (TransformationsCpp.main h d).trace).isSome = true ∧
      (∀ f ∈ framesOf (TransformationsCpp.main h d).trace, ∃ mixValue time,
        f.filter Event.isUseSetterOrDraw =
          [Event.Shader_use,
           Event.Shader_setFloat "horizonOffset" 0,
           Event.Shader_setFloat "mixValue" mixValue,
           Event.Shader_setMat4 "transform"
             (Mat4.scale (Mat4.rotate Mat4.identity time 0 0 1) (1/2) (1/2) (1/2)),
           Event.glDrawElements GLenum.GL_TRIANGLES 6 GLenum.GL_UNSIGNED_INT 0]) ∧
      (h.windowOk = true → h.gladOk = true →
        [Event.Shader_use, Event.Shader_setInt "texture1" 0, Event.Shader_setInt "texture2" 1]
          <:+: (TransformationsCpp.main h d).trace)) := by
  have hshell : HoldsOfLoopShell (fun e => !e.isUseSetterOrDraw) := by
    simp [HoldsOfLoopShell, Event.isUseSetterOrDraw, Event.isUse, Event.isSetter, Event.isDraw]
  have hfail1 : ∀ h : Host,
      (runMonitor setterStep false (createWindow h ++ windowFailed)).isSome = true := by
    intro h
    rcases h with ⟨_ | _, _, _, _⟩ <;> rfl
  have hfail2 : ∀ h : Host,
      (runMonitor setterStep false (createWindow h ++ loadGL h ++ gladFailed)).isSome = true := by
    intro h
    rcases h with ⟨_ | _, _, _, _⟩ <;> rfl
  refine ⟨fun h d => ⟨?_, ?_⟩, fun h d => ⟨?_, ?_, ?_⟩⟩
  · rcases TexturesCpp.run_cases_textures h d with ⟨_, hm⟩ | ⟨_, _, hm⟩ | ⟨_, _, hm⟩
    · rw [hm]; exact hfail1 h
    · rw [hm]; exact hfail2 h
    rw [hm]
    refine runMonitor_three setterStep (fun _ => True) false _ _ _ ?_ ?_ ?_
    · rcases h with ⟨_ | _, _, _, _⟩ <;> rcases d with ⟨_, _, _, _, _ | _⟩ <;>
        exact ⟨_, rfl, trivial⟩
    · exact fun m _ => renderLoop_monitor _ _ setterStep (fun _ => True)
        (fun m s i _ => ⟨false, TexturesCpp.frame_setters_textures d m s i, trivial⟩)
        (fun m b _ => setterStep_test m b) _ _ m trivial
    · intro m _
      cases windowCloses h.frames <;> exact ⟨m, rfl, trivial⟩
  · intro f hf
    obtain ⟨s, i, _, rfl⟩ := TexturesCpp.mem_framesOf_textures h d f hf
    simp only [TexturesCpp.frame, List.filter_append,
      filter_eq_nil_of_all _ _ (processInput_all _ hshell s i),
      filter_eq_nil_of_all _ _ (glfwPollEvents_all _ hshell (processInput s i).2 i)]
    rfl
  · rcases TransformationsCpp.run_cases_transformations h d with
      ⟨_, hm⟩ | ⟨_, _, hm⟩ | ⟨_, _, hm⟩
    · rw [hm]; exact hfail1 h
    · rw [hm]; exact hfail2 h
    rw [hm]
    refine runMonitor_three setterStep (fun _ => True) false _ _ _ ?_ ?_ ?_
    · rcases h with ⟨_ | _, _, _, _⟩ <;> rcases d with ⟨_, _, _, _, _, _ | _, _ | _⟩ <;>
        exact ⟨_, rfl, trivial⟩
    · exact fun m _ => renderLoop_monitor _ _ setterStep (fun _ => True)
        (fun m s i _ => ⟨false, TransformationsCpp.frame_setters_transformations d m s i, trivial⟩)
        (fun m b _ => setterStep_test m b) _ _ m trivial
    · intro m _
      cases windowCloses h.frames <;> exact ⟨m, rfl, trivial⟩
  · intro f hf
    obtain ⟨s, i, _, rfl⟩ := TransformationsCpp.mem_framesOf_transformations h d f hf
    refine ⟨(TransformationsCpp.processInput s i).2.mixValue, f32Round i.time, ?_⟩
    simp only [TransformationsCpp.frame, List.filter_append,
      filter_eq_nil_of_all _ _
        (TransformationsCpp.processInput_all_transformations _ hshell s i),
      filter_eq_nil_of_all _ _
        (glfwPollEvents_all _ hshell (TransformationsCpp.processInput s i).2.window i)]
    rfl
  · intro hw hg
    rcases TransformationsCpp.run_cases_transformations h d with
      ⟨hw1, _⟩ | ⟨_, hg1, _⟩ | ⟨_, _, hm⟩
    · simp [hw] at hw1
    · simp [hg] at hg1
    rw [hm]
    have hdrop : (TransformationsCpp.setup d).drop ((TransformationsCpp.setup d).length - 5) =
        [Event.Shader_use, Event.Shader_setInt "texture1" 0, Event.Shader_setInt "texture2" 1,
         Event.glBindBuffer GLenum.GL_ARRAY_BUFFER 0, Event.glBindVertexArray 0] := by
      rcases d with ⟨_, _, _, _, _, _ | _, _ | _⟩ <;> rfl
    obtain ⟨A, hA⟩ : ∃ A, TransformationsCpp.setup d = A ++
        [Event.Shader_use, Event.Shader_setInt "texture1" 0, Event.Shader_setInt "texture2" 1,
         Event.glBindBuffer GLenum.GL_ARRAY_BUFFER 0, Event.glBindVertexArray 0] :=
      ⟨_, by rw [← hdrop, List.take_append_drop]⟩
    rw [hA]
    exact ⟨createWindow h ++ loadGL h ++ A,
      [Event.glBindBuffer GLenum.GL_ARRAY_BUFFER 0, Event.glBindVertexArray 0] ++
        (renderLoop (fun s : TransformationsCpp.State => s.window.shouldClose)
          (TransformationsCpp.frame d)
          { window := { shouldClose := false }, mixValue := TransformationsCpp.mixValueInit }
          h.frames).1 ++
        (if windowCloses h.frames then TransformationsCpp.cleanup d else []),
      by simp⟩

/-- C7, instance: in the sample run of Transformations the two `setInt` calls
directly follow `use()`, and the first iteration of the sample run of Textures
calls `use()`, then `setFloat`, then draws. -/
theorem C7_setters_follow_use_witness :
    (sampleHost.windowOk = true ∧ sampleHost.gladOk = true ∧
      [Event.Shader_use, Event.Shader_setInt "texture1" 0, Event.Shader_setInt "texture2" 1]
        <:+: (TransformationsCpp.main sampleHost TransformationsCpp.sampleDriver).trace)
    ∧ ∃ f, f ∈ framesOf (TexturesCpp.main sampleHost TexturesCpp.sampleDriver).trace ∧
        f.filter Event.isUseSetterOrDraw =
          [Event.Shader_use,
           Event.Shader_setFloat "horizonOffset" 0,
           Event.glDrawElements GLenum.GL_TRIANGLES 6 GLenum.GL_UNSIGNED_INT 0] :=
  have hlen : 0 <
      (framesOf (TexturesCpp.main sampleHost TexturesCpp.sampleDriver).trace).length := by
    decide
  ⟨⟨rfl, rfl, (C7_setters_follow_use.2 sampleHost TransformationsCpp.sampleDriver).2.2 rfl rfl⟩,
   (framesOf (TexturesCpp.main sampleHost TexturesCpp.sampleDriver).trace).get ⟨0, hlen⟩,
   List.get_mem _ _ _,
   (C7_setters_follow_use.1 sampleHost TexturesCpp.sampleDriver).2 _ (List.get_mem _ _ _)⟩

/-- What the calls of main.cpp before the render loop generate and
delete. -/
theorem MainCpp.setup_objects_main (h : Host) (d : MainCpp.Driver) :
    (createWindow h ++ loadGL h ++ MainCpp.setup d).all (fun e => e.deletedArray.isNone) = true ∧
    (createWindow h ++ loadGL h ++ MainCpp.setup d).all (fun e => e.deletedBuffer.isNone) = true ∧
    (createWindow h ++ loadGL h ++ MainCpp.setup d).all (fun e => !e.isDeleteObject) = true := by
  rcases h with ⟨_ | _, _, _, _⟩ <;>
  rcases d with ⟨_, _ | _, _, _, _ | _, _, _, _ | _, _, _, _, _, _, _⟩ <;>
  refine ⟨?_, ?_, ?_⟩ <;> rfl

/-- The names generated before the render loop, and no `glfwTerminate`. -/
theorem MainCpp.setup_generated_main (h : Host) (d : MainCpp.Driver) :
    (createWindow h ++ loadGL h ++ MainCpp.setup d).all (fun e => !e.isTerminate) = true ∧
    (createWindow h ++ loadGL h ++ MainCpp.setup d).filterMap Event.generatedArray = [d.VAO1, d.VAO2] ∧
    (createWindow h ++ loadGL h ++ MainCpp.setup d).filterMap Event.generatedBuffer = [d.VBO1, d.VBO2] := by
  rcases h with ⟨_ | _, _, _, _⟩ <;>
  rcases d with ⟨_, _ | _, _, _, _ | _, _, _, _ | _, _, _, _, _, _, _⟩ <;>
  refine ⟨?_, ?_, ?_⟩ <;> rfl

/-- The vertex arrays and buffers of main.cpp are deleted at the end of a
run that returns 0. -/
theorem MainCpp.objects_deleted_main (h : Host) (d : MainCpp.Driver)
    (he : (MainCpp.main h d).exit = some 0) :
    ObjectsDeletedAtEnd (MainCpp.main h d).trace ∧
      (MainCpp.main h d).trace.filterMap Event.deletedArray = [d.VAO1, d.VAO2] ∧
      (MainCpp.main h d).trace.filterMap Event.deletedBuffer = [d.VBO1, d.VBO2] := by
  rw [MainCpp.run_exit_zero_main h d he]
  obtain ⟨hpA, hpB, hpD⟩ := MainCpp.setup_objects_main h d
  obtain ⟨hpT, hA1, hB1⟩ := MainCpp.setup_generated_main h d
  have hlA := MainCpp.loop_all_main (fun e => e.deletedArray.isNone)
    (by simp [HoldsOfLoopShell, Event.deletedArray]) d rfl
    { shouldClose := false } h.frames
  have hlB := MainCpp.loop_all_main (fun e => e.deletedBuffer.isNone)
    (by simp [HoldsOfLoopShell, Event.deletedBuffer]) d rfl
    { shouldClose := false } h.frames
  have hlD := MainCpp.loop_all_main (fun e => !e.isDeleteObject)
    (by simp [HoldsOfLoopShell, Event.isDeleteObject]) d rfl
    { shouldClose := false } h.frames
  have hlT := MainCpp.loop_all_main (fun e => !e.isTerminate)
    (by simp [HoldsOfLoopShell, Event.isTerminate]) d rfl
    { shouldClose := false } h.frames
  have hlGA := MainCpp.loop_all_main (fun e => e.generatedArray.isNone)
    (by simp [HoldsOfLoopShell, Event.generatedArray]) d rfl
    { shouldClose := false } h.frames
  have hlGB := MainCpp.loop_all_main (fun e => e.generatedBuffer.isNone)
    (by simp [HoldsOfLoopShell, Event.generatedBuffer]) d rfl
    { shouldClose := false } h.frames
  refine ⟨objectsDeletedAtEnd_of_parts _ _ _ hpA hpB hpD hpT hlA hlB hlD hlT hlGA hlGB
    rfl rfl rfl rfl rfl (hA1.symm ▸ rfl) (hB1.symm ▸ rfl), ?_, ?_⟩
  · rw [filterMap_three, filterMap_eq_nil_of_all _ _ hpA, filterMap_eq_nil_of_all _ _ hlA]
    rfl
  · rw [filterMap_three, filterMap_eq_nil_of_all _ _ hpB, filterMap_eq_nil_of_all _ _ hlB]
    rfl

/-- What the calls of Shaders.cpp before the render loop generate and
delete. -/
theorem ShadersCpp.setup_objects_shaders (h : Host) (d : ShadersCpp.Driver) :
    (createWindow h ++ loadGL h ++ ShadersCpp.setup d).all (fun e => e.deletedArray.isNone) = true ∧
    (createWindow h ++ loadGL h ++ ShadersCpp.setup d).all (fun e => e.deletedBuffer.isNone) = true ∧
    (createWindow h ++ loadGL h ++ ShadersCpp.setup d).all (fun e => !e.isDeleteObject) = true := by
  rcases h with ⟨_ | _, _, _, _⟩ <;> refine ⟨?_, ?_, ?_⟩ <;> rfl

/-- The names generated before the render loop, and no `glfwTerminate`. -/
theorem ShadersCpp.setup_generated_shaders (h : Host) (d : ShadersCpp.Driver) :
    (createWindow h ++ loadGL h ++ ShadersCpp.setup d).all (fun e => !e.isTerminate) = true ∧
    (createWindow h ++ loadGL h ++ ShadersCpp.setup d).filterMap Event.generatedArray = [d.VAO] ∧
    (createWindow h ++ loadGL h ++ ShadersCpp.setup d).filterMap Event.generatedBuffer = [d.VBO] := by
  rcases h with ⟨_ | _, _, _, _⟩ <;> refine ⟨?_, ?_, ?_⟩ <;> rfl

/-- The vertex arrays and buffers of Shaders.cpp are deleted at the end of a
run that returns 0. -/
theorem ShadersCpp.objects_deleted_shaders (h : Host) (d : ShadersCpp.Driver)
    (he : (ShadersCpp.main h d).exit = some 0) :
    ObjectsDeletedAtEnd (ShadersCpp.main h d).trace ∧
      (ShadersCpp.main h d).trace.filterMap Event.deletedArray = [d.VAO] ∧
      (ShadersCpp.main h d).trace.filterMap Event.deletedBuffer = [d.VBO] := by
  rw [ShadersCpp.run_exit_zero_shaders h d he]
  obtain ⟨hpA, hpB, hpD⟩ := ShadersCpp.setup_objects_shaders h d
  obtain ⟨hpT, hA1, hB1⟩ := ShadersCpp.setup_generated_shaders h d
  have hlA := ShadersCpp.loop_all_shaders (fun e => e.deletedArray.isNone)
    (by simp [HoldsOfLoopShell, Event.deletedArray]) d rfl
    { shouldClose := false } h.frames
  have hlB := ShadersCpp.loop_all_shaders (fun e => e.deletedBuffer.isNone)
    (by simp [HoldsOfLoopShell, Event.deletedBuffer]) d rfl
    { shouldClose := false } h.frames
  have hlD := ShadersCpp.loop_all_shaders (fun e => !e.isDeleteObject)
    (by simp [HoldsOfLoopShell, Event.isDeleteObject]) d rfl
    { shouldClose := false } h.frames
  have hlT := ShadersCpp.loop_all_shaders (fun e => !e.isTerminate)
    (by simp [HoldsOfLoopShell, Event.isTerminate]) d rfl
    { shouldClose := false } h.frames
  have hlGA := ShadersCpp.loop_all_shaders (fun e => e.generatedArray.isNone)
    (by simp [HoldsOfLoopShell, Event.generatedArray]) d rfl
    { shouldClose := false } h.frames
  have hlGB := ShadersCpp.loop_all_shaders (fun e => e.generatedBuffer.isNone)
    (by simp [HoldsOfLoopShell, Event.generatedBuffer]) d rfl
    { shouldClose := false } h.frames
  refine ⟨objectsDeletedAtEnd_of_parts _ _ _ hpA hpB hpD hpT hlA hlB hlD hlT hlGA hlGB
    rfl rfl rfl rfl rfl (hA1.symm ▸ rfl) (hB1.symm ▸ rfl), ?_, ?_⟩
  · rw [filterMap_three, filterMap_eq_nil_of_all _ _ hpA, filterMap_eq_nil_of_all _ _ hlA]
    rfl
  · rw [filterMap_three, filterMap_eq_nil_of_all _ _ hpB, filterMap_eq_nil_of_all _ _ hlB]
    rfl

/-- What the calls of Textures/shader.cpp before the render loop generate and
delete. -/
theorem TexturesCpp.setup_objects_textures (h : Host) (d : TexturesCpp.Driver) :
    (createWindow h ++ loadGL h ++ TexturesCpp.setup d).all (fun e => e.deletedArray.isNone) = true ∧
    (createWindow h ++ loadGL h ++ TexturesCpp.setup d).all (fun e => e.deletedBuffer.isNone) = true ∧
    (createWindow h ++ loadGL h ++ TexturesCpp.setup d).all (fun e => !e.isDeleteObject) = true := by
  rcases h with ⟨_ | _, _, _, _⟩ <;> rcases d with ⟨_, _, _, _, _ | _⟩ <;>
  refine ⟨?_, ?_, ?_⟩ <;> rfl

/-- The names generated before the render loop, and no `glfwTerminate`. -/
theorem TexturesCpp.setup_generated_textures (h : Host) (d : TexturesCpp.Driver) :
    (createWindow h ++ loadGL h ++ TexturesCpp.setup d).all (fun e => !e.isTerminate) = true ∧
    (createWindow h ++ loadGL h ++ TexturesCpp.setup d).filterMap Event.generatedArray = [d.VAO] ∧
    (createWindow h ++ loadGL h ++ TexturesCpp.setup d).filterMap Event.generatedBuffer = [d.VBO, d.EBO] := by
  rcases h with ⟨_ | _, _, _, _⟩ <;> rcases d with ⟨_, _, _, _, _ | _⟩ <;>
  refine ⟨?_, ?_, ?_⟩ <;> rfl

/-- The vertex arrays and buffers of Textures/shader.cpp are deleted at the end of a
run that returns 0. -/
theorem TexturesCpp.objects_deleted_textures (h : Host) (d : TexturesCpp.Driver)
    (he : (TexturesCpp.main h d).exit = some 0) :
    ObjectsDeletedAtEnd (TexturesCpp.main h d).trace ∧
      (TexturesCpp.main h d).trace.filterMap Event.deletedArray = [d.VAO] ∧
      (TexturesCpp.main h d).trace.filterMap Event.deletedBuffer = [d.VBO, d.EBO] := by
  rw [TexturesCpp.run_exit_zero_textures h d he]
  obtain ⟨hpA, hpB, hpD⟩ := TexturesCpp.setup_objects_textures h d
  obtain ⟨hpT, hA1, hB1⟩ := TexturesCpp.setup_generated_textures h d
  have hlA := TexturesCpp.loop_all_textures (fun e => e.deletedArray.isNone)
    (by simp [HoldsOfLoopShell, Event.deletedArray]) d rfl
    { shouldClose := false } h.frames
  have hlB := TexturesCpp.loop_all_textures (fun e => e.deletedBuffer.isNone)
    (by simp [HoldsOfLoopShell, Event.deletedBuffer]) d rfl
    { shouldClose := false } h.frames
  have hlD := TexturesCpp.loop_all_textures (fun e => !e.isDeleteObject)
    (by simp [HoldsOfLoopShell, Event.isDeleteObject]) d rfl
    { shouldClose := false } h.frames
  have hlT := TexturesCpp.loop_all_textures (fun e => !e.isTerminate)
    (by simp [HoldsOfLoopShell, Event.isTerminate]) d rfl
    { shouldClose := false } h.frames
  have hlGA := TexturesCpp.loop_all_textures (fun e => e.generatedArray.isNone)
    (by simp [HoldsOfLoopShell, Event.generatedArray]) d rfl
    { shouldClose := false } h.frames
  have hlGB := TexturesCpp.loop_all_textures (fun e => e.generatedBuffer.isNone)
    (by simp [HoldsOfLoopShell, Event.generatedBuffer]) d rfl
    { shouldClose := false } h.frames
  refine ⟨objectsDeletedAtEnd_of_parts _ _ _ hpA hpB hpD hpT hlA hlB hlD hlT hlGA hlGB
    rfl rfl rfl rfl rfl (hA1.symm ▸ rfl) (hB1.symm ▸ rfl), ?_, ?_⟩
  · rw [filterMap_three, filterMap_eq_nil_of_all _ _ hpA, filterMap_eq_nil_of_all _ _ hlA]
    rfl
  · rw [filterMap_three, filterMap_eq_nil_of_all _ _ hpB, filterMap_eq_nil_of_all _ _ hlB]
    rfl

/-- What the calls of Transformations/shader.cpp before the render loop generate and
delete. -/
theorem TransformationsCpp.setup_objects_transformations (h : Host) (d : TransformationsCpp.Driver) :
    (createWindow h ++ loadGL h ++ TransformationsCpp.setup d).all (fun e => e.deletedArray.isNone) = true ∧
    (createWindow h ++ loadGL h ++ TransformationsCpp.setup d).all (fun e => e.deletedBuffer.isNone) = true ∧
    (createWindow h ++ loadGL h ++ TransformationsCpp.setup d).all (fun e => !e.isDeleteObject) = true := by
  rcases h with ⟨_ | _, _, _, _⟩ <;> rcases d with ⟨_, _, _, _, _, _ | _, _ | _⟩ <;>
  refine ⟨?_, ?_, ?_⟩ <;> rfl

/-- The names generated before the render loop, and no `glfwTerminate`. -/
theorem TransformationsCpp.setup_generated_transformations (h : Host) (d : TransformationsCpp.Driver) :
    (createWindow h ++ loadGL h ++ TransformationsCpp.setup d).all (fun e => !e.isTerminate) = true ∧
    (createWindow h ++ loadGL h ++ TransformationsCpp.setup d).filterMap Event.generatedArray = [d.VAO] ∧
    (createWindow h ++ loadGL h ++ TransformationsCpp.setup d).filterMap Event.generatedBuffer = [d.VBO, d.EBO] := by
  rcases h with ⟨_ | _, _, _, _⟩ <;> rcases d with ⟨_, _, _, _, _, _ | _, _ | _⟩ <;>
  refine ⟨?_, ?_, ?_⟩ <;> rfl

/-- The vertex arrays and buffers of Transformations/shader.cpp are deleted at the end of a
run that returns 0. -/
theorem TransformationsCpp.objects_deleted_transformations (h : Host) (d : TransformationsCpp.Driver)
    (he : (TransformationsCpp.main h d).exit = some 0) :
    ObjectsDeletedAtEnd (TransformationsCpp.main h d).trace ∧
      (TransformationsCpp.main h d).trace.filterMap Event.deletedArray = [d.VAO] ∧
      (TransformationsCpp.main h d).trace.filterMap Event.deletedBuffer = [d.VBO, d.EBO] := by
  rw [TransformationsCpp.run_exit_zero_transformations h d he]
  obtain ⟨hpA, hpB, hpD⟩ := TransformationsCpp.setup_objects_transformations h d
  obtain ⟨hpT, hA1, hB1⟩ := TransformationsCpp.setup_generated_transformations h d
  have hlA := TransformationsCpp.loop_all_transformations (fun e => e.deletedArray.isNone)
    (by simp [HoldsOfLoopShell, Event.deletedArray]) d (fun _ _ => rfl)
    { window := { shouldClose := false }, mixValue := TransformationsCpp.mixValueInit } h.frames
  have hlB := TransformationsCpp.loop_all_transformations (fun e => e.deletedBuffer.isNone)
    (by simp [HoldsOfLoopShell, Event.deletedBuffer]) d (fun _ _ => rfl)
    { window := { shouldClose := false }, mixValue := TransformationsCpp.mixValueInit } h.frames
  have hlD := TransformationsCpp.loop_all_transformations (fun e => !e.isDeleteObject)
    (by simp [HoldsOfLoopShell, Event.isDeleteObject]) d (fun _ _ => rfl)
    { window := { shouldClose := false }, mixValue := TransformationsCpp.mixValueInit } h.frames
  have hlT := TransformationsCpp.loop_all_transformations (fun e => !e.isTerminate)
    (by simp [HoldsOfLoopShell, Event.isTerminate]) d (fun _ _ => rfl)
    { window := { shouldClose := false }, mixValue := TransformationsCpp.mixValueInit } h.frames
  have hlGA := TransformationsCpp.loop_all_transformations (fun e => e.generatedArray.isNone)
    (by simp [HoldsOfLoopShell, Event.generatedArray]) d (fun _ _ => rfl)
    { window := { shouldClose := false }, mixValue := TransformationsCpp.mixValueInit } h.frames
  have hlGB := TransformationsCpp.loop_all_transformations (fun e => e.generatedBuffer.isNone)
    (by simp [HoldsOfLoopShell, Event.generatedBuffer]) d (fun _ _ => rfl)
    { window := { shouldClose := false }, mixValue := TransformationsCpp.mixValueInit } h.frames
  refine ⟨objectsDeletedAtEnd_of_parts _ _ _ hpA hpB hpD hpT hlA hlB hlD hlT hlGA hlGB
    rfl rfl rfl rfl rfl (hA1.symm ▸ rfl) (hB1.symm ▸ rfl), ?_, ?_⟩
  · rw [filterMap_three, filterMap_eq_nil_of_all _ _ hpA, filterMap_eq_nil_of_all _ _ hlA]
    rfl
  · rw [filterMap_three, filterMap_eq_nil_of_all _ _ hpB, filterMap_eq_nil_of_all _ _ hlB]
    rfl

/-- C8: on every run of each of the four programs that returns 0, the vertex
array names deleted are exactly the vertex array names generated (VAO1, VAO2
in main.cpp; VAO in the other three), and the buffer names deleted are exactly
the buffer names generated (VBO1, VBO2; VBO; VBO, EBO), each deleted by one
call; every deletion comes after the last loop test and after every draw call,
and before `glfwTerminate`. -/
theorem C8_arrays_and_buffers_deleted_once :
    (∀ (h : Host) (d : MainCpp.Driver), (MainCpp.main h d).exit = some 0 →
      ObjectsDeletedAtEnd (MainCpp.main h d).trace ∧
      (MainCpp.main h d).trace.filterMap Event.deletedArray = [d.VAO1, d.VAO2] ∧
      (MainCpp.main h d).trace.filterMap Event.deletedBuffer = [d.VBO1, d.VBO2])
    ∧ (∀ (h : Host) (d : ShadersCpp.Driver), (ShadersCpp.main h d).exit = some 0 →
      ObjectsDeletedAtEnd (ShadersCpp.main h d).trace ∧
      (ShadersCpp.main h d).trace.filterMap Event.deletedArray = [d.VAO] ∧
      (ShadersCpp.main h d).trace.filterMap Event.deletedBuffer = [d.VBO])
    ∧ (∀ (h : Host) (d : TexturesCpp.Driver), (TexturesCpp.main h d).exit = some 0 →
      ObjectsDeletedAtEnd (TexturesCpp.main h d).trace ∧
      (TexturesCpp.main h d).trace.filterMap Event.deletedArray = [d.VAO] ∧
      (TexturesCpp.main h d).trace.filterMap Event.deletedBuffer = [d.VBO, d.EBO])
    ∧ (∀ (h : Host) (d : TransformationsCpp.Driver),
      (TransformationsCpp.main h d).exit = some 0 →
      ObjectsDeletedAtEnd (TransformationsCpp.main h d).trace ∧
      (TransformationsCpp.main h d).trace.filterMap Event.deletedArray = [d.VAO] ∧
      (TransformationsCpp.main h d).trace.filterMap Event.deletedBuffer = [d.VBO, d.EBO]) :=
  ⟨MainCpp.objects_deleted_main, ShadersCpp.objects_deleted_shaders,
   TexturesCpp.objects_deleted_textures, TransformationsCpp.objects_deleted_transformations⟩

/-- C8, instance: the sample runs of the four programs return 0 and delete
their vertex arrays and buffers at the end. -/
theorem C8_arrays_and_buffers_witness :
    ((MainCpp.main sampleHost (MainCpp.sampleDriver true true true)).exit = some 0 ∧
      ObjectsDeletedAtEnd (MainCpp.main sampleHost (MainCpp.sampleDriver true true true)).trace)
    ∧ ((ShadersCpp.main sampleHost ShadersCpp.sampleDriver).exit = some 0 ∧
      ObjectsDeletedAtEnd (ShadersCpp.main sampleHost ShadersCpp.sampleDriver).trace)
    ∧ ((TexturesCpp.main sampleHost TexturesCpp.sampleDriver).exit = some 0 ∧
      ObjectsDeletedAtEnd (TexturesCpp.main sampleHost TexturesCpp.sampleDriver).trace)
    ∧ ((TransformationsCpp.main sampleHost TransformationsCpp.sampleDriver).exit = some 0 ∧
      ObjectsDeletedAtEnd
        (TransformationsCpp.main sampleHost TransformationsCpp.sampleDriver).trace) :=
  ⟨⟨rfl, (C8_arrays_and_buffers_deleted_once.1 sampleHost _ rfl).1⟩,
   ⟨rfl, (C8_arrays_and_buffers_deleted_once.2.1 sampleHost _ rfl).1⟩,
   ⟨rfl, (C8_arrays_and_buffers_deleted_once.2.2.1 sampleHost _ rfl).1⟩,
   ⟨rfl, (C8_arrays_and_buffers_deleted_once.2.2.2 sampleHost _ rfl).1⟩⟩

/-- One iteration of the render loop of main.cpp: the first OpenGL calls
clear the colour buffer, then come the draw calls, each with the program
active and the vertex array bound. -/
theorem MainCpp.frame_draws_main (d : MainCpp.Driver) (w : Window) (i : FrameInput) :
    ((MainCpp.frame d w i).1.filter Event.usesGL).take 2 =
        [Event.glClearColor (1/5) (3/10) (3/10) 1, Event.glClear GLenum.GL_COLOR_BUFFER_BIT] ∧
      (MainCpp.frame d w i).1.filter Event.isClearOrDraw =
        [Event.glClear GLenum.GL_COLOR_BUFFER_BIT,
         Event.glDrawArrays GLenum.GL_TRIANGLES 0 3,
         Event.glDrawArrays GLenum.GL_TRIANGLES 0 3] ∧
      drawCalls Binding.fresh (MainCpp.frame d w i).1 =
        [({ program := ActiveProgram.object d.shaderProgram, vertexArray := d.VAO1 },
          Event.glDrawArrays GLenum.GL_TRIANGLES 0 3),
         ({ program := ActiveProgram.object d.shaderProgram, vertexArray := d.VAO2 },
          Event.glDrawArrays GLenum.GL_TRIANGLES 0 3)] := by
  refine ⟨?_, ?_, ?_⟩
  · simp only [MainCpp.frame, List.filter_append,
      filter_eq_nil_of_all _ _ (processInput_no_gl w i)]
    rfl
  · simp only [MainCpp.frame, List.filter_append,
      filter_eq_nil_of_all _ _ (processInput_all _ holdsOfLoopShell_isClearOrDraw w i),
      filter_eq_nil_of_all _ _
        (glfwPollEvents_all _ holdsOfLoopShell_isClearOrDraw (processInput w i).2 i)]
    rfl
  · simp only [MainCpp.frame]
    rw [drawCalls_frame _ _ _ _ (processInput_all _ holdsOfLoopShell_touchesBinding w i)
      (glfwPollEvents_all _ holdsOfLoopShell_touchesBinding (processInput w i).2 i)]
    rfl

/-- One iteration of the render loop of Shaders.cpp: the first OpenGL calls
clear the colour buffer, then come the draw calls, each with the program
active and the vertex array bound. -/
theorem ShadersCpp.frame_draws_shaders (d : ShadersCpp.Driver) (w : Window) (i : FrameInput) :
    ((ShadersCpp.frame d w i).1.filter Event.usesGL).take 2 =
        [Event.glClearColor (1/5) (3/10) (3/10) 1, Event.glClear GLenum.GL_COLOR_BUFFER_BIT] ∧
      (ShadersCpp.frame d w i).1.filter Event.isClearOrDraw =
        [Event.glClear GLenum.GL_COLOR_BUFFER_BIT,
         Event.glDrawArrays GLenum.GL_TRIANGLES 0 3] ∧
      drawCalls Binding.fresh (ShadersCpp.frame d w i).1 =
        [({ program := ActiveProgram.ourShader, vertexArray := d.VAO },
          Event.glDrawArrays GLenum.GL_TRIANGLES 0 3)] := by
  refine ⟨?_, ?_, ?_⟩
  · simp only [ShadersCpp.frame, List.filter_append,
      filter_eq_nil_of_all _ _ (processInput_no_gl w i)]
    rfl
  · simp only [ShadersCpp.frame, List.filter_append,
      filter_eq_nil_of_all _ _ (processInput_all _ holdsOfLoopShell_isClearOrDraw w i),
      filter_eq_nil_of_all _ _
        (glfwPollEvents_all _ holdsOfLoopShell_isClearOrDraw (processInput w i).2 i)]
    rfl
  · simp only [ShadersCpp.frame]
    rw [drawCalls_frame _ _ _ _ (processInput_all _ holdsOfLoopShell_touchesBinding w i)
      (glfwPollEvents_all _ holdsOfLoopShell_touchesBinding (processInput w i).2 i)]
    rfl

/-- One iteration of the render loop of Textures/shader.cpp: the first OpenGL calls
clear the colour buffer, then come the draw calls, each with the program
active and the vertex array bound. -/
theorem TexturesCpp.frame_draws_textures (d : TexturesCpp.Driver) (w : Window) (i : FrameInput) :
    ((TexturesCpp.frame d w i).1.filter Event.usesGL).take 2 =
        [Event.glClearColor (1/5) (3/10) (3/10) 1, Event.glClear GLenum.GL_COLOR_BUFFER_BIT] ∧
      (TexturesCpp.frame d w i).1.filter Event.isClearOrDraw =
        [Event.glClear GLenum.GL_COLOR_BUFFER_BIT,
         Event.glDrawElements GLenum.GL_TRIANGLES 6 GLenum.GL_UNSIGNED_INT 0] ∧
      drawCalls Binding.fresh (TexturesCpp.frame d w i).1 =
        [({ program := ActiveProgram.ourShader, vertexArray := d.VAO },
          Event.glDrawElements GLenum.GL_TRIANGLES 6 GLenum.GL_UNSIGNED_INT 0)] := by
  refine ⟨?_, ?_, ?_⟩
  · simp only [TexturesCpp.frame, List.filter_append,
      filter_eq_nil_of_all _ _ (processInput_no_gl w i)]
    rfl
  · simp only [TexturesCpp.frame, List.filter_append,
      filter_eq_nil_of_all _ _ (processInput_all _ holdsOfLoopShell_isClearOrDraw w i),
      filter_eq_nil_of_all _ _
        (glfwPollEvents_all _ holdsOfLoopShell_isClearOrDraw (processInput w i).2 i)]
    rfl
  · simp only [TexturesCpp.frame]
    rw [drawCalls_frame _ _ _ _ (processInput_all _ holdsOfLoopShell_touchesBinding w i)
      (glfwPollEvents_all _ holdsOfLoopShell_touchesBinding (processInput w i).2 i)]
    rfl

/-- One iteration of the render loop of Transformations/shader.cpp: the first OpenGL calls
clear the colour buffer, then come the draw calls, each with the program
active and the vertex array bound. -/
theorem TransformationsCpp.frame_draws_transformations (d : TransformationsCpp.Driver) (w : TransformationsCpp.State) (i : FrameInput) :
    ((TransformationsCpp.frame d w i).1.filter Event.usesGL).take 2 =
        [Event.glClearColor (1/5) (3/10) (3/10) 1, Event.glClear GLenum.GL_COLOR_BUFFER_BIT] ∧
      (TransformationsCpp.frame d w i).1.filter Event.isClearOrDraw =
        [Event.glClear GLenum.GL_COLOR_BUFFER_BIT,
         Event.glDrawElements GLenum.GL_TRIANGLES 6 GLenum.GL_UNSIGNED_INT 0] ∧
      drawCalls Binding.fresh (TransformationsCpp.frame d w i).1 =
        [({ program := ActiveProgram.ourShader, vertexArray := d.VAO },
          Event.glDrawElements GLenum.GL_TRIANGLES 6 GLenum.GL_UNSIGNED_INT 0)] := by
  refine ⟨?_, ?_, ?_⟩
  · simp only [TransformationsCpp.frame, List.filter_append,
      filter_eq_nil_of_all _ _ (processInput_no_gl_transformations w i)]
    rfl
  · simp only [TransformationsCpp.frame, List.filter_append,
      filter_eq_nil_of_all _ _ (TransformationsCpp.processInput_all_transformations _ holdsOfLoopShell_isClearOrDraw w i),
      filter_eq_nil_of_all _ _
        (glfwPollEvents_all _ holdsOfLoopShell_isClearOrDraw (TransformationsCpp.processInput w i).2.window i)]
    rfl
  · simp only [TransformationsCpp.frame]
    rw [drawCalls_frame _ _ _ _ (TransformationsCpp.processInput_all_transformations _ holdsOfLoopShell_touchesBinding w i)
      (glfwPollEvents_all _ holdsOfLoopShell_touchesBinding (TransformationsCpp.processInput w i).2.window i)]
    rfl

/-- C9: in every iteration of the render loop of each program, the first
OpenGL calls are `glClearColor` and `glClear(GL_COLOR_BUFFER_BIT)`; the clear
and draw calls of the iteration are the clear followed by two
`glDrawArrays(GL_TRIANGLES, 0, 3)` calls in main.cpp, one in Shaders.cpp, and
one `glDrawElements(GL_TRIANGLES, 6, GL_UNSIGNED_INT, 0)` call in Textures and
Transformations; and each draw call is made with the program activated in
that iteration (`glUseProgram(shaderProgram)` resp. `ourShader.use()` is the
latest activation call) and with the vertex array bound in that iteration
(VAO1 for the first and VAO2 for the second draw call of main.cpp, VAO in the
others). -/
theorem C9_frame_clears_then_draws :
    (∀ (h : Host) (d : MainCpp.Driver), ∀ f ∈ framesOf (MainCpp.main h d).trace,
      (f.filter Event.usesGL).take 2 =
        [Event.glClearColor (1/5) (3/10) (3/10) 1, Event.glClear GLenum.GL_COLOR_BUFFER_BIT] ∧
      f.filter Event.isClearOrDraw =
        [Event.glClear GLenum.GL_COLOR_BUFFER_BIT,
         Event.glDrawArrays GLenum.GL_TRIANGLES 0 3,
         Event.glDrawArrays GLenum.GL_TRIANGLES 0 3] ∧
      drawCalls Binding.fresh f =
        [({ program := ActiveProgram.object d.shaderProgram, vertexArray := d.VAO1 },
          Event.glDrawArrays GLenum.GL_TRIANGLES 0 3),
         ({ program := ActiveProgram.object d.shaderProgram, vertexArray := d.VAO2 },
          Event.glDrawArrays GLenum.GL_TRIANGLES 0 3)])
    ∧ (∀ (h : Host) (d : ShadersCpp.Driver), ∀ f ∈ framesOf (ShadersCpp.main h d).trace,
      (f.filter Event.usesGL).take 2 =
        [Event.glClearColor (1/5) (3/10) (3/10) 1, Event.glClear GLenum.GL_COLOR_BUFFER_BIT] ∧
      f.filter Event.isClearOrDraw =
        [Event.glClear GLenum.GL_COLOR_BUFFER_BIT,
         Event.glDrawArrays GLenum.GL_TRIANGLES 0 3] ∧
      drawCalls Binding.fresh f =
        [({ program := ActiveProgram.ourShader, vertexArray := d.VAO },
          Event.glDrawArrays GLenum.GL_TRIANGLES 0 3)])
    ∧ (∀ (h : Host) (d : TexturesCpp.Driver), ∀ f ∈ framesOf (TexturesCpp.main h d).trace,
      (f.filter Event.usesGL).take 2 =
        [Event.glClearColor (1/5) (3/10) (3/10) 1, Event.glClear GLenum.GL_COLOR_BUFFER_BIT] ∧
      f.filter Event.isClearOrDraw =
        [Event.glClear GLenum.GL_COLOR_BUFFER_BIT,
         Event.glDrawElements GLenum.GL_TRIANGLES 6 GLenum.GL_UNSIGNED_INT 0] ∧
      drawCalls Binding.fresh f =
        [({ program := ActiveProgram.ourShader, vertexArray := d.VAO },
          Event.glDrawElements GLenum.GL_TRIANGLES 6 GLenum.GL_UNSIGNED_INT 0)])
    ∧ (∀ (h : Host) (d : TransformationsCpp.Driver), ∀ f ∈ framesOf (TransformationsCpp.main h d).trace,
      (f.filter Event.usesGL).take 2 =
        [Event.glClearColor (1/5) (3/10) (3/10) 1, Event.glClear GLenum.GL_COLOR_BUFFER_BIT] ∧
      f.filter Event.isClearOrDraw =
        [Event.glClear GLenum.GL_COLOR_BUFFER_BIT,
         Event.glDrawElements GLenum.GL_TRIANGLES 6 GLenum.GL_UNSIGNED_INT 0] ∧
      drawCalls Binding.fresh f =
        [({ program := ActiveProgram.ourShader, vertexArray := d.VAO },
          Event.glDrawElements GLenum.GL_TRIANGLES 6 GLenum.GL_UNSIGNED_INT 0)]) := by
  refine ⟨?_, ?_, ?_, ?_⟩
  · intro h d f hf
    obtain ⟨s, i, _, rfl⟩ := MainCpp.mem_framesOf_main h d f hf
    exact MainCpp.frame_draws_main d s i
  · intro h d f hf
    obtain ⟨s, i, _, rfl⟩ := ShadersCpp.mem_framesOf_shaders h d f hf
    exact ShadersCpp.frame_draws_shaders d s i
  · intro h d f hf
    obtain ⟨s, i, _, rfl⟩ := TexturesCpp.mem_framesOf_textures h d f hf
    exact TexturesCpp.frame_draws_textures d s i
  · intro h d f hf
    obtain ⟨s, i, _, rfl⟩ := TransformationsCpp.mem_framesOf_transformations h d f hf
    exact TransformationsCpp.frame_draws_transformations d s i

/-- C9, instance: the first iteration of the sample run of main.cpp. -/
theorem C9_frame_witness :
    ∃ f, f ∈ framesOf (MainCpp.main sampleHost (MainCpp.sampleDriver true true true)).trace ∧
      drawCalls Binding.fresh f =
        [({ program := ActiveProgram.object 3, vertexArray := 1 },
          Event.glDrawArrays GLenum.GL_TRIANGLES 0 3),
         ({ program := ActiveProgram.object 3, vertexArray := 2 },
          Event.glDrawArrays GLenum.GL_TRIANGLES 0 3)] :=
  have hlen : 0 <
      (framesOf (MainCpp.main sampleHost (MainCpp.sampleDriver true true true)).trace).length := by
    decide
  ⟨(framesOf (MainCpp.main sampleHost (MainCpp.sampleDriver true true true)).trace).get ⟨0, hlen⟩,
   List.get_mem _ _ _,
   (C9_frame_clears_then_draws.1 sampleHost (MainCpp.sampleDriver true true true) _
     (List.get_mem _ _ _)).2.2⟩

/-! ## GLAD is loaded before OpenGL is called -/

theorem loadedStep_true (e : Event) : loadedStep true e = some true := by
  unfold loadedStep
  split
  · rfl
  · split <;> rfl

theorem runMonitor_loaded (l : List Event) : runMonitor loadedStep true l = some true := by
  induction l with
  | nil => rfl
  | cons e t ih => simp [runMonitor, loadedStep_true, ih]

/-- The two failure branches make no OpenGL call. -/
theorem failure_traces_make_no_gl_call (h : Host) :
    (runMonitor loadedStep false (createWindow h ++ windowFailed)).isSome = true ∧
    (createWindow h ++ windowFailed).all (fun e => !e.usesGL) = true ∧
    (runMonitor loadedStep false (createWindow h ++ loadGL h ++ gladFailed)).isSome = true ∧
    (createWindow h ++ loadGL h ++ gladFailed).all (fun e => !e.usesGL) = true := by
  rcases h with ⟨_ | _, _, _ | _, _⟩ <;> refine ⟨?_, ?_, ?_, ?_⟩ <;> rfl

/-- The calls of main.cpp up to the render loop, with GLAD loaded. -/
theorem MainCpp.setup_loaded_main (h : Host) (d : MainCpp.Driver) (hg : h.gladOk = true) :
    runMonitor loadedStep false (createWindow h ++ loadGL h ++ MainCpp.setup d) = some true ∧
    (createWindow h ++ loadGL h ++ MainCpp.setup d).any Event.usesGL = true := by
  rcases h with ⟨_ | _, _, _ | _, _⟩ <;> simp only [Bool.false_eq_true] at hg <;>
    rcases d with ⟨_, _ | _, _, _, _ | _, _, _, _ | _, _, _, _, _, _, _⟩ <;> refine ⟨?_, ?_⟩ <;> rfl

theorem MainCpp.glad_guarded_main (h : Host) (d : MainCpp.Driver) :
    GladGuarded h (MainCpp.main h d) := by
  obtain ⟨f1, f2, f3, f4⟩ := failure_traces_make_no_gl_call h
  rcases MainCpp.run_cases_main h d with ⟨hw, hm⟩ | ⟨hw, hg, hm⟩ | ⟨hw, hg, hm⟩
  · rw [hm]
    exact ⟨f1, fun _ => ⟨f2, rfl⟩, fun hw1 => absurd hw1 (by simp [hw])⟩
  · rw [hm]
    exact ⟨f3, fun _ => ⟨f4, rfl⟩, fun _ hg1 => absurd hg1 (by simp [hg])⟩
  · rw [hm]
    obtain ⟨p1, p2⟩ := MainCpp.setup_loaded_main h d hg
    refine ⟨?_, ?_, ?_⟩
    · exact runMonitor_three loadedStep (fun m => m = true) false _ _ _ ⟨true, p1, rfl⟩
        (fun m hm1 => ⟨true, by rw [hm1, runMonitor_loaded], rfl⟩)
        (fun m hm1 => ⟨true, by rw [hm1, runMonitor_loaded], rfl⟩)
    · rintro (hw1 | hg1)
      · simp [hw] at hw1
      · simp [hg] at hg1
    · intro _ _
      simp only [any_three, p2, Bool.true_or]

/-- The calls of Shaders.cpp up to the render loop, with GLAD loaded. -/
theorem ShadersCpp.setup_loaded_shaders (h : Host) (d : ShadersCpp.Driver) (hg : h.gladOk = true) :
    runMonitor loadedStep false (createWindow h ++ loadGL h ++ ShadersCpp.setup d) = some true ∧
    (createWindow h ++ loadGL h ++ ShadersCpp.setup d).any Event.usesGL = true := by
  rcases h with ⟨_ | _, _, _ | _, _⟩ <;> simp only [Bool.false_eq_true] at hg <;>
     refine ⟨?_, ?_⟩ <;> rfl

theorem ShadersCpp.glad_guarded_shaders (h : Host) (d : ShadersCpp.Driver) :
    GladGuarded h (ShadersCpp.main h d) := by
  obtain ⟨f1, f2, f3, f4⟩ := failure_traces_make_no_gl_call h
  rcases ShadersCpp.run_cases_shaders h d with ⟨hw, hm⟩ | ⟨hw, hg, hm⟩ | ⟨hw, hg, hm⟩
  · rw [hm]
    exact ⟨f1, fun _ => ⟨f2, rfl⟩, fun hw1 => absurd hw1 (by simp [hw])⟩
  · rw [hm]
    exact ⟨f3, fun _ => ⟨f4, rfl⟩, fun _ hg1 => absurd hg1 (by simp [hg])⟩
  · rw [hm]
    obtain ⟨p1, p2⟩ := ShadersCpp.setup_loaded_shaders h d hg
    refine ⟨?_, ?_, ?_⟩
    · exact runMonitor_three loadedStep (fun m => m = true) false _ _ _ ⟨true, p1, rfl⟩
        (fun m hm1 => ⟨true, by rw [hm1, runMonitor_loaded], rfl⟩)
        (fun m hm1 => ⟨true, by rw [hm1, runMonitor_loaded], rfl⟩)
    · rintro (hw1 | hg1)
      · simp [hw] at hw1
      · simp [hg] at hg1
    · intro _ _
      simp only [any_three, p2, Bool.true_or]

/-- The calls of Textures/shader.cpp up to the render loop, with GLAD loaded. -/
theorem TexturesCpp.setup_loaded_textures (h : Host) (d : TexturesCpp.Driver) (hg : h.gladOk = true) :
    runMonitor loadedStep false (createWindow h ++ loadGL h ++ TexturesCpp.setup d) = some true ∧
    (createWindow h ++ loadGL h ++ TexturesCpp.setup d).any Event.usesGL = true := by
  rcases h with ⟨_ | _, _, _ | _, _⟩ <;> simp only [Bool.false_eq_true] at hg <;>
    rcases d with ⟨_, _, _, _, _ | _⟩ <;> refine ⟨?_, ?_⟩ <;> rfl

theorem TexturesCpp.glad_guarded_textures (h : Host) (d : TexturesCpp.Driver) :
    GladGuarded h (TexturesCpp.main h d) := by
  obtain ⟨f1, f2, f3, f4⟩ := failure_traces_make_no_gl_call h
  rcases TexturesCpp.run_cases_textures h d with ⟨hw, hm⟩ | ⟨hw, hg, hm⟩ | ⟨hw, hg, hm⟩
  · rw [hm]
    exact ⟨f1, fun _ => ⟨f2, rfl⟩, fun hw1 => absurd hw1 (by simp [hw])⟩
  · rw [hm]
    exact ⟨f3, fun _ => ⟨f4, rfl⟩, fun _ hg1 => absurd hg1 (by simp [hg])⟩
  · rw [hm]
    obtain ⟨p1, p2⟩ := TexturesCpp.setup_loaded_textures h d hg
    refine ⟨?_, ?_, ?_⟩
    · exact runMonitor_three loadedStep (fun m => m = true) false _ _ _ ⟨true, p1, rfl⟩
        (fun m hm1 => ⟨true, by rw [hm1, runMonitor_loaded], rfl⟩)
        (fun m hm1 => ⟨true, by rw [hm1, runMonitor_loaded], rfl⟩)
    · rintro (hw1 | hg1)
      · simp [hw] at hw1
      · simp [hg] at hg1
    · intro _ _
      simp only [any_three, p2, Bool.true_or]

/-- The calls of Transformations/shader.cpp up to the render loop, with GLAD loaded. -/
theorem TransformationsCpp.setup_loaded_transformations (h : Host) (d : TransformationsCpp.Driver) (hg : h.gladOk = true) :
    runMonitor loadedStep false (createWindow h ++ loadGL h ++ TransformationsCpp.setup d) = some true ∧
    (createWindow h ++ loadGL h ++ TransformationsCpp.setup d).any Event.usesGL = true := by
  rcases h with ⟨_ | _, _, _ | _, _⟩ <;> simp only [Bool.false_eq_true] at hg <;>
    rcases d with ⟨_, _, _, _, _, _ | _, _ | _⟩ <;> refine ⟨?_, ?_⟩ <;> rfl

theorem TransformationsCpp.glad_guarded_transformations (h : Host) (d : TransformationsCpp.Driver) :
    GladGuarded h (TransformationsCpp.main h d) := by
  obtain ⟨f1, f2, f3, f4⟩ := failure_traces_make_no_gl_call h
  rcases TransformationsCpp.run_cases_transformations h d with ⟨hw, hm⟩ | ⟨hw, hg, hm⟩ | ⟨hw, hg, hm⟩
  · rw [hm]
    exact ⟨f1, fun _ => ⟨f2, rfl⟩, fun hw1 => absurd hw1 (by simp [hw])⟩
  · rw [hm]
    exact ⟨f3, fun _ => ⟨f4, rfl⟩, fun _ hg1 => absurd hg1 (by simp [hg])⟩
  · rw [hm]
    obtain ⟨p1, p2⟩ := TransformationsCpp.setup_loaded_transformations h d hg
    refine ⟨?_, ?_, ?_⟩
    · exact runMonitor_three loadedStep (fun m => m = true) false _ _ _ ⟨true, p1, rfl⟩
        (fun m hm1 => ⟨true, by rw [hm1, runMonitor_loaded], rfl⟩)
        (fun m hm1 => ⟨true, by rw [hm1, runMonitor_loaded], rfl⟩)
    · rintro (hw1 | hg1)
      · simp [hw] at hw1
      · simp [hg] at hg1
    · intro _ _
      simp only [any_three, p2, Bool.true_or]

/-- C10: in each of the four programs, on every run, every call that reaches
OpenGL (a `gl*` call, or a member function of the `Shader` class) comes after
a `gladLoadGLLoader` call that returned success; when window creation fails
or GLAD loading fails, `main` returns -1 without any such call; and a run on
which both succeed does call OpenGL, so its first OpenGL call comes after the
GLAD check. -/
theorem C10_no_gl_call_before_glad_loaded :
    (∀ (h : Host) (d : MainCpp.Driver), GladGuarded h (MainCpp.main h d))
    ∧ (∀ (h : Host) (d : ShadersCpp.Driver), GladGuarded h (ShadersCpp.main h d))
    ∧ (∀ (h : Host) (d : TexturesCpp.Driver), GladGuarded h (TexturesCpp.main h d))
    ∧ (∀ (h : Host) (d : TransformationsCpp.Driver),
        GladGuarded h (TransformationsCpp.main h d)) :=
  ⟨MainCpp.glad_guarded_main, ShadersCpp.glad_guarded_shaders,
   TexturesCpp.glad_guarded_textures, TransformationsCpp.glad_guarded_transformations⟩

/-- C10, instance: without a window, and without GLAD, main.cpp returns -1
and makes no OpenGL call; on the sample host it does call OpenGL. -/
theorem C10_no_gl_call_witness :
    ((MainCpp.main noWindowHost (MainCpp.sampleDriver true true true)).trace.all
        (fun e => !e.usesGL) = true ∧
      (MainCpp.main noWindowHost (MainCpp.sampleDriver true true true)).exit = some (-1))
    ∧ ((TexturesCpp.main noGladHost TexturesCpp.sampleDriver).trace.all
        (fun e => !e.usesGL) = true ∧
      (TexturesCpp.main noGladHost TexturesCpp.sampleDriver).exit = some (-1))
    ∧ (MainCpp.main sampleHost (MainCpp.sampleDriver true true true)).trace.any Event.usesGL
        = true :=
  ⟨(C10_no_gl_call_before_glad_loaded.1 noWindowHost _).2.1 (Or.inl rfl),
   (C10_no_gl_call_before_glad_loaded.2.2.1 noGladHost _).2.1 (Or.inr rfl),
   (C10_no_gl_call_before_glad_loaded.1 sampleHost _).2.2 rfl rfl⟩

/-! ## Rounding to binary32 -/

theorem roundHalfEven_le (y : ℚ) (k : ℤ) (h : y ≤ k) : roundHalfEven y ≤ k := by
  have hf : ⌊y⌋ ≤ k := Int.floor_le_iff.mpr (by linarith [Int.lt_floor_add_one y, h] : y < k + 1)
  unfold roundHalfEven
  have hlt : y - ⌊y⌋ < 1/2 ∨ ⌊y⌋ + 1 ≤ k := by
    rcases lt_or_eq_of_le hf with h1 | h1
    · right; omega
    · left
      rw [h1]
      linarith
  rcases hlt with h1 | h1
  · rw [if_pos h1]; exact hf
  · split_ifs <;> omega

theorem le_roundHalfEven (y : ℚ) (k : ℤ) (h : (k : ℚ) ≤ y) : k ≤ roundHalfEven y := by
  have hf : k ≤ ⌊y⌋ := Int.le_floor.mpr h
  unfold roundHalfEven
  split_ifs <;> omega

theorem roundHalfEven_sub_le (y : ℚ) : |(roundHalfEven y : ℚ) - y| ≤ 1/2 := by
  have h1 := Int.floor_le y
  have h2 := Int.lt_floor_add_one y
  unfold roundHalfEven
  rw [abs_le]
  split_ifs with a b c
  · constructor <;> linarith
  · push_cast; constructor <;> linarith
  · constructor <;> linarith
  · push_cast; constructor <;> linarith

theorem roundHalfEven_eq (y : ℚ) (n : ℤ) (h : |y - n| < 1/2) : roundHalfEven y = n := by
  have h1 := roundHalfEven_sub_le y
  rw [abs_le] at h1
  rw [abs_lt] at h
  have h3 : ((roundHalfEven y : ℤ) : ℚ) < ((n + 1 : ℤ) : ℚ) := by push_cast; linarith [h1.1, h1.2, h.1, h.2]
  have h4 : ((n - 1 : ℤ) : ℚ) < ((roundHalfEven y : ℤ) : ℚ) := by push_cast; linarith [h1.1, h1.2, h.1, h.2]
  have h5 := Int.cast_lt.mp h3
  have h6 := Int.cast_lt.mp h4
  omega

/-- Halfway below an even integer the value rounds up to it. -/
theorem roundHalfEven_below_even (y : ℚ) (k : ℤ) (hk : k % 2 = 0) (h1 : (k : ℚ) - 1/2 ≤ y)
    (h2 : y ≤ k) : roundHalfEven y = k := by
  rcases lt_or_eq_of_le h1 with h | h
  · exact roundHalfEven_eq y k (by rw [abs_lt]; constructor <;> linarith)
  · have hf : ⌊y⌋ = k - 1 := by
      rw [Int.floor_eq_iff]
      push_cast
      constructor <;> linarith
    unfold roundHalfEven
    rw [hf]
    have e1 : y - ((k - 1 : ℤ) : ℚ) = 1/2 := by push_cast; linarith
    rw [e1]
    have hodd : ¬ ((k - 1) % 2 = 0) := by omega
    simp only [lt_irrefl, if_false, hodd]
    ring

theorem f32Exponent_ge (x : ℚ) : -126 ≤ f32Exponent x := by
  unfold f32Exponent
  split_ifs
  · exact le_refl _
  · exact le_max_right _ _

theorem abs_lt_zpow_f32Exponent (x : ℚ) : |x| < 2 ^ (f32Exponent x + 1) := by
  unfold f32Exponent
  split_ifs with h
  · rw [h]; norm_num
  · have h1 := Int.lt_zpow_succ_log_self (by norm_num : 1 < 2) |x|
    have h2 : ((2 : ℕ) : ℚ) ^ (Int.log 2 |x| + 1) ≤ ((2 : ℕ) : ℚ) ^ (max (Int.log 2 |x|) (-126) + 1) :=
      zpow_le_zpow_right₀ (by norm_num) (by have := le_max_left (Int.log 2 |x|) (-126); omega)
    have h3 := lt_of_lt_of_le h1 h2
    simpa using h3

theorem zpow_f32Exponent_le (x : ℚ) (h : -126 < f32Exponent x) : 2 ^ f32Exponent x ≤ |x| := by
  unfold f32Exponent at h ⊢
  split_ifs at h ⊢ with h0
  · omega
  · have hpos : 0 < |x| := abs_pos.mpr h0
    have hmax : max (Int.log 2 |x|) (-126) = Int.log 2 |x| := by
      rcases le_total (Int.log 2 |x|) (-126) with h1 | h1
      · rw [max_eq_right h1] at h; omega
      · exact max_eq_left h1
    rw [hmax]
    simpa using Int.zpow_log_le_self (by norm_num : 1 < 2) hpos

theorem f32Exponent_le (x : ℚ) (k : ℤ) (hk : -126 ≤ k) (h : |x| < 2 ^ (k + 1)) :
    f32Exponent x ≤ k := by
  unfold f32Exponent
  split_ifs with h0
  · exact hk
  · have hpos : 0 < |x| := abs_pos.mpr h0
    have h1 : Int.log 2 |x| < k + 1 :=
      (Int.lt_zpow_iff_log_lt (by norm_num : 1 < 2) hpos).mp (by simpa using h)
    exact max_le (by omega) hk

theorem f32Exponent_eq (x : ℚ) (k : ℤ) (hk : -126 ≤ k) (h1 : 2 ^ k ≤ |x|)
    (h2 : |x| < 2 ^ (k + 1)) : f32Exponent x = k := by
  have hle := f32Exponent_le x k hk h2
  have hpos : 0 < |x| := lt_of_lt_of_le (by positivity) h1
  have h0 : x ≠ 0 := abs_pos.mp hpos
  have h3 : k ≤ Int.log 2 |x| :=
    (Int.zpow_le_iff_le_log (by norm_num : 1 < 2) hpos).mp (by simpa using h1)
  have h4 : Int.log 2 |x| ≤ f32Exponent x := by
    unfold f32Exponent
    rw [if_neg h0]
    exact le_max_left _ _
  omega

theorem f32Ulp_pos (x : ℚ) : 0 < f32Ulp x := by
  unfold f32Ulp
  positivity

/-- Rounding does not cross a multiple of the spacing. -/
theorem f32Round_le_of_multiple (x b : ℚ) (k : ℤ) (hb : b = k * f32Ulp x) (h : x ≤ b) :
    f32Round x ≤ b := by
  have hu := f32Ulp_pos x
  have hy : x / f32Ulp x ≤ k := by
    rw [div_le_iff₀ hu, ← hb]
    exact h
  have hr := roundHalfEven_le _ k hy
  unfold f32Round
  rw [hb]
  exact mul_le_mul_of_nonneg_right (by exact_mod_cast hr) hu.le

theorem le_f32Round_of_multiple (x b : ℚ) (k : ℤ) (hb : b = k * f32Ulp x) (h : b ≤ x) :
    b ≤ f32Round x := by
  have hu := f32Ulp_pos x
  have hy : (k : ℚ) ≤ x / f32Ulp x := by
    rw [le_div_iff₀ hu, ← hb]
    exact h
  have hr := le_roundHalfEven _ k hy
  unfold f32Round
  rw [hb]
  exact mul_le_mul_of_nonneg_right (by exact_mod_cast hr) hu.le

/-- The rounding error is at most half the spacing. -/
theorem f32Round_sub_le (x : ℚ) : |f32Round x - x| ≤ f32Ulp x / 2 := by
  have hu := f32Ulp_pos x
  have h := roundHalfEven_sub_le (x / f32Ulp x)
  have e : f32Round x - x = ((roundHalfEven (x / f32Ulp x) : ℚ) - x / f32Ulp x) * f32Ulp x := by
    unfold f32Round
    field_simp
  rw [e, abs_mul, abs_of_pos hu]
  calc |(roundHalfEven (x / f32Ulp x) : ℚ) - x / f32Ulp x| * f32Ulp x
      ≤ 1/2 * f32Ulp x := mul_le_mul_of_nonneg_right h hu.le
    _ = f32Ulp x / 2 := by ring

/-- Evaluation of a rounding away from a tie. -/
theorem f32Round_eq (x : ℚ) (e n : ℤ) (he : -126 ≤ e) (h1 : 2 ^ e ≤ |x|)
    (h2 : |x| < 2 ^ (e + 1)) (hn : |x / 2 ^ (e - 23) - n| < 1/2) :
    f32Round x = n * 2 ^ (e - 23) := by
  unfold f32Round f32Ulp
  rw [f32Exponent_eq x e he h1 h2, roundHalfEven_eq _ n hn]

theorem f32Round_zero : f32Round 0 = 0 := by
  unfold f32Round
  rw [zero_div]
  have : roundHalfEven 0 = 0 := roundHalfEven_eq 0 0 (by norm_num)
  rw [this]
  simp

theorem isBinary32_zero : IsBinary32 0 := ⟨0, 0, by norm_num, by norm_num, by norm_num, by norm_num⟩

theorem isBinary32_one : IsBinary32 1 := ⟨1, 0, by norm_num, by norm_num, by norm_num, by norm_num⟩

/-- A binary32 value is a multiple of the spacing around `x`, or lies
strictly inside the power of two that `x` has reached. -/
theorem IsBinary32.multiple_or_small {m : ℚ} (hm : IsBinary32 m) (x : ℚ) :
    (∃ k : ℤ, m = k * f32Ulp x) ∨
    (|m| < 2 ^ f32Exponent x ∧ 2 ^ f32Exponent x ≤ |x| ∧
      (2 : ℚ) ^ f32Exponent x = ((2 ^ 23 : ℤ) : ℚ) * f32Ulp x) := by
  obtain ⟨k, j, hk, hj, _, rfl⟩ := hm
  have h2 : (2 : ℚ) ≠ 0 := by norm_num
  rcases le_or_lt (f32Exponent x - 23) j with h | h
  · left
    obtain ⟨d, hd⟩ := Int.eq_ofNat_of_zero_le (by omega : 0 ≤ j - (f32Exponent x - 23))
    refine ⟨k * 2 ^ d, ?_⟩
    have e : j = (d : ℤ) + (f32Exponent x - 23) := by omega
    unfold f32Ulp
    rw [e, zpow_add₀ h2, zpow_natCast]
    push_cast
    ring
  · right
    refine ⟨?_, zpow_f32Exponent_le x (by omega), ?_⟩
    · rw [abs_mul, abs_of_pos (by positivity : (0 : ℚ) < 2 ^ j)]
      have hk1 : |(k : ℚ)| < 2 ^ (24 : ℤ) := by
        have : ((|k| : ℤ) : ℚ) < ((2 ^ 24 : ℤ) : ℚ) := Int.cast_lt.mpr hk
        rw [Int.cast_abs] at this
        norm_num at this ⊢
        exact this
      calc |(k : ℚ)| * 2 ^ j < 2 ^ (24 : ℤ) * 2 ^ j :=
            mul_lt_mul_of_pos_right hk1 (by positivity)
        _ = 2 ^ (24 + j) := (zpow_add₀ h2 24 j).symm
        _ ≤ 2 ^ f32Exponent x := zpow_le_zpow_right₀ (by norm_num) (by omega)
    · unfold f32Ulp
      have e : f32Exponent x = 23 + (f32Exponent x - 23) := by omega
      nth_rewrite 1 [e]
      rw [zpow_add₀ h2]
      norm_num

/-- Rounding does not cross a binary32 value, from below. -/
theorem le_f32Round {m : ℚ} (hm : IsBinary32 m) (x : ℚ) (h : m ≤ x) : m ≤ f32Round x := by
  rcases hm.multiple_or_small x with ⟨k, hk⟩ | ⟨h1, h2, h3⟩
  · exact le_f32Round_of_multiple x m k hk h
  · rcases le_or_lt 0 x with hx | hx
    · rw [abs_of_nonneg hx] at h2
      have := le_f32Round_of_multiple x _ (2 ^ 23) h3 h2
      linarith [le_abs_self m]
    · rw [abs_of_neg hx] at h2
      linarith [neg_abs_le m]

/-- Rounding does not cross a binary32 value, from above. -/
theorem f32Round_le {m : ℚ} (hm : IsBinary32 m) (x : ℚ) (h : x ≤ m) : f32Round x ≤ m := by
  rcases hm.multiple_or_small x with ⟨k, hk⟩ | ⟨h1, h2, h3⟩
  · exact f32Round_le_of_multiple x m k hk h
  · rcases le_or_lt 0 x with hx | hx
    · rw [abs_of_nonneg hx] at h2
      linarith [le_abs_self m]
    · rw [abs_of_neg hx] at h2
      have h4 : -(2 : ℚ) ^ f32Exponent x = ((-(2 ^ 23) : ℤ) : ℚ) * f32Ulp x := by
        rw [h3]; push_cast; ring
      have := f32Round_le_of_multiple x _ (-(2 ^ 23)) h4 (by linarith)
      linarith [neg_abs_le m]

/-- Rounding a value of magnitude below `2 ^ 127` gives a binary32 value. -/
theorem isBinary32_f32Round (x : ℚ) (hx : |x| < 2 ^ (127 : ℤ)) : IsBinary32 (f32Round x) := by
  have h2 : (2 : ℚ) ≠ 0 := by norm_num
  have hu := f32Ulp_pos x
  have he1 := f32Exponent_ge x
  have he2 : f32Exponent x ≤ 126 := f32Exponent_le x 126 (by norm_num) (by simpa using hx)
  have hlt := abs_lt_zpow_f32Exponent x
  have hpow : (2 : ℚ) ^ (f32Exponent x + 1) = ((2 ^ 24 : ℤ) : ℚ) * f32Ulp x := by
    unfold f32Ulp
    have e : f32Exponent x + 1 = 24 + (f32Exponent x - 23) := by omega
    rw [e, zpow_add₀ h2]
    norm_num
  rw [abs_lt] at hlt
  have hup : roundHalfEven (x / f32Ulp x) ≤ 2 ^ 24 :=
    roundHalfEven_le _ _ (by rw [div_le_iff₀ hu]; linarith)
  have hlo : -(2 ^ 24) ≤ roundHalfEven (x / f32Ulp x) :=
    le_roundHalfEven _ _ (by rw [le_div_iff₀ hu]; push_cast; push_cast at hpow; linarith)
  rcases lt_or_eq_of_le hup with h | h
  · rcases lt_or_eq_of_le hlo with h' | h'
    · exact ⟨roundHalfEven (x / f32Ulp x), f32Exponent x - 23, by rw [abs_lt]; omega,
        by omega, by omega, rfl⟩
    · refine ⟨-(2 ^ 23), f32Exponent x - 22, by norm_num, by omega, by omega, ?_⟩
      unfold f32Round
      rw [← h']
      unfold f32Ulp
      have e : f32Exponent x - 22 = 1 + (f32Exponent x - 23) := by omega
      rw [e, zpow_add₀ h2]
      push_cast
      ring
  · refine ⟨2 ^ 23, f32Exponent x - 22, by norm_num, by omega, by omega, ?_⟩
    unfold f32Round
    rw [h]
    unfold f32Ulp
    have e : f32Exponent x - 22 = 1 + (f32Exponent x - 23) := by omega
    rw [e, zpow_add₀ h2]
    push_cast
    ring

/-- The spacing is at most `2 ^ (k - 23)` below `2 ^ (k + 1)`. -/
theorem f32Ulp_le (x : ℚ) (k : ℤ) (hk : -126 ≤ k) (h : |x| < 2 ^ (k + 1)) :
    f32Ulp x ≤ 2 ^ (k - 23) := by
  unfold f32Ulp
  exact zpow_le_zpow_right₀ (by norm_num) (by have := f32Exponent_le x k hk h; omega)

/-- The value of the literal `0.001f`. -/
theorem f32Round_thousandth : f32Round (1/1000) = 8589935/8589934592 := by
  rw [f32Round_eq (1/1000) (-10) 8589935 (by norm_num) (by norm_num [abs_of_pos])
    (by norm_num [abs_of_pos]) (by norm_num [abs_lt])]
  norm_num

/-- The value of the literal `0.2f`. -/
theorem f32Round_fifth : f32Round (1/5) = 13421773/67108864 := by
  rw [f32Round_eq (1/5) (-3) 13421773 (by norm_num [abs_of_pos])
    (by norm_num [abs_of_pos]) (by norm_num [abs_of_pos]) (by norm_num [abs_lt])]
  norm_num

/-! ## The mix value -/

theorem TransformationsCpp.mixAfter_none (m : ℚ) :
    TransformationsCpp.mixAfter m false false = m := by
  simp [TransformationsCpp.mixAfter]

theorem TransformationsCpp.mixAfter_both (m : ℚ) :
    TransformationsCpp.mixAfter m true true =
      TransformationsCpp.mixAfter (TransformationsCpp.mixAfter m true false) false true := by
  simp [TransformationsCpp.mixAfter]

/-- A call with only UP pressed. -/
theorem TransformationsCpp.mixAfter_up (m : ℚ) (hm : IsBinary32 m) (h0 : 0 ≤ m) (h1 : m ≤ 1) :
    IsBinary32 (TransformationsCpp.mixAfter m true false) ∧
    0 ≤ TransformationsCpp.mixAfter m true false ∧
    TransformationsCpp.mixAfter m true false ≤ 1 ∧
    m ≤ TransformationsCpp.mixAfter m true false := by
  simp only [TransformationsCpp.mixAfter, if_true, Bool.false_eq_true, if_false,
    f32Round_thousandth]
  split_ifs with h
  · exact ⟨isBinary32_one, by norm_num, le_refl _, h1⟩
  · have hx : |m + 8589935/8589934592| < 2 ^ (127 : ℤ) := by
      rw [abs_of_nonneg (by linarith)]
      have : (2 : ℚ) ≤ 2 ^ (127 : ℤ) := by norm_num
      linarith
    exact ⟨isBinary32_f32Round _ hx, le_f32Round isBinary32_zero _ (by linarith),
      le_of_lt (not_le.mp h), le_f32Round hm _ (by linarith)⟩

/-- A call with only DOWN pressed. -/
theorem TransformationsCpp.mixAfter_down (m : ℚ) (hm : IsBinary32 m) (h0 : 0 ≤ m) (h1 : m ≤ 1) :
    IsBinary32 (TransformationsCpp.mixAfter m false true) ∧
    0 ≤ TransformationsCpp.mixAfter m false true ∧
    TransformationsCpp.mixAfter m false true ≤ 1 ∧
    TransformationsCpp.mixAfter m false true ≤ m := by
  simp only [TransformationsCpp.mixAfter, if_true, Bool.false_eq_true, if_false,
    f32Round_thousandth]
  split_ifs with h
  · exact ⟨isBinary32_zero, le_refl _, by norm_num, h0⟩
  · have hx : |m - 8589935/8589934592| < 2 ^ (127 : ℤ) := by
      rw [abs_lt]
      have : (2 : ℚ) ≤ 2 ^ (127 : ℤ) := by norm_num
      constructor <;> linarith
    exact ⟨isBinary32_f32Round _ hx, le_of_lt (not_le.mp h),
      f32Round_le isBinary32_one _ (by linarith), f32Round_le hm _ (by linarith)⟩

/-- One `processInput` call keeps `mixValue` a binary32 value in `[0, 1]`. -/
theorem TransformationsCpp.mixAfter_mem (m : ℚ) (up down : Bool) (hm : IsBinary32 m)
    (h0 : 0 ≤ m) (h1 : m ≤ 1) :
    IsBinary32 (TransformationsCpp.mixAfter m up down) ∧
    0 ≤ TransformationsCpp.mixAfter m up down ∧ TransformationsCpp.mixAfter m up down ≤ 1 := by
  have hu := TransformationsCpp.mixAfter_up m hm h0 h1
  cases up <;> cases down
  · rw [TransformationsCpp.mixAfter_none]; exact ⟨hm, h0, h1⟩
  · have hd := TransformationsCpp.mixAfter_down m hm h0 h1
    exact ⟨hd.1, hd.2.1, hd.2.2.1⟩
  · exact ⟨hu.1, hu.2.1, hu.2.2.1⟩
  · rw [TransformationsCpp.mixAfter_both]
    have hd := TransformationsCpp.mixAfter_down _ hu.1 hu.2.1 hu.2.2.1
    exact ⟨hd.1, hd.2.1, hd.2.2.1⟩

theorem TransformationsCpp.mixValueInit_mem :
    IsBinary32 TransformationsCpp.mixValueInit ∧ 0 ≤ TransformationsCpp.mixValueInit ∧
    TransformationsCpp.mixValueInit ≤ 1 := by
  unfold TransformationsCpp.mixValueInit
  refine ⟨isBinary32_f32Round _ (by norm_num [abs_of_pos]), ?_, ?_⟩ <;>
    rw [f32Round_fifth] <;> norm_num

theorem TransformationsCpp.processInputs_mem (is : List FrameInput)
    (s : TransformationsCpp.State) (hm : IsBinary32 s.mixValue) (h0 : 0 ≤ s.mixValue)
    (h1 : s.mixValue ≤ 1) :
    ∀ t ∈ TransformationsCpp.processInputs s is,
      IsBinary32 t.mixValue ∧ 0 ≤ t.mixValue ∧ t.mixValue ≤ 1 := by
  induction is generalizing s with
  | nil => intro t ht; simp [TransformationsCpp.processInputs] at ht
  | cons i rest ih =>
    intro t ht
    have hstep := TransformationsCpp.mixAfter_mem s.mixValue i.up i.down hm h0 h1
    simp only [TransformationsCpp.processInputs, List.mem_cons] at ht
    rcases ht with rfl | ht
    · exact hstep
    · exact ih _ hstep.1 hstep.2.1 hstep.2.2 t ht

/-- A property of the calls of a render loop that holds as long as the loop
state satisfies an invariant. -/
theorem renderLoop_forall {σ : Type} (shouldClose : σ → Bool)
    (frame : σ → FrameInput → List Event × σ) (Inv : σ → Prop) (P : Event → Prop)
    (hInv : ∀ s i, Inv s → Inv (frame s i).2)
    (hframe : ∀ s i, Inv s → ∀ e ∈ (frame s i).1, P e)
    (htest : ∀ b, P (Event.glfwWindowShouldClose b)) (s : σ) (is : List FrameInput)
    (hs : Inv s) : ∀ e ∈ (renderLoop shouldClose frame s is).1, P e := by
  induction is generalizing s with
  | nil =>
    unfold renderLoop
    split <;> simp [htest]
  | cons i rest ih =>
    unfold renderLoop
    split
    · simp [htest]
    · intro e he
      simp only [List.mem_cons, List.mem_append] at he
      rcases he with rfl | he | he
      · exact htest false
      · exact hframe s i hs e he
      · exact ih _ (hInv s i hs) e he

theorem TransformationsCpp.frame_mixValue (d : TransformationsCpp.Driver)
    (s : TransformationsCpp.State) (i : FrameInput) (hm : IsBinary32 s.mixValue)
    (h0 : 0 ≤ s.mixValue) (h1 : s.mixValue ≤ 1) :
    ∀ e ∈ (TransformationsCpp.frame d s i).1, ∀ v, e.mixValueUpload = some v →
      IsBinary32 v ∧ 0 ≤ v ∧ v ≤ 1 := by
  intro e he v hv
  have hstep := TransformationsCpp.mixAfter_mem s.mixValue i.up i.down hm h0 h1
  have hnone : ∀ (l : List Event), l.all (fun x => x.mixValueUpload.isNone) = true → e ∈ l →
      False := by
    intro l hl hmem
    rw [List.all_eq_true] at hl
    simpa [hv] using hl e hmem
  simp only [TransformationsCpp.frame, List.mem_append] at he
  rcases he with (he | he) | he
  · exact (hnone _ (TransformationsCpp.processInput_all_transformations _
      (by simp [HoldsOfLoopShell, Event.mixValueUpload]) s i) he).elim
  · simp only [TransformationsCpp.render, List.mem_cons, List.mem_singleton,
      List.mem_nil_iff, or_false] at he
    rcases he with rfl | rfl | rfl | rfl | rfl | rfl | rfl | rfl | rfl | rfl | rfl | rfl | rfl | rfl
      <;> simp [Event.mixValueUpload] at hv
    subst hv
    exact hstep
  · exact (hnone _ (glfwPollEvents_all _
      (by simp [HoldsOfLoopShell, Event.mixValueUpload]) _ i) he).elim

/-- C16: in Transformations, with `mixValue` a binary32 `float` that starts
from the literal `0.2f`, after every call of every finite sequence of
`processInput` calls, whatever the ESC, UP and DOWN key states, `mixValue` is
a binary32 value in `[0, 1]`; on every run every value uploaded to the uniform
"mixValue" is such a value; and from every value reached that way, a call with
only UP pressed does not decrease `mixValue`, a call with only DOWN pressed
does not increase it, and a call with neither pressed leaves it unchanged. -/
theorem C16_mixValue_stays_in_unit_interval :
    (∀ (w : Window) (is : List FrameInput),
      ∀ s ∈ TransformationsCpp.processInputs { window := w, mixValue := TransformationsCpp.mixValueInit } is,
        IsBinary32 s.mixValue ∧ 0 ≤ s.mixValue ∧ s.mixValue ≤ 1)
    ∧ (∀ (h : Host) (d : TransformationsCpp.Driver),
      ∀ e ∈ (TransformationsCpp.main h d).trace, ∀ v, e.mixValueUpload = some v →
        IsBinary32 v ∧ 0 ≤ v ∧ v ≤ 1)
    ∧ (∀ (w : Window) (is : List FrameInput),
      ∀ s ∈ ({ window := w, mixValue := TransformationsCpp.mixValueInit } : TransformationsCpp.State) ::
          TransformationsCpp.processInputs { window := w, mixValue := TransformationsCpp.mixValueInit } is,
        ∀ i : FrameInput,
          (i.up = true → i.down = false →
            s.mixValue ≤ (TransformationsCpp.processInput s i).2.mixValue) ∧
          (i.up = false → i.down = true →
            (TransformationsCpp.processInput s i).2.mixValue ≤ s.mixValue) ∧
          (i.up = false → i.down = false →
            (TransformationsCpp.processInput s i).2.mixValue = s.mixValue)) := by
  have hinit := TransformationsCpp.mixValueInit_mem
  refine ⟨?_, ?_, ?_⟩
  · intro w is
    exact TransformationsCpp.processInputs_mem is _ hinit.1 hinit.2.1 hinit.2.2
  · intro h d e he v hv
    have hnone : ∀ (l : List Event), l.all (fun x => x.mixValueUpload.isNone) = true → e ∈ l →
        False := by
      intro l hl hmem
      rw [List.all_eq_true] at hl
      simpa [hv] using hl e hmem
    rcases TransformationsCpp.run_cases_transformations h d with
      ⟨_, hm⟩ | ⟨_, _, hm⟩ | ⟨_, _, hm⟩
    · rw [hm] at he
      exact (hnone _ (by rcases h with ⟨_ | _, _, _, _⟩ <;> rfl) he).elim
    · rw [hm] at he
      exact (hnone _ (by rcases h with ⟨_ | _, _, _ | _, _⟩ <;> rfl) he).elim
    · rw [hm] at he
      simp only [List.mem_append] at he
      rcases he with (he | he) | he
      · exact (hnone (createWindow h ++ loadGL h ++ TransformationsCpp.setup d)
          (by rcases h with ⟨_ | _, _, _ | _, _⟩ <;>
                rcases d with ⟨_, _, _, _, _, _ | _, _ | _⟩ <;> rfl)
          (by simpa only [List.mem_append] using he)).elim
      · exact renderLoop_forall _ _
          (fun s => IsBinary32 s.mixValue ∧ 0 ≤ s.mixValue ∧ s.mixValue ≤ 1)
          (fun e => ∀ v, e.mixValueUpload = some v → IsBinary32 v ∧ 0 ≤ v ∧ v ≤ 1)
          (fun s i hs => TransformationsCpp.mixAfter_mem s.mixValue i.up i.down hs.1 hs.2.1 hs.2.2)
          (fun s i hs => TransformationsCpp.frame_mixValue d s i hs.1 hs.2.1 hs.2.2)
          (fun b v hv => by simp [Event.mixValueUpload] at hv) _ _ hinit e he v hv
      · exact (hnone _ (by cases windowCloses h.frames <;> rfl) he).elim
  · intro w is s hs i
    have hs01 : IsBinary32 s.mixValue ∧ 0 ≤ s.mixValue ∧ s.mixValue ≤ 1 := by
      rcases List.mem_cons.mp hs with rfl | hs
      · exact hinit
      · exact TransformationsCpp.processInputs_mem is _ hinit.1 hinit.2.1 hinit.2.2 s hs
    refine ⟨?_, ?_, ?_⟩
    · intro hu hd
      simp only [TransformationsCpp.processInput, hu, hd]
      exact (TransformationsCpp.mixAfter_up _ hs01.1 hs01.2.1 hs01.2.2).2.2.2
    · intro hu hd
      simp only [TransformationsCpp.processInput, hu, hd]
      exact (TransformationsCpp.mixAfter_down _ hs01.1 hs01.2.1 hs01.2.2).2.2.2
    · intro hu hd
      simp only [TransformationsCpp.processInput, hu, hd]
      exact TransformationsCpp.mixAfter_none _

/-- C16, instance: along the three sample frames `mixValue` stays a binary32
value in `[0, 1]`, and a call with only UP pressed does not decrease the
initial value. -/
theorem C16_mixValue_witness :
    (∀ s ∈ TransformationsCpp.processInputs
        { window := { shouldClose := false }, mixValue := TransformationsCpp.mixValueInit }
        sampleFrames, IsBinary32 s.mixValue ∧ 0 ≤ s.mixValue ∧ s.mixValue ≤ 1)
    ∧ (upFrame.up = true ∧ upFrame.down = false ∧
      TransformationsCpp.mixValueInit ≤
        (TransformationsCpp.processInput
          { window := { shouldClose := false }, mixValue := TransformationsCpp.mixValueInit }
          upFrame).2.mixValue) :=
  ⟨C16_mixValue_stays_in_unit_interval.1 { shouldClose := false } sampleFrames,
   rfl, rfl,
   ((C16_mixValue_stays_in_unit_interval.2.2 { shouldClose := false } []
      { window := { shouldClose := false }, mixValue := TransformationsCpp.mixValueInit }
      (List.mem_cons_self _ _) upFrame).1 rfl rfl)⟩


/-- Half a spacing below 1 and above, a value rounds to at least 1. -/
theorem one_le_f32Round (x : ℚ) (h : 1 - 1/33554432 ≤ x) : 1 ≤ f32Round x := by
  rcases le_or_lt 1 x with h1 | h1
  · exact le_f32Round isBinary32_one x h1
  · have hpos : 0 < x := by linarith
    have he : f32Exponent x = -1 :=
      f32Exponent_eq x (-1) (by norm_num)
        (by rw [abs_of_pos hpos]; norm_num; linarith)
        (by rw [abs_of_pos hpos]; norm_num; linarith)
    have hr : roundHalfEven (x / 2 ^ (-1 - 23 : ℤ)) = 2 ^ 24 :=
      roundHalfEven_below_even _ _ (by norm_num)
        (by norm_num; linarith) (by norm_num; linarith)
    unfold f32Round f32Ulp
    rw [he, hr]
    norm_num

/-- More than half a spacing below 1, a value in `[0, 1)` rounds below 1. -/
theorem f32Round_lt_one (x : ℚ) (h0 : 0 ≤ x) (h : x < 1 - 1/33554432) : f32Round x < 1 := by
  have hu : f32Ulp x ≤ 2 ^ (-1 - 23 : ℤ) :=
    f32Ulp_le x (-1) (by norm_num) (by rw [abs_of_nonneg h0]; norm_num; linarith)
  have herr := f32Round_sub_le x
  rw [abs_le] at herr
  norm_num at hu
  linarith [herr.2]

/-- The value of `1.0f - 0.001f`. -/
theorem f32Round_one_sub_thousandth :
    f32Round (1 - 8589935/8589934592) = 16760439/16777216 := by
  rw [f32Round_eq (1 - 8589935/8589934592) (-1) 16760439 (by norm_num)
    (by norm_num [abs_of_pos]) (by norm_num [abs_of_pos]) (by norm_num [abs_lt])]
  norm_num

/-- The literal `0.001f` is a binary32 value: rounding leaves it unchanged. -/
theorem f32Round_f32_thousandth :
    f32Round (8589935/8589934592) = 8589935/8589934592 := by
  rw [f32Round_eq (8589935/8589934592) (-10) 8589935 (by norm_num)
    (by norm_num [abs_of_pos]) (by norm_num [abs_of_pos]) (by norm_num [abs_lt])]
  norm_num

/-- With both keys pressed and the sum still rounding below 1, the value
moves by at most `2 ^ (-24)`. -/
theorem TransformationsCpp.mixAfter_both_near (m : ℚ) (h0 : 0 ≤ m)
    (h1 : m < 8581344401/8589934592) :
    |TransformationsCpp.mixAfter m true true - m| ≤ 1/16777216 := by
  have hv1 : f32Round (m + 8589935/8589934592) < 1 :=
    f32Round_lt_one _ (by linarith) (by linarith)
  have hv0 : 0 ≤ f32Round (m + 8589935/8589934592) :=
    le_f32Round isBinary32_zero _ (by linarith)
  have hu1 : f32Ulp (m + 8589935/8589934592) ≤ 2 ^ (-1 - 23 : ℤ) :=
    f32Ulp_le _ (-1) (by norm_num) (by rw [abs_of_nonneg (by linarith)]; norm_num; linarith)
  have hu2 : f32Ulp (f32Round (m + 8589935/8589934592) - 8589935/8589934592)
      ≤ 2 ^ (-1 - 23 : ℤ) :=
    f32Ulp_le _ (-1) (by norm_num) (by rw [abs_lt]; norm_num; constructor <;> linarith)
  have e1 := f32Round_sub_le (m + 8589935/8589934592)
  have e2 := f32Round_sub_le (f32Round (m + 8589935/8589934592) - 8589935/8589934592)
  rw [abs_le] at e1 e2
  norm_num at hu1 hu2
  simp only [TransformationsCpp.mixAfter, if_true, f32Round_thousandth, ge_iff_le,
    if_neg (not_le.mpr hv1)]
  rw [abs_le]
  split_ifs with h
  · constructor <;> linarith [e1.1, e1.2, e2.1, e2.2]
  · constructor <;> linarith [e1.1, e1.2, e2.1, e2.2]

/-- With both keys pressed and the sum rounding to 1 or more, the result is
`1.0f - 0.001f`. -/
theorem TransformationsCpp.mixAfter_both_top (m : ℚ) (h : 8581344401/8589934592 ≤ m) :
    TransformationsCpp.mixAfter m true true = 16760439/16777216 := by
  have hv1 : 1 ≤ f32Round (m + 8589935/8589934592) := one_le_f32Round _ (by linarith)
  simp only [TransformationsCpp.mixAfter, if_true, f32Round_thousandth, ge_iff_le, if_pos hv1,
    f32Round_one_sub_thousandth]
  norm_num

theorem TransformationsCpp.mixAfter_both_zero : TransformationsCpp.mixAfter 0 true true = 0 := by
  simp only [TransformationsCpp.mixAfter, if_true, f32Round_thousandth, ge_iff_le, zero_add,
    f32Round_f32_thousandth]
  norm_num [f32Round_zero]

/-- C17: in Transformations, with `mixValue` a binary32 `float`, one
`processInput` call with both UP and DOWN pressed moves a `mixValue` m with
`0 ≤ m < t`, where `t = 1 - 2 ^ (-25) - 0.001f = 8581344401/8589934592`, by at
most `2 ^ (-24)`, and maps every `m ≥ t`, so every m in `[0.999, 1]`, to
`1.0f - 0.001f = 16760439/16777216`; so at the upper bound 1 the pair of keys
lowers the value, while at the lower bound 0 it leaves it at 0. -/
theorem C17_up_and_down_together (s : TransformationsCpp.State) (i : FrameInput)
    (hu : i.up = true) (hd : i.down = true) :
    (0 ≤ s.mixValue → s.mixValue < 8581344401/8589934592 →
      |(TransformationsCpp.processInput s i).2.mixValue - s.mixValue| ≤ 1/16777216)
    ∧ (8581344401/8589934592 ≤ s.mixValue →
      (TransformationsCpp.processInput s i).2.mixValue = 16760439/16777216)
    ∧ (s.mixValue = 1 → (TransformationsCpp.processInput s i).2.mixValue < s.mixValue)
    ∧ (s.mixValue = 0 → (TransformationsCpp.processInput s i).2.mixValue = 0) := by
  simp only [TransformationsCpp.processInput, hu, hd]
  refine ⟨?_, ?_, ?_, ?_⟩
  · exact TransformationsCpp.mixAfter_both_near _
  · exact TransformationsCpp.mixAfter_both_top _
  · intro h1
    rw [TransformationsCpp.mixAfter_both_top _ (by rw [h1]; norm_num), h1]
    norm_num
  · intro h0
    rw [h0]
    exact TransformationsCpp.mixAfter_both_zero


/-- C17, instance: with both keys pressed, 1 becomes `1.0f - 0.001f`, 0 stays
0, and 1/2 moves by at most `2 ^ (-24)`. -/
theorem C17_up_and_down_witness :
    bothFrame.up = true ∧ bothFrame.down = true ∧
    (TransformationsCpp.processInput (TransformationsCpp.sampleState 1) bothFrame).2.mixValue
      = 16760439/16777216 ∧
    (TransformationsCpp.processInput (TransformationsCpp.sampleState 0) bothFrame).2.mixValue
      = 0 ∧
    |(TransformationsCpp.processInput (TransformationsCpp.sampleState (1/2)) bothFrame).2.mixValue
      - (TransformationsCpp.sampleState (1/2)).mixValue| ≤ 1/16777216 :=
  ⟨rfl, rfl,
   (C17_up_and_down_together (TransformationsCpp.sampleState 1) bothFrame rfl rfl).2.1
     (by norm_num [TransformationsCpp.sampleState]),
   (C17_up_and_down_together (TransformationsCpp.sampleState 0) bothFrame rfl rfl).2.2.2 rfl,
   (C17_up_and_down_together (TransformationsCpp.sampleState (1/2)) bothFrame rfl rfl).1
     (by norm_num [TransformationsCpp.sampleState])
     (by norm_num [TransformationsCpp.sampleState])⟩

/-- With both keys pressed the binary32 value 1/4 becomes the value just
below it: the sum `0.25f + 0.001f` is rounded with spacing `2 ^ (-25)`, the
difference with spacing `2 ^ (-26)`. -/
theorem TransformationsCpp.mixAfter_both_quarter :
    TransformationsCpp.mixAfter (1/4) true true = 16777215/67108864 := by
  have hr1 : f32Round (1/4 + 8589935/8589934592) = 4211081/16777216 := by
    rw [f32Round_eq _ (-2) 8422162 (by norm_num) (by norm_num [abs_of_pos])
      (by norm_num [abs_of_pos]) (by norm_num [abs_lt])]
    norm_num
  have hr2 : f32Round (4211081/16777216 - 8589935/8589934592) = 16777215/67108864 := by
    rw [f32Round_eq _ (-3) 16777215 (by norm_num) (by norm_num [abs_of_pos])
      (by norm_num [abs_of_pos]) (by norm_num [abs_lt])]
    norm_num
  have hv1 : ¬ ((4211081/16777216 : ℚ) ≥ 1) := by norm_num
  have hv2 : ¬ ((16777215/67108864 : ℚ) ≤ 0) := by norm_num
  simp only [TransformationsCpp.mixAfter, if_true, f32Round_thousandth, hr1, hr2, if_neg hv1,
    if_neg hv2]

/-- One UP-only call inside the binade `[1/8, 1/4)`, where the spacing is
`2 ^ (-26)`: the significand grows by 67109. -/
theorem TransformationsCpp.mixAfter_up_binade (a : ℤ) (h1 : 2 ^ 23 ≤ a)
    (h2 : a + 67109 < 2 ^ 24) :
    TransformationsCpp.mixAfter ((a : ℚ) / 67108864) true false
      = ((a + 67109 : ℤ) : ℚ) / 67108864 := by
  have q1 : ((2 ^ 23 : ℤ) : ℚ) ≤ (a : ℚ) := Int.cast_le.mpr h1
  have q2 : ((a + 67109 : ℤ) : ℚ) < ((2 ^ 24 : ℤ) : ℚ) := Int.cast_lt.mpr h2
  push_cast at q1 q2
  have hpos : (0 : ℚ) < (a : ℚ) / 67108864 + 8589935/8589934592 := by positivity
  have hr : f32Round ((a : ℚ) / 67108864 + 8589935/8589934592)
      = ((a + 67109 : ℤ) : ℚ) / 67108864 := by
    rw [f32Round_eq _ (-3) (a + 67109) (by norm_num)
      (by rw [abs_of_pos hpos]; norm_num; linarith)
      (by rw [abs_of_pos hpos]; norm_num; linarith)
      (by rw [abs_lt]; push_cast; norm_num; constructor <;> linarith)]
    push_cast
    norm_num
    ring
  have hlt : ¬ (1 ≤ ((a + 67109 : ℤ) : ℚ) / 67108864) := by
    push_cast
    rw [not_le, div_lt_one (by norm_num)]
    linarith
  simp only [TransformationsCpp.mixAfter, if_true, Bool.false_eq_true, if_false,
    f32Round_thousandth, ge_iff_le, hr, if_neg hlt]

/-- The state reached from a value in the binade `[1/8, 1/4)` by UP-only
frames that stay inside the binade. -/
theorem TransformationsCpp.processInputs_up_binade (k : Nat) (a : ℤ) (h1 : 2 ^ 23 ≤ a)
    (h2 : a + 67109 * (k + 1) < 2 ^ 24) :
    TransformationsCpp.sampleState (((a + 67109 * (k + 1) : ℤ) : ℚ) / 67108864) ∈
      TransformationsCpp.processInputs (TransformationsCpp.sampleState ((a : ℚ) / 67108864))
        (List.replicate (k + 1) upFrame) := by
  induction k generalizing a with
  | zero =>
    have hstep := TransformationsCpp.mixAfter_up_binade a h1 (by omega)
    simp only [List.replicate, TransformationsCpp.processInputs, List.mem_cons]
    left
    simp only [TransformationsCpp.processInput, TransformationsCpp.sampleState, upFrame,
      Bool.false_eq_true, if_false, hstep]
    norm_num
  | succ k ih =>
    have hstep := TransformationsCpp.mixAfter_up_binade a h1 (by omega)
    have hnext := ih (a + 67109) (by omega) (by push_cast at h2 ⊢; omega)
    have hs : (TransformationsCpp.processInput
        (TransformationsCpp.sampleState ((a : ℚ) / 67108864)) upFrame).2
        = TransformationsCpp.sampleState (((a + 67109 : ℤ) : ℚ) / 67108864) := by
      simp only [TransformationsCpp.processInput, TransformationsCpp.sampleState, upFrame,
        Bool.false_eq_true, if_false, hstep]
    have e : ((a + 67109 * ((k + 1 : Nat) + 1) : ℤ) : ℚ)
        = ((a + 67109 + 67109 * (k + 1) : ℤ) : ℚ) := by
      push_cast; ring
    rw [List.replicate_succ, TransformationsCpp.processInputs, hs, e]
    exact List.mem_cons_of_mem _ hnext

/-- C17, counterexample: the value `8355057/33554432`, about 0.249, is reached
from the initial `0.2f` by 49 frames with only UP pressed and lies in
`[0, 0.999]`, yet one `processInput` call with both UP and DOWN pressed maps
it to the next binary32 value below it, `16710113/67108864`, not to itself:
the sum with `0.001f` is rounded in the binade `[1/4, 1/2)`, where the spacing
is twice that around the value. -/
theorem C17_up_and_down_change_a_reached_value :
    TransformationsCpp.sampleState (8355057/33554432) ∈
      TransformationsCpp.processInputs
        { window := { shouldClose := false }, mixValue := TransformationsCpp.mixValueInit }
        (List.replicate 49 upFrame)
    ∧ (0 : ℚ) ≤ 8355057/33554432 ∧ (8355057/33554432 : ℚ) ≤ 999/1000
    ∧ bothFrame.up = true ∧ bothFrame.down = true
    ∧ (TransformationsCpp.processInput (TransformationsCpp.sampleState (8355057/33554432))
        bothFrame).2.mixValue = 16710113/67108864
    ∧ (16710113/67108864 : ℚ) ≠ 8355057/33554432 := by
  refine ⟨?_, by norm_num, by norm_num, rfl, rfl, ?_, by norm_num⟩
  · have h := TransformationsCpp.processInputs_up_binade 48 13421773 (by norm_num) (by norm_num)
    have e0 : TransformationsCpp.State.mk { shouldClose := false } TransformationsCpp.mixValueInit
        = TransformationsCpp.sampleState (((13421773 : ℤ) : ℚ) / 67108864) := by
      simp only [TransformationsCpp.sampleState, TransformationsCpp.mixValueInit, f32Round_fifth]
      norm_num
    have e1 : (8355057/33554432 : ℚ)
        = (((13421773 : ℤ) + 67109 * ((48 : Nat) + 1) : ℤ) : ℚ) / 67108864 := by
      norm_num
    rw [e0, e1]
    exact h
  · have hr1 : f32Round (8355057/33554432 + 8589935/8589934592) = 8388611/33554432 := by
      rw [f32Round_eq _ (-2) 8388611 (by norm_num) (by norm_num [abs_of_pos])
        (by norm_num [abs_of_pos]) (by norm_num [abs_lt])]
      norm_num
    have hr2 : f32Round (8388611/33554432 - 8589935/8589934592) = 16710113/67108864 := by
      rw [f32Round_eq _ (-3) 16710113 (by norm_num) (by norm_num [abs_of_pos])
        (by norm_num [abs_of_pos]) (by norm_num [abs_lt])]
      norm_num
    have hv1 : ¬ ((8388611/33554432 : ℚ) ≥ 1) := by norm_num
    have hv2 : ¬ ((16710113/67108864 : ℚ) ≤ 0) := by norm_num
    simp only [TransformationsCpp.processInput, TransformationsCpp.sampleState, bothFrame,
      TransformationsCpp.mixAfter, if_true, f32Round_thousandth, hr1, hr2, if_neg hv1,
      if_neg hv2]

/-! ## The info log buffer -/

/-- The text stored for a log, with its terminator, fits in `maxLength`
characters. -/
theorem infoLogText_length (maxLength : Nat) (hn : 0 < maxLength) (log : String) :
    (infoLogText maxLength log).length + 1 ≤ maxLength := by
  have h1 : (infoLogText maxLength log).length = (log.data.take (maxLength - 1)).length := rfl
  rw [h1, List.length_take]
  omega

theorem MainCpp.setup_infoLogWrites (h : Host) (d : MainCpp.Driver) :
    (createWindow h ++ loadGL h ++ MainCpp.setup d).filterMap Event.infoLogWrite
      = MainCpp.infoLogWrites d := by
  rcases h with ⟨_ | _, _, _, _⟩ <;>
  rcases d with ⟨_, _ | _, _, _, _ | _, _, _, _ | _, _, _, _, _, _, _⟩ <;> rfl

theorem MainCpp.trace_infoLogWrites (h : Host) (d : MainCpp.Driver) :
    (h.windowOk = true ∧ h.gladOk = true ∧
      (MainCpp.main h d).trace.filterMap Event.infoLogWrite = MainCpp.infoLogWrites d) ∨
    (MainCpp.main h d).trace.filterMap Event.infoLogWrite = [] := by
  rcases MainCpp.run_cases_main h d with ⟨_, hm⟩ | ⟨_, _, hm⟩ | ⟨hw, hg, hm⟩
  · right
    rw [hm]
    rcases h with ⟨_ | _, _, _, _⟩ <;> rfl
  · right
    rw [hm]
    rcases h with ⟨_ | _, _, _ | _, _⟩ <;> rfl
  · left
    refine ⟨hw, hg, ?_⟩
    rw [hm, filterMap_three, MainCpp.setup_infoLogWrites,
      filterMap_eq_nil_of_all _ _ (MainCpp.loop_all_main (fun e => e.infoLogWrite.isNone)
        (by simp [HoldsOfLoopShell, Event.infoLogWrite]) d rfl { shouldClose := false } h.frames)]
    cases windowCloses h.frames <;> simp [MainCpp.cleanup, Event.infoLogWrite]

/-- C11: in main.cpp the log retrievals of a run are one per failed step
(vertex stage, fragment stage, program link); every retrieval of every run is
made with maximum length 512, which is the capacity of `infoLog`, and for
every log the driver holds the text stored together with its terminator is at
most 512 characters long, so the write stays inside the buffer. -/
theorem C11_info_log_fits_buffer (h : Host) (d : MainCpp.Driver) :
    (h.windowOk = true → h.gladOk = true →
      (MainCpp.main h d).trace.filterMap Event.infoLogWrite =
        (if d.vertexStatus then [] else [(512, infoLogText 512 d.vertexLog)]) ++
        (if d.fragmentStatus then [] else [(512, infoLogText 512 d.fragmentLog)]) ++
        (if d.linkStatus then [] else [(512, infoLogText 512 d.linkLog)]))
    ∧ (∀ e ∈ (MainCpp.main h d).trace, ∀ maxLength written,
        e.infoLogWrite = some (maxLength, written) →
          maxLength = 512 ∧ maxLength = MainCpp.infoLogCapacity ∧
          written.length + 1 ≤ MainCpp.infoLogCapacity) := by
  have hbound : ∀ p ∈ MainCpp.infoLogWrites d,
      p.1 = 512 ∧ p.1 = MainCpp.infoLogCapacity ∧ p.2.length + 1 ≤ MainCpp.infoLogCapacity := by
    intro p hp
    simp only [MainCpp.infoLogWrites, List.mem_append] at hp
    rcases hp with (hp | hp) | hp <;> split at hp <;>
      first
      | exact absurd hp (List.not_mem_nil _)
      | (rw [List.mem_singleton] at hp
         subst hp
         exact ⟨rfl, rfl, infoLogText_length 512 (by decide) _⟩)
  refine ⟨?_, ?_⟩
  · intro hw hg
    rcases MainCpp.trace_infoLogWrites h d with ⟨_, _, ht⟩ | ht
    · exact ht
    · rcases MainCpp.run_cases_main h d with ⟨hw1, _⟩ | ⟨_, hg1, _⟩ | ⟨_, _, hm⟩
      · simp [hw] at hw1
      · simp [hg] at hg1
      · rw [hm, filterMap_three, MainCpp.setup_infoLogWrites] at ht
        rw [hm, filterMap_three, MainCpp.setup_infoLogWrites]
        simp only [List.append_eq_nil] at ht
        rw [ht.1, ht.2.1, ht.2.2]
        exact ht.1.symm
  · intro e he maxLength written hw
    have hmem : (maxLength, written) ∈ (MainCpp.main h d).trace.filterMap Event.infoLogWrite :=
      List.mem_filterMap.mpr ⟨e, he, hw⟩
    rcases MainCpp.trace_infoLogWrites h d with ⟨_, _, ht⟩ | ht
    · rw [ht] at hmem
      exact hbound _ hmem
    · rw [ht] at hmem
      exact absurd hmem (List.not_mem_nil _)

/-- C11, instance: when the three steps fail, the sample run makes three log
retrievals, each within the buffer. -/
theorem C11_info_log_witness :
    sampleHost.windowOk = true ∧ sampleHost.gladOk = true ∧
    ((MainCpp.main sampleHost (MainCpp.sampleDriver false false false)).trace.filterMap
      Event.infoLogWrite).length = 3 :=
  ⟨rfl, rfl, by
    rw [(C11_info_log_fits_buffer sampleHost (MainCpp.sampleDriver false false false)).1 rfl rfl]
    rfl⟩

/-! ## The quad -/

theorem formQuad_of_corners :
    FormQuad [(1/2, 1/2), (1/2, -1/2), (-1/2, 1/2)] [(1/2, -1/2), (-1/2, -1/2), (-1/2, 1/2)] := by
  unfold FormQuad
  norm_num [triangleArea, cross, squareCorners]

/-- C14: with the hardcoded positions taken as exact rationals, the two
triangles assembled from the index list `(0,1,3), (1,2,3)` over the vertices
of Textures and of Transformations, and the two triangles `vertices1`,
`vertices2` drawn by main.cpp, are exactly two triangles that share exactly
the two ends `(0.5,-0.5)`, `(-0.5,0.5)` of the diagonal, each of area 1/2, with
their third vertices on opposite sides of the diagonal, whose vertices are the
four corners of the square `[-0.5,0.5] x [-0.5,0.5]`, and whose areas add up
to the area 1 of the square; all z coordinates are 0. -/
theorem C14_two_triangles_form_the_quad :
    FormQuadList (trianglesOf TexturesCpp.vertices 8 TexturesCpp.indices)
    ∧ FormQuadList (trianglesOf TransformationsCpp.vertices 8 TransformationsCpp.indices)
    ∧ FormQuadList (trianglesOf MainCpp.vertices1 3 (List.range' 0 3) ++
        trianglesOf MainCpp.vertices2 3 (List.range' 0 3))
    ∧ (∀ k ∈ TexturesCpp.indices, depthAt TexturesCpp.vertices 8 k = 0)
    ∧ (∀ k ∈ TransformationsCpp.indices, depthAt TransformationsCpp.vertices 8 k = 0)
    ∧ (∀ k ∈ List.range' 0 3,
        depthAt MainCpp.vertices1 3 k = 0 ∧ depthAt MainCpp.vertices2 3 k = 0) := by
  have h1 : trianglesOf TexturesCpp.vertices 8 TexturesCpp.indices =
      [[(1/2, 1/2), (1/2, -1/2), (-1/2, 1/2)], [(1/2, -1/2), (-1/2, -1/2), (-1/2, 1/2)]] := rfl
  have h2 : trianglesOf TransformationsCpp.vertices 8 TransformationsCpp.indices =
      [[(1/2, 1/2), (1/2, -1/2), (-1/2, 1/2)], [(1/2, -1/2), (-1/2, -1/2), (-1/2, 1/2)]] := rfl
  have h3 : trianglesOf MainCpp.vertices1 3 (List.range' 0 3) ++
      trianglesOf MainCpp.vertices2 3 (List.range' 0 3) =
      [[(1/2, 1/2), (1/2, -1/2), (-1/2, 1/2)], [(1/2, -1/2), (-1/2, -1/2), (-1/2, 1/2)]] := rfl
  refine ⟨?_, ?_, ?_, ?_, ?_, ?_⟩
  · rw [h1]
    exact formQuad_of_corners
  · rw [h2]
    exact formQuad_of_corners
  · rw [h3]
    exact formQuad_of_corners
  · intro k hk
    simp only [TexturesCpp.indices, List.mem_cons, List.mem_singleton, List.mem_nil_iff,
      or_false] at hk
    rcases hk with rfl | rfl | rfl | rfl | rfl | rfl <;> rfl
  · intro k hk
    simp only [TransformationsCpp.indices, List.mem_cons, List.mem_singleton, List.mem_nil_iff,
      or_false] at hk
    rcases hk with rfl | rfl | rfl | rfl | rfl | rfl <;> rfl
  · intro k hk
    have hk3 : k = 0 ∨ k = 1 ∨ k = 2 := by
      simp [List.mem_range'] at hk
      omega
    rcases hk3 with rfl | rfl | rfl <;> exact ⟨rfl, rfl⟩

/-- C14, instance: vertex 3 of Textures, a vertex of both triangles, has z
coordinate 0. -/
theorem C14_two_triangles_witness :
    3 ∈ TexturesCpp.indices ∧ depthAt TexturesCpp.vertices 8 3 = 0 :=
  ⟨by decide, C14_two_triangles_form_the_quad.2.2.2.1 3 (by decide)⟩

/-! ## Attribute layout -/

theorem attribRecords_of_none (l : List Event)
    (hl : l.all (fun e => !e.isAttribPointer) = true) (s : ArrayState) :
    attribRecords s l = [] := by
  induction l generalizing s with
  | nil => rfl
  | cons e t ih =>
    simp only [List.all_cons, Bool.and_eq_true] at hl
    cases e <;> first
      | exact ih hl.2 _
      | simp [Event.isAttribPointer] at hl

theorem attribRecords_append_none (a b : List Event)
    (hb : b.all (fun e => !e.isAttribPointer) = true) (s : ArrayState) :
    attribRecords s (a ++ b) = attribRecords s a := by
  induction a generalizing s with
  | nil => exact attribRecords_of_none b hb s
  | cons e t ih =>
    cases e <;> first
      | exact ih _
      | exact congrArg (List.cons _) (ih _)

/-- The records of `pre ++ loop ++ post` are those of `pre` when neither the
loop nor `post` calls `glVertexAttribPointer`. -/
theorem attribRecords_three (pre loop post : List Event)
    (hloop : loop.all (fun e => !e.isAttribPointer) = true)
    (hpost : post.all (fun e => !e.isAttribPointer) = true) (s : ArrayState) :
    attribRecords s (pre ++ loop ++ post) = attribRecords s pre := by
  rw [List.append_assoc]
  exact attribRecords_append_none _ _ (by rw [List.all_append, hloop, hpost]; rfl) s

theorem MainCpp.setup_attribRecords_main (h : Host) (d : MainCpp.Driver) :
    attribRecords ArrayState.fresh (createWindow h ++ loadGL h ++ MainCpp.setup d) =
      MainCpp.declaredAttribs d := by
  rcases h with ⟨_ | _, _, _, _⟩ <;>
  rcases d with ⟨_, _ | _, _, _, _ | _, _, _, _ | _, _, _, _, _, _, _⟩ <;> rfl

/-- The attribute declarations of a run of main.cpp that reaches the setup. -/
theorem MainCpp.trace_attribRecords_main (h : Host) (d : MainCpp.Driver)
    (hw : h.windowOk = true) (hg : h.gladOk = true) :
    attribRecords ArrayState.fresh (MainCpp.main h d).trace = MainCpp.declaredAttribs d := by
  rcases MainCpp.run_cases_main h d with ⟨hw1, _⟩ | ⟨_, hg1, _⟩ | ⟨_, _, hm⟩
  · simp [hw] at hw1
  · simp [hg] at hg1
  rw [hm, attribRecords_three _ _ _
    (MainCpp.loop_all_main (fun e => !e.isAttribPointer)
      (by simp [HoldsOfLoopShell, Event.isAttribPointer]) d rfl
      { shouldClose := false } h.frames)
    (by cases windowCloses h.frames <;> rfl)]
  exact MainCpp.setup_attribRecords_main h d

theorem ShadersCpp.setup_attribRecords_shaders (h : Host) (d : ShadersCpp.Driver) :
    attribRecords ArrayState.fresh (createWindow h ++ loadGL h ++ ShadersCpp.setup d) =
      ShadersCpp.declaredAttribs d := by
  rcases h with ⟨_ | _, _, _, _⟩ <;> rfl

/-- The attribute declarations of a run of Shaders.cpp that reaches the setup. -/
theorem ShadersCpp.trace_attribRecords_shaders (h : Host) (d : ShadersCpp.Driver)
    (hw : h.windowOk = true) (hg : h.gladOk = true) :
    attribRecords ArrayState.fresh (ShadersCpp.main h d).trace = ShadersCpp.declaredAttribs d := by
  rcases ShadersCpp.run_cases_shaders h d with ⟨hw1, _⟩ | ⟨_, hg1, _⟩ | ⟨_, _, hm⟩
  · simp [hw] at hw1
  · simp [hg] at hg1
  rw [hm, attribRecords_three _ _ _
    (ShadersCpp.loop_all_shaders (fun e => !e.isAttribPointer)
      (by simp [HoldsOfLoopShell, Event.isAttribPointer]) d rfl
      { shouldClose := false } h.frames)
    (by cases windowCloses h.frames <;> rfl)]
  exact ShadersCpp.setup_attribRecords_shaders h d

theorem TexturesCpp.setup_attribRecords_textures (h : Host) (d : TexturesCpp.Driver) :
    attribRecords ArrayState.fresh (createWindow h ++ loadGL h ++ TexturesCpp.setup d) =
      TexturesCpp.declaredAttribs d := by
  rcases h with ⟨_ | _, _, _, _⟩ <;> rcases d with ⟨_, _, _, _, _ | _⟩ <;> rfl

/-- The attribute declarations of a run of Textures/shader.cpp that reaches the setup. -/
theorem TexturesCpp.trace_attribRecords_textures (h : Host) (d : TexturesCpp.Driver)
    (hw : h.windowOk = true) (hg : h.gladOk = true) :
    attribRecords ArrayState.fresh (TexturesCpp.main h d).trace = TexturesCpp.declaredAttribs d := by
  rcases TexturesCpp.run_cases_textures h d with ⟨hw1, _⟩ | ⟨_, hg1, _⟩ | ⟨_, _, hm⟩
  · simp [hw] at hw1
  · simp [hg] at hg1
  rw [hm, attribRecords_three _ _ _
    (TexturesCpp.loop_all_textures (fun e => !e.isAttribPointer)
      (by simp [HoldsOfLoopShell, Event.isAttribPointer]) d rfl
      { shouldClose := false } h.frames)
    (by cases windowCloses h.frames <;> rfl)]
  exact TexturesCpp.setup_attribRecords_textures h d

theorem TransformationsCpp.setup_attribRecords_transformations (h : Host) (d : TransformationsCpp.Driver) :
    attribRecords ArrayState.fresh (createWindow h ++ loadGL h ++ TransformationsCpp.setup d) =
      TransformationsCpp.declaredAttribs d := by
  rcases h with ⟨_ | _, _, _, _⟩ <;> rcases d with ⟨_, _, _, _, _, _ | _, _ | _⟩ <;> rfl

/-- The attribute declarations of a run of Transformations/shader.cpp that reaches the setup. -/
theorem TransformationsCpp.trace_attribRecords_transformations (h : Host) (d : TransformationsCpp.Driver)
    (hw : h.windowOk = true) (hg : h.gladOk = true) :
    attribRecords ArrayState.fresh (TransformationsCpp.main h d).trace = TransformationsCpp.declaredAttribs d := by
  rcases TransformationsCpp.run_cases_transformations h d with ⟨hw1, _⟩ | ⟨_, hg1, _⟩ | ⟨_, _, hm⟩
  · simp [hw] at hw1
  · simp [hg] at hg1
  rw [hm, attribRecords_three _ _ _
    (TransformationsCpp.loop_all_transformations (fun e => !e.isAttribPointer)
      (by simp [HoldsOfLoopShell, Event.isAttribPointer]) d (fun _ _ => rfl)
      { window := { shouldClose := false }, mixValue := TransformationsCpp.mixValueInit } h.frames)
    (by cases windowCloses h.frames <;> rfl)]
  exact TransformationsCpp.setup_attribRecords_transformations h d

theorem layoutTiles_3 : LayoutTiles 9 [⟨3, 12, 0⟩] := by
  unfold LayoutTiles
  decide

theorem layoutTiles_3_3 : LayoutTiles 18 [⟨3, 24, 0⟩, ⟨3, 24, 12⟩] := by
  unfold LayoutTiles
  decide

theorem layoutTiles_3_3_2 : LayoutTiles 32 [⟨3, 32, 0⟩, ⟨3, 32, 12⟩, ⟨2, 32, 24⟩] := by
  unfold LayoutTiles
  decide

theorem MainCpp.declaredAttribs_tile_main (d : MainCpp.Driver) :
    RecordsTile ((MainCpp.declaredAttribs d).take 1) ∧
    RecordsTile ((MainCpp.declaredAttribs d).drop 1) := by
  refine ⟨⟨?_, ⟨MainCpp.vertices1, rfl⟩, rfl, layoutTiles_3⟩,
    ⟨?_, ⟨MainCpp.vertices2, rfl⟩, rfl, layoutTiles_3⟩⟩ <;>
  · intro r hr
    simp only [MainCpp.declaredAttribs, List.take, List.drop, List.mem_singleton] at hr
    subst hr
    exact ⟨rfl, rfl, rfl⟩

theorem ShadersCpp.declaredAttribs_tile_shaders (d : ShadersCpp.Driver) :
    RecordsTile (ShadersCpp.declaredAttribs d) := by
  refine ⟨?_, ⟨ShadersCpp.vertices, rfl⟩, rfl, layoutTiles_3_3⟩
  intro r hr
  simp only [ShadersCpp.declaredAttribs, List.mem_cons, List.mem_singleton, List.mem_nil_iff,
    or_false] at hr
  rcases hr with rfl | rfl <;> exact ⟨rfl, rfl, rfl⟩

theorem TexturesCpp.declaredAttribs_tile_textures (d : TexturesCpp.Driver) :
    RecordsTile (TexturesCpp.declaredAttribs d) := by
  refine ⟨?_, ⟨TexturesCpp.vertices, rfl⟩, rfl, layoutTiles_3_3_2⟩
  intro r hr
  simp only [TexturesCpp.declaredAttribs, List.mem_cons, List.mem_singleton, List.mem_nil_iff,
    or_false] at hr
  rcases hr with rfl | rfl | rfl <;> exact ⟨rfl, rfl, rfl⟩

theorem TransformationsCpp.declaredAttribs_tile_transformations (d : TransformationsCpp.Driver) :
    RecordsTile (TransformationsCpp.declaredAttribs d) := by
  refine ⟨?_, ⟨TransformationsCpp.vertices, rfl⟩, rfl, layoutTiles_3_3_2⟩
  intro r hr
  simp only [TransformationsCpp.declaredAttribs, List.mem_cons, List.mem_singleton,
    List.mem_nil_iff, or_false] at hr
  rcases hr with rfl | rfl | rfl <;> exact ⟨rfl, rfl, rfl⟩

/-- C12: on every run that reaches the setup, the `glVertexAttribPointer`
calls of each program are those of the source, each read with the vertex
array bound and the array data uploaded just before; the attributes of a
vertex array are float attributes numbered 0, 1, ... over one data store, each
attribute's byte offset is `sizeof(float)` times the sum of the component
counts before it, the component counts sum to the stride (8 floats in Textures
and Transformations, 6 in Shaders.cpp, 3 in main.cpp), the array length is a
whole multiple of it (32 = 4*8, 18 = 3*6, 9 = 3*3), and the floats read for
the vertices are exactly the floats of the array, each once: every read lies
inside the array and no two reads overlap. -/
theorem C12_attribute_layout_tiles_vertices :
    (∀ (h : Host) (d : MainCpp.Driver), h.windowOk = true → h.gladOk = true →
      attribRecords ArrayState.fresh (MainCpp.main h d).trace = MainCpp.declaredAttribs d ∧
      RecordsTile ((attribRecords ArrayState.fresh (MainCpp.main h d).trace).take 1) ∧
      RecordsTile ((attribRecords ArrayState.fresh (MainCpp.main h d).trace).drop 1) ∧
      (((MainCpp.declaredAttribs d).take 1).map AttribRecord.size).sum = 3 ∧
      (((MainCpp.declaredAttribs d).drop 1).map AttribRecord.size).sum = 3 ∧
      MainCpp.vertices1.length = 3 * 3 ∧ MainCpp.vertices2.length = 3 * 3)
    ∧ (∀ (h : Host) (d : ShadersCpp.Driver), h.windowOk = true → h.gladOk = true →
      attribRecords ArrayState.fresh (ShadersCpp.main h d).trace = ShadersCpp.declaredAttribs d ∧
      RecordsTile (attribRecords ArrayState.fresh (ShadersCpp.main h d).trace) ∧
      ((ShadersCpp.declaredAttribs d).map AttribRecord.size).sum = 6 ∧
      ShadersCpp.vertices.length = 3 * 6)
    ∧ (∀ (h : Host) (d : TexturesCpp.Driver), h.windowOk = true → h.gladOk = true →
      attribRecords ArrayState.fresh (TexturesCpp.main h d).trace = TexturesCpp.declaredAttribs d ∧
      RecordsTile (attribRecords ArrayState.fresh (TexturesCpp.main h d).trace) ∧
      ((TexturesCpp.declaredAttribs d).map AttribRecord.size).sum = 8 ∧
      TexturesCpp.vertices.length = 4 * 8)
    ∧ (∀ (h : Host) (d : TransformationsCpp.Driver), h.windowOk = true → h.gladOk = true →
      attribRecords ArrayState.fresh (TransformationsCpp.main h d).trace =
        TransformationsCpp.declaredAttribs d ∧
      RecordsTile (attribRecords ArrayState.fresh (TransformationsCpp.main h d).trace) ∧
      ((TransformationsCpp.declaredAttribs d).map AttribRecord.size).sum = 8 ∧
      TransformationsCpp.vertices.length = 4 * 8) := by
  refine ⟨?_, ?_, ?_, ?_⟩
  · intro h d hw hg
    rw [MainCpp.trace_attribRecords_main h d hw hg]
    exact ⟨rfl, (MainCpp.declaredAttribs_tile_main d).1, (MainCpp.declaredAttribs_tile_main d).2,
      rfl, rfl, rfl, rfl⟩
  · intro h d hw hg
    rw [ShadersCpp.trace_attribRecords_shaders h d hw hg]
    exact ⟨rfl, ShadersCpp.declaredAttribs_tile_shaders d, rfl, rfl⟩
  · intro h d hw hg
    rw [TexturesCpp.trace_attribRecords_textures h d hw hg]
    exact ⟨rfl, TexturesCpp.declaredAttribs_tile_textures d, rfl, rfl⟩
  · intro h d hw hg
    rw [TransformationsCpp.trace_attribRecords_transformations h d hw hg]
    exact ⟨rfl, TransformationsCpp.declaredAttribs_tile_transformations d, rfl, rfl⟩

/-- C12, instance: the attribute records of the sample runs tile their
arrays. -/
theorem C12_attribute_layout_witness :
    sampleHost.windowOk = true ∧ sampleHost.gladOk = true ∧
    RecordsTile (attribRecords ArrayState.fresh
      (TexturesCpp.main sampleHost TexturesCpp.sampleDriver).trace) ∧
    RecordsTile (attribRecords ArrayState.fresh
      (ShadersCpp.main sampleHost ShadersCpp.sampleDriver).trace) :=
  ⟨rfl, rfl,
   (C12_attribute_layout_tiles_vertices.2.2.1 sampleHost TexturesCpp.sampleDriver rfl rfl).2.1,
   (C12_attribute_layout_tiles_vertices.2.1 sampleHost ShadersCpp.sampleDriver rfl rfl).2.1⟩

/-! ## Draw calls stay inside the uploaded data -/

theorem elementUploads_of_none (l : List Event)
    (hl : l.all (fun e => !e.isBufferData) = true) (a : Nat) :
    elementUploads a l = [] := by
  induction l generalizing a with
  | nil => rfl
  | cons e t ih =>
    simp only [List.all_cons, Bool.and_eq_true] at hl
    cases e <;> first
      | exact ih hl.2 _
      | simp [Event.isBufferData] at hl

theorem elementUploads_append_none (a b : List Event)
    (hb : b.all (fun e => !e.isBufferData) = true) (v : Nat) :
    elementUploads v (a ++ b) = elementUploads v a := by
  induction a generalizing v with
  | nil => exact elementUploads_of_none b hb v
  | cons e t ih =>
    cases e with
    | glBufferData target size data usage =>
      cases target <;> first
        | exact ih _
        | exact congrArg (List.cons _) (ih _)
    | _ => exact ih _

theorem elementUploads_three (pre loop post : List Event)
    (hloop : loop.all (fun e => !e.isBufferData) = true)
    (hpost : post.all (fun e => !e.isBufferData) = true) (v : Nat) :
    elementUploads v (pre ++ loop ++ post) = elementUploads v pre := by
  rw [List.append_assoc]
  exact elementUploads_append_none _ _ (by rw [List.all_append, hloop, hpost]; rfl) v

theorem TexturesCpp.trace_elementUploads_textures (h : Host) (d : TexturesCpp.Driver)
    (hw : h.windowOk = true) (hg : h.gladOk = true) :
    elementUploads 0 (TexturesCpp.main h d).trace = TexturesCpp.declaredElements d := by
  rcases TexturesCpp.run_cases_textures h d with ⟨hw1, _⟩ | ⟨_, hg1, _⟩ | ⟨_, _, hm⟩
  · simp [hw] at hw1
  · simp [hg] at hg1
  rw [hm, elementUploads_three _ _ _
    (TexturesCpp.loop_all_textures (fun e => !e.isBufferData)
      (by simp [HoldsOfLoopShell, Event.isBufferData]) d rfl { shouldClose := false } h.frames)
    (by cases windowCloses h.frames <;> rfl)]
  rcases h with ⟨_ | _, _, _, _⟩ <;> rcases d with ⟨_, _, _, _, _ | _⟩ <;> rfl

theorem TransformationsCpp.trace_elementUploads_transformations (h : Host)
    (d : TransformationsCpp.Driver) (hw : h.windowOk = true) (hg : h.gladOk = true) :
    elementUploads 0 (TransformationsCpp.main h d).trace =
      TransformationsCpp.declaredElements d := by
  rcases TransformationsCpp.run_cases_transformations h d with
    ⟨hw1, _⟩ | ⟨_, hg1, _⟩ | ⟨_, _, hm⟩
  · simp [hw] at hw1
  · simp [hg] at hg1
  rw [hm, elementUploads_three _ _ _
    (TransformationsCpp.loop_all_transformations (fun e => !e.isBufferData)
      (by simp [HoldsOfLoopShell, Event.isBufferData]) d (fun _ _ => rfl)
      { window := { shouldClose := false }, mixValue := TransformationsCpp.mixValueInit }
      h.frames)
    (by cases windowCloses h.frames <;> rfl)]
  rcases h with ⟨_ | _, _, _, _⟩ <;> rcases d with ⟨_, _, _, _, _, _ | _, _ | _⟩ <;> rfl

theorem TexturesCpp.draw_within_textures (d : TexturesCpp.Driver) :
    DrawWithin (TexturesCpp.declaredAttribs d) (TexturesCpp.declaredElements d)
      ({ program := ActiveProgram.ourShader, vertexArray := d.VAO },
       Event.glDrawElements GLenum.GL_TRIANGLES 6 GLenum.GL_UNSIGNED_INT 0) := by
  refine ⟨⟨_, List.mem_cons_self _ _, rfl⟩, rfl, ⟨_, List.mem_cons_self _ _, rfl⟩, ?_⟩
  intro u hu _
  simp only [TexturesCpp.declaredElements, List.mem_singleton] at hu
  subst hu
  refine ⟨TexturesCpp.indices, rfl, rfl, Nat.le_of_eq rfl, ?_⟩
  intro i hi r hr _
  have hi4 : i < 4 := by
    revert i
    decide
  simp only [TexturesCpp.declaredAttribs, List.mem_cons, List.mem_singleton, List.mem_nil_iff,
    or_false] at hr
  rcases hr with rfl | rfl | rfl <;>
    simp only [AttribRecord.holdsVertex, TexturesCpp.vertices, sizeofFloat, List.length] <;>
    omega

theorem TransformationsCpp.draw_within_transformations (d : TransformationsCpp.Driver) :
    DrawWithin (TransformationsCpp.declaredAttribs d) (TransformationsCpp.declaredElements d)
      ({ program := ActiveProgram.ourShader, vertexArray := d.VAO },
       Event.glDrawElements GLenum.GL_TRIANGLES 6 GLenum.GL_UNSIGNED_INT 0) := by
  refine ⟨⟨_, List.mem_cons_self _ _, rfl⟩, rfl, ⟨_, List.mem_cons_self _ _, rfl⟩, ?_⟩
  intro u hu _
  simp only [TransformationsCpp.declaredElements, List.mem_singleton] at hu
  subst hu
  refine ⟨TransformationsCpp.indices, rfl, rfl, Nat.le_of_eq rfl, ?_⟩
  intro i hi r hr _
  have hi4 : i < 4 := by
    revert i
    decide
  simp only [TransformationsCpp.declaredAttribs, List.mem_cons, List.mem_singleton,
    List.mem_nil_iff, or_false] at hr
  rcases hr with rfl | rfl | rfl <;>
    simp only [AttribRecord.holdsVertex, TransformationsCpp.vertices, sizeofFloat,
      List.length] <;>
    omega

theorem ShadersCpp.draw_within_shaders (d : ShadersCpp.Driver) :
    DrawWithin (ShadersCpp.declaredAttribs d) []
      ({ program := ActiveProgram.ourShader, vertexArray := d.VAO },
       Event.glDrawArrays GLenum.GL_TRIANGLES 0 3) := by
  refine ⟨⟨_, List.mem_cons_self _ _, rfl⟩, ?_⟩
  intro r hr _ v _ hv
  simp only [ShadersCpp.declaredAttribs, List.mem_cons, List.mem_singleton, List.mem_nil_iff,
    or_false] at hr
  rcases hr with rfl | rfl <;>
    simp only [AttribRecord.holdsVertex, ShadersCpp.vertices, sizeofFloat, List.length] <;>
    omega

theorem MainCpp.draw_within_main (d : MainCpp.Driver) :
    DrawWithin (MainCpp.declaredAttribs d) []
      ({ program := ActiveProgram.object d.shaderProgram, vertexArray := d.VAO1 },
       Event.glDrawArrays GLenum.GL_TRIANGLES 0 3) ∧
    DrawWithin (MainCpp.declaredAttribs d) []
      ({ program := ActiveProgram.object d.shaderProgram, vertexArray := d.VAO2 },
       Event.glDrawArrays GLenum.GL_TRIANGLES 0 3) := by
  have hall : ∀ r ∈ MainCpp.declaredAttribs d, ∀ v, v < 0 + 3 → r.holdsVertex v := by
    intro r hr v hv
    simp only [MainCpp.declaredAttribs, List.mem_cons, List.mem_singleton, List.mem_nil_iff,
      or_false] at hr
    rcases hr with rfl | rfl <;>
      simp only [AttribRecord.holdsVertex, MainCpp.vertices1, MainCpp.vertices2, sizeofFloat,
        List.length] <;>
      omega
  exact ⟨⟨⟨_, List.mem_cons_self _ _, rfl⟩, fun r hr _ v _ hv => hall r hr v hv⟩,
    ⟨⟨_, List.mem_cons_of_mem _ (List.mem_cons_self _ _), rfl⟩,
      fun r hr _ v _ hv => hall r hr v hv⟩⟩

theorem MainCpp.trace_elementUploads_main (h : Host) (d : MainCpp.Driver)
    (hw : h.windowOk = true) (hg : h.gladOk = true) :
    elementUploads 0 (MainCpp.main h d).trace = [] := by
  rcases MainCpp.run_cases_main h d with ⟨hw1, _⟩ | ⟨_, hg1, _⟩ | ⟨_, _, hm⟩
  · simp [hw] at hw1
  · simp [hg] at hg1
  rw [hm, elementUploads_three _ _ _
    (MainCpp.loop_all_main (fun e => !e.isBufferData)
      (by simp [HoldsOfLoopShell, Event.isBufferData]) d rfl { shouldClose := false } h.frames)
    (by cases windowCloses h.frames <;> rfl)]
  rcases h with ⟨_ | _, _, _, _⟩ <;>
  rcases d with ⟨_, _ | _, _, _, _ | _, _, _, _ | _, _, _, _, _, _, _⟩ <;> rfl

theorem ShadersCpp.trace_elementUploads_shaders (h : Host) (d : ShadersCpp.Driver)
    (hw : h.windowOk = true) (hg : h.gladOk = true) :
    elementUploads 0 (ShadersCpp.main h d).trace = [] := by
  rcases ShadersCpp.run_cases_shaders h d with ⟨hw1, _⟩ | ⟨_, hg1, _⟩ | ⟨_, _, hm⟩
  · simp [hw] at hw1
  · simp [hg] at hg1
  rw [hm, elementUploads_three _ _ _
    (ShadersCpp.loop_all_shaders (fun e => !e.isBufferData)
      (by simp [HoldsOfLoopShell, Event.isBufferData]) d rfl { shouldClose := false } h.frames)
    (by cases windowCloses h.frames <;> rfl)]
  rcases h with ⟨_ | _, _, _, _⟩ <;> rfl

/-- C13: on every run that reaches the setup, every draw call of every
iteration of the render loop stays inside the uploaded data.  In Textures and
Transformations the draw call is `glDrawElements(GL_TRIANGLES, 6,
GL_UNSIGNED_INT, 0)`: 6 is the number of entries of `indices`, the 6 indices
read from offset 0 lie inside the element array uploaded for the bound vertex
array, every entry of `indices` is less than 4, the number of vertices
uploaded, and every attribute of the bound vertex array can be read for each
of them.  In main.cpp and Shaders.cpp every draw call is
`glDrawArrays(GL_TRIANGLES, 0, 3)`, `first + count` is the 3 vertices of the
buffer, and every attribute of the bound vertex array can be read for the
vertices 0, 1, 2. -/
theorem C13_draw_calls_stay_inside_uploaded_data :
    (∀ (h : Host) (d : MainCpp.Driver), h.windowOk = true → h.gladOk = true →
      (∀ f ∈ framesOf (MainCpp.main h d).trace, ∀ bd ∈ drawCalls Binding.fresh f,
        bd.2 = Event.glDrawArrays GLenum.GL_TRIANGLES 0 3 ∧
        DrawWithin (attribRecords ArrayState.fresh (MainCpp.main h d).trace)
          (elementUploads 0 (MainCpp.main h d).trace) bd) ∧
      0 + 3 = MainCpp.vertices1.length / 3 ∧ 0 + 3 = MainCpp.vertices2.length / 3)
    ∧ (∀ (h : Host) (d : ShadersCpp.Driver), h.windowOk = true → h.gladOk = true →
      (∀ f ∈ framesOf (ShadersCpp.main h d).trace, ∀ bd ∈ drawCalls Binding.fresh f,
        bd.2 = Event.glDrawArrays GLenum.GL_TRIANGLES 0 3 ∧
        DrawWithin (attribRecords ArrayState.fresh (ShadersCpp.main h d).trace)
          (elementUploads 0 (ShadersCpp.main h d).trace) bd) ∧
      0 + 3 = ShadersCpp.vertices.length / 6)
    ∧ (∀ (h : Host) (d : TexturesCpp.Driver), h.windowOk = true → h.gladOk = true →
      (∀ f ∈ framesOf (TexturesCpp.main h d).trace, ∀ bd ∈ drawCalls Binding.fresh f,
        bd.2 = Event.glDrawElements GLenum.GL_TRIANGLES TexturesCpp.indices.length
          GLenum.GL_UNSIGNED_INT 0 ∧
        DrawWithin (attribRecords ArrayState.fresh (TexturesCpp.main h d).trace)
          (elementUploads 0 (TexturesCpp.main h d).trace) bd) ∧
      elementUploads 0 (TexturesCpp.main h d).trace = TexturesCpp.declaredElements d ∧
      TexturesCpp.indices.length = 6 ∧ TexturesCpp.vertices.length / 8 = 4 ∧
      (∀ i ∈ TexturesCpp.indices, i < 4))
    ∧ (∀ (h : Host) (d : TransformationsCpp.Driver), h.windowOk = true → h.gladOk = true →
      (∀ f ∈ framesOf (TransformationsCpp.main h d).trace, ∀ bd ∈ drawCalls Binding.fresh f,
        bd.2 = Event.glDrawElements GLenum.GL_TRIANGLES TransformationsCpp.indices.length
          GLenum.GL_UNSIGNED_INT 0 ∧
        DrawWithin (attribRecords ArrayState.fresh (TransformationsCpp.main h d).trace)
          (elementUploads 0 (TransformationsCpp.main h d).trace) bd) ∧
      elementUploads 0 (TransformationsCpp.main h d).trace =
        TransformationsCpp.declaredElements d ∧
      TransformationsCpp.indices.length = 6 ∧ TransformationsCpp.vertices.length / 8 = 4 ∧
      (∀ i ∈ TransformationsCpp.indices, i < 4)) := by
  refine ⟨?_, ?_, ?_, ?_⟩
  · intro h d hw hg
    refine ⟨?_, rfl, rfl⟩
    intro f hf bd hbd
    obtain ⟨s, i, _, rfl⟩ := MainCpp.mem_framesOf_main h d f hf
    rw [(MainCpp.frame_draws_main d s i).2.2] at hbd
    rw [MainCpp.trace_attribRecords_main h d hw hg, MainCpp.trace_elementUploads_main h d hw hg]
    simp only [List.mem_cons, List.mem_singleton, List.mem_nil_iff, or_false] at hbd
    rcases hbd with rfl | rfl
    · exact ⟨rfl, (MainCpp.draw_within_main d).1⟩
    · exact ⟨rfl, (MainCpp.draw_within_main d).2⟩
  · intro h d hw hg
    refine ⟨?_, rfl⟩
    intro f hf bd hbd
    obtain ⟨s, i, _, rfl⟩ := ShadersCpp.mem_framesOf_shaders h d f hf
    rw [(ShadersCpp.frame_draws_shaders d s i).2.2] at hbd
    rw [ShadersCpp.trace_attribRecords_shaders h d hw hg,
      ShadersCpp.trace_elementUploads_shaders h d hw hg]
    simp only [List.mem_singleton] at hbd
    subst hbd
    exact ⟨rfl, ShadersCpp.draw_within_shaders d⟩
  · intro h d hw hg
    refine ⟨?_, TexturesCpp.trace_elementUploads_textures h d hw hg, rfl, rfl, by decide⟩
    intro f hf bd hbd
    obtain ⟨s, i, _, rfl⟩ := TexturesCpp.mem_framesOf_textures h d f hf
    rw [(TexturesCpp.frame_draws_textures d s i).2.2] at hbd
    rw [TexturesCpp.trace_attribRecords_textures h d hw hg,
      TexturesCpp.trace_elementUploads_textures h d hw hg]
    simp only [List.mem_singleton] at hbd
    subst hbd
    exact ⟨rfl, TexturesCpp.draw_within_textures d⟩
  · intro h d hw hg
    refine ⟨?_, TransformationsCpp.trace_elementUploads_transformations h d hw hg, rfl, rfl,
      by decide⟩
    intro f hf bd hbd
    obtain ⟨s, i, _, rfl⟩ := TransformationsCpp.mem_framesOf_transformations h d f hf
    rw [(TransformationsCpp.frame_draws_transformations d s i).2.2] at hbd
    rw [TransformationsCpp.trace_attribRecords_transformations h d hw hg,
      TransformationsCpp.trace_elementUploads_transformations h d hw hg]
    simp only [List.mem_singleton] at hbd
    subst hbd
    exact ⟨rfl, TransformationsCpp.draw_within_transformations d⟩

/-- C13, instance: in the sample run of Textures `indices` is the element
array of 6 entries, each below the 4 vertices uploaded. -/
theorem C13_draw_calls_witness :
    sampleHost.windowOk = true ∧ sampleHost.gladOk = true ∧
    elementUploads 0 (TexturesCpp.main sampleHost TexturesCpp.sampleDriver).trace =
      TexturesCpp.declaredElements TexturesCpp.sampleDriver ∧
    (∀ i ∈ TexturesCpp.indices, i < 4) :=
  ⟨rfl, rfl,
   (C13_draw_calls_stay_inside_uploaded_data.2.2.1 sampleHost TexturesCpp.sampleDriver
      rfl rfl).2.1,
   (C13_draw_calls_stay_inside_uploaded_data.2.2.1 sampleHost TexturesCpp.sampleDriver
      rfl rfl).2.2.2.2⟩

/-! ## Samplers and texture units -/

theorem TextureUnits.next_of_no_texture_call (s : TextureUnits) (e : Event)
    (he : (!e.touchesTextures) = true) : s.next e = s := by
  cases e <;> first | rfl | simp [Event.touchesTextures] at he

theorem isDraw_of_no_texture_call (e : Event) (he : (!e.touchesTextures) = true) :
    e.isDraw = false := by
  cases e <;> first | rfl | simp [Event.touchesTextures] at he

theorem unitsAtDraws_neutral_append (s : TextureUnits) (l r : List Event)
    (hl : l.all (fun e => !e.touchesTextures) = true) :
    unitsAtDraws s (l ++ r) = unitsAtDraws s r := by
  induction l with
  | nil => rfl
  | cons e t ih =>
    simp only [List.all_cons, Bool.and_eq_true] at hl
    simp only [List.cons_append, unitsAtDraws, isDraw_of_no_texture_call e hl.1,
      TextureUnits.next_of_no_texture_call s e hl.1, Bool.false_eq_true, if_false]
    exact ih hl.2

theorem unitsAtDraws_append_neutral (s : TextureUnits) (l r : List Event)
    (hr : r.all (fun e => !e.touchesTextures) = true) :
    unitsAtDraws s (l ++ r) = unitsAtDraws s l := by
  induction l generalizing s with
  | nil =>
    have := unitsAtDraws_neutral_append s r [] hr
    simpa [unitsAtDraws] using this
  | cons e t ih =>
    rw [List.cons_append, unitsAtDraws, unitsAtDraws, ih]

theorem TransformationsCpp.frame_units (d : TransformationsCpp.Driver)
    (s : TransformationsCpp.State) (i : FrameInput) :
    unitsAtDraws TextureUnits.fresh (TransformationsCpp.frame d s i).1 =
      [{ active := 1, bound := [(1, d.texture2), (0, d.texture1)] }] := by
  have hshell : HoldsOfLoopShell (fun e => !e.touchesTextures) := by
    simp [HoldsOfLoopShell, Event.touchesTextures]
  simp only [TransformationsCpp.frame]
  rw [unitsAtDraws_append_neutral _ _ _
      (glfwPollEvents_all _ hshell (TransformationsCpp.processInput s i).2.window i),
    unitsAtDraws_neutral_append _ _ _
      (TransformationsCpp.processInput_all_transformations _ hshell s i)]
  rfl

theorem TransformationsCpp.setup_samplers (h : Host) (d : TransformationsCpp.Driver) :
    (createWindow h ++ loadGL h ++ TransformationsCpp.setup d).filterMap Event.samplerUnit =
      [("texture1", 0), ("texture2", 1)] := by
  rcases h with ⟨_ | _, _, _, _⟩ <;> rcases d with ⟨_, _, _, _, _, _ | _, _ | _⟩ <;> rfl

/-- C15: in Transformations, on every run that reaches the setup, the `setInt`
calls of the run are `setInt("texture1", 0)` and `setInt("texture2", 1)`; and
in every iteration of the render loop there is one draw call, made with
texture object `texture1` bound to `GL_TEXTURE_2D` on unit 0 (`GL_TEXTURE0`)
and `texture2` on unit 1 (`GL_TEXTURE1`), both bound in that iteration: the
unit given to sampler "texture1" holds `texture1`, the unit given to sampler
"texture2" holds `texture2`, and the two units differ. -/
theorem C15_samplers_match_texture_units (h : Host) (d : TransformationsCpp.Driver)
    (hw : h.windowOk = true) (hg : h.gladOk = true) :
    (TransformationsCpp.main h d).trace.filterMap Event.samplerUnit =
      [("texture1", 0), ("texture2", 1)]
    ∧ (∀ f ∈ framesOf (TransformationsCpp.main h d).trace,
        (unitsAtDraws TextureUnits.fresh f).length = 1 ∧
        ∀ s ∈ unitsAtDraws TextureUnits.fresh f,
          s.texture2D 0 = some d.texture1 ∧ s.texture2D 1 = some d.texture2)
    ∧ unitIndex GLenum.GL_TEXTURE0 = some 0 ∧ unitIndex GLenum.GL_TEXTURE1 = some 1
    ∧ (0 : Int) ≠ 1 := by
  refine ⟨?_, ?_, rfl, rfl, by decide⟩
  · rcases TransformationsCpp.run_cases_transformations h d with
      ⟨hw1, _⟩ | ⟨_, hg1, _⟩ | ⟨_, _, hm⟩
    · simp [hw] at hw1
    · simp [hg] at hg1
    rw [hm, filterMap_three, TransformationsCpp.setup_samplers,
      filterMap_eq_nil_of_all _ _
        (TransformationsCpp.loop_all_transformations (fun e => e.samplerUnit.isNone)
          (by simp [HoldsOfLoopShell, Event.samplerUnit]) d (fun _ _ => rfl)
          { window := { shouldClose := false }, mixValue := TransformationsCpp.mixValueInit }
          h.frames)]
    cases windowCloses h.frames <;> rfl
  · intro f hf
    obtain ⟨s, i, _, rfl⟩ := TransformationsCpp.mem_framesOf_transformations h d f hf
    rw [TransformationsCpp.frame_units d s i]
    refine ⟨rfl, ?_⟩
    intro u hu
    rw [List.mem_singleton] at hu
    subst hu
    exact ⟨rfl, rfl⟩

/-- C15, instance: the sample run of Transformations makes the two `setInt`
calls. -/
theorem C15_samplers_witness :
    sampleHost.windowOk = true ∧ sampleHost.gladOk = true ∧
    (TransformationsCpp.main sampleHost TransformationsCpp.sampleDriver).trace.filterMap
      Event.samplerUnit = [("texture1", 0), ("texture2", 1)] :=
  ⟨rfl, rfl,
   (C15_samplers_match_texture_units sampleHost TransformationsCpp.sampleDriver rfl rfl).1⟩

end LearnOpenGL
